import Mathlib

/-!
# ImGuiSDL software rasterizer: a shallow embedding

The definitions below follow `src/ImGuiSDL/ImGuiSDL.cpp`.

* `int32_t` values are integers; every operation that produces an `int32_t`
  reduces its exact result with `wrap32` (two's complement).
* `float` and `double` values are the rationals they denote. Every `float` operation of the
  source rounds its exact result with `roundFloat` (24 significand bits, ties to even) and
  every `double` operation of the constructor `fixed(double)` and of `UsesOnlyColor` with
  `roundDouble` (53 bits). The values obtained from `fixed::to_double` are `value / 2^16`;
  each of them, and its product with a byte or a texture dimension, is exactly representable
  in a `double`, so these products are taken as they are.
* A conversion of a floating value to an integer type truncates toward zero; a conversion
  to `int32_t` or `int` of a value outside the range of the type gives `INT_MIN`, as the
  conversion instruction does.
* An operation without a defined result (division by zero, a failed `assert`, a read
  outside a buffer) makes the enclosing function return `none`.
* The renderer (`SDL_Renderer*`) is modelled by the ordered log of the calls made
  on it.
-/

namespace ImGuiSDL

/-! ## Machine integers and floating conversions -/

/-- Reduction of an exact integer result to `int32_t` (two's complement). -/
def wrap32 (x : Int) : Int := (x + 2147483648) % 4294967296 - 2147483648

/-- The values of `int32_t`. -/
def InRange32 (x : Int) : Prop := -2147483648 ≤ x ∧ x ≤ 2147483647

instance (x : Int) : Decidable (InRange32 x) := by
  unfold InRange32; infer_instance

/-- Conversion of a floating value to an integer type: truncation toward zero. -/
def truncToInt (q : ℚ) : Int := Int.tdiv q.num q.den

/-- Conversion of a floating value to `int32_t` (or `int`): truncation toward zero; a value
outside the range of the type gives `INT_MIN`. -/
def floatToInt32 (q : ℚ) : Int :=
  if -2147483648 ≤ truncToInt q ∧ truncToInt q ≤ 2147483647 then truncToInt q else -2147483648

/-- The quotient `N / D` rounded to the nearest integer, a tie to the even one. -/
def roundHalfEven (N D : Nat) : Nat :=
  if 2 * (N % D) < D then N / D
  else if 2 * (N % D) = D then (if (N / D) % 2 = 0 then N / D else N / D + 1)
  else N / D + 1

/-- The number of halvings that bring `n` below `2`, at most `fuel` of them. -/
def halvings : Nat → Nat → Nat
  | 0, _ => 0
  | fuel + 1, n => if n < 2 then 0 else halvings fuel (n / 2) + 1

/-- The natural number `e` with `2^e <= n < 2^(e+1)`, for positive `n`. -/
def log2Floor (n : Nat) : Nat := halvings n n

/-- The integer `e` with `2^e <= n / d < 2^(e+1)`, for positive `n` and `d`. -/
def floorLog2 (n d : Nat) : Int :=
  let k : Int := (log2Floor n : Int) - (log2Floor d : Int)
  if (if 0 ≤ k then decide (2 ^ k.toNat * d ≤ n) else decide (d ≤ n * 2 ^ (-k).toNat)) then k
  else k - 1

/-- Rounding of an exact value to the binary floating format with `precision` significand
bits and least exponent `emin`: to the nearest value of the format, a tie to the one with
the even significand. A value beyond the largest finite one of the format is rounded as if
the exponent had no upper bound; every such value is outside the range of `int32_t`. -/
def roundFloating (precision : Nat) (emin : Int) (q : ℚ) : ℚ :=
  if q = 0 then 0 else
  let n := q.num.natAbs
  let d := q.den
  let s : Int := max (floorLog2 n d) emin - ((precision : Int) - 1)
  let magnitude : ℚ :=
    if 0 ≤ s then ((roundHalfEven n (d * 2 ^ s.toNat) * 2 ^ s.toNat : Nat) : ℚ)
    else ((roundHalfEven (n * 2 ^ (-s).toNat) d : Nat) : ℚ) / ((2 ^ (-s).toNat : Nat) : ℚ)
  if q < 0 then -magnitude else magnitude

/-- Rounding to `float`. -/
def roundFloat (q : ℚ) : ℚ := roundFloating 24 (-126) q

/-- Rounding to `double`. -/
def roundDouble (q : ℚ) : ℚ := roundFloating 53 (-1022) q

/-! ## `struct fixed` -/

/-- Q16.16 number, `struct fixed`: the raw `int32_t value`. -/
structure fixed where
  value : Int
deriving DecidableEq, Repr

namespace fixed

/-- The constant `static constexpr unsigned shift = 16`. -/
def shift : Nat := 16

/-- Constructor `fixed(float v) : value(v * (1 << shift) + 0.5f)`: the product and the
sum are `float` operations, the result is converted to `int32_t`. -/
def ofFloat (v : ℚ) : fixed :=
  ⟨floatToInt32 (roundFloat (roundFloat (v * (2 ^ shift : ℚ)) + 1 / 2))⟩

/-- Constructor `fixed(double v) : value(v * (1 << shift) + 0.5)`: the product and the
sum are `double` operations, the result is converted to `int32_t`. -/
def ofDouble (v : ℚ) : fixed :=
  ⟨floatToInt32 (roundDouble (roundDouble (v * (2 ^ shift : ℚ)) + 1 / 2))⟩

/-- Method `to_double`: `static_cast<double>(value) / (1 << shift)`. -/
def to_double (f : fixed) : ℚ := (f.value : ℚ) / (2 ^ shift : ℚ)

/-- Operator `+`. -/
def add (a b : fixed) : fixed := ⟨wrap32 (a.value + b.value)⟩

/-- Operator `-`. -/
def sub (a b : fixed) : fixed := ⟨wrap32 (a.value - b.value)⟩

/-- Operator `*`: 64-bit product, arithmetic shift right by `shift`, cast to `int32_t`. -/
def mul (a b : fixed) : fixed := ⟨wrap32 ((a.value * b.value) >>> shift)⟩

/-- Operator `/`: the numerator is widened and shifted left by `shift`, the 64-bit
quotient is truncated toward zero and cast to `int32_t`. A zero divisor has no result. -/
def div (a b : fixed) : Option fixed :=
  if b.value = 0 then none else some ⟨wrap32 (Int.tdiv (a.value * 2 ^ shift) b.value)⟩

/-- Operator `<`: `to_double() < v.to_double()`. -/
def lt (a b : fixed) : Bool := decide (a.to_double < b.to_double)

/-- Library function `std::min(a, b)` at type `fixed`: `(b < a) ? b : a`. -/
def min (a b : fixed) : fixed := if b.lt a then b else a

/-- Library function `std::max(a, b)` at type `fixed`: `(a < b) ? b : a`. -/
def max (a b : fixed) : fixed := if a.lt b then b else a

instance : Add fixed := ⟨add⟩
instance : Sub fixed := ⟨sub⟩
instance : Mul fixed := ⟨mul⟩

end fixed

/-- Pair of coordinates, `struct FixedVector`. -/
structure FixedVector where
  X : fixed
  Y : fixed
deriving DecidableEq, Repr

/-- Vertex, `struct FixedVertex`; `Color` is the packed `uint32_t`. -/
structure FixedVertex where
  Position : FixedVector
  TextureCoordinate : FixedVector
  Color : Nat
deriving DecidableEq, Repr

/-! ## `struct Line` -/

/-- Edge function, `struct Line`. -/
structure Line where
  XCoefficient : fixed
  YCoefficient : fixed
  Constant : fixed
  Tie : Bool
deriving DecidableEq, Repr

namespace Line

/-- Constructor `Line(fixed x0, fixed y0, fixed x1, fixed y1)`. -/
def new (x0 y0 x1 y1 : fixed) : Line :=
  let XCoefficient := y0 - y1
  let YCoefficient := x1 - x0
  { XCoefficient := XCoefficient
    YCoefficient := YCoefficient
    Constant := fixed.ofFloat (-1 / 2) * (XCoefficient * (x0 + x1) + YCoefficient * (y0 + y1))
    Tie := if XCoefficient.value ≠ 0 then decide (XCoefficient.value > 0)
           else decide (YCoefficient.value > 0) }

/-- Method `Evaluate(fixed x, fixed y)`. -/
def Evaluate (l : Line) (x y : fixed) : fixed :=
  l.XCoefficient * x + l.YCoefficient * y + l.Constant

/-- Method `IsInside(fixed v)`. -/
def IsInsideValue (l : Line) (v : fixed) : Bool :=
  decide (v.value > 0) || (decide (v.value = 0) && l.Tie)

/-- Method `IsInside(fixed x, fixed y)`. -/
def IsInside (l : Line) (x y : fixed) : Bool :=
  l.IsInsideValue (l.Evaluate x y)

end Line

/-! ## `struct InterpolatedFactorEquation` -/

/-- Barycentric interpolation of one attribute, `struct InterpolatedFactorEquation`. -/
structure InterpolatedFactorEquation where
  Value0 : fixed
  Value1 : fixed
  Value2 : fixed
  V0 : FixedVector
  V1 : FixedVector
  V2 : FixedVector
  Divisor : fixed
deriving DecidableEq, Repr

namespace InterpolatedFactorEquation

/-- Constructor of `InterpolatedFactorEquation`; it computes `Divisor`. -/
def new (value0 value1 value2 : fixed) (v0 v1 v2 : FixedVector) : InterpolatedFactorEquation :=
  { Value0 := value0, Value1 := value1, Value2 := value2, V0 := v0, V1 := v1, V2 := v2
    Divisor := (v1.Y - v2.Y) * (v0.X - v2.X) + (v2.X - v1.X) * (v0.Y - v2.Y) }

/-- The three locals `w1`, `w2`, `w3` of `Evaluate`; a zero `Divisor` gives no result. -/
def weights (e : InterpolatedFactorEquation) (x y : fixed) : Option (fixed × fixed × fixed) :=
  (fixed.div ((e.V1.Y - e.V2.Y) * (x - e.V2.X) + (e.V2.X - e.V1.X) * (y - e.V2.Y)) e.Divisor).bind
    fun w1 =>
  (fixed.div ((e.V2.Y - e.V0.Y) * (x - e.V2.X) + (e.V0.X - e.V2.X) * (y - e.V2.Y)) e.Divisor).bind
    fun w2 =>
  some (w1, w2, fixed.ofDouble 1 - w1 - w2)

/-- Method `Evaluate(fixed x, fixed y)`. -/
def Evaluate (e : InterpolatedFactorEquation) (x y : fixed) : Option fixed :=
  (e.weights x y).map fun w => w.1 * e.Value0 + w.2.1 * e.Value1 + w.2.2 * e.Value2

end InterpolatedFactorEquation

/-! ## `struct Color` -/

/-- Four channels, `struct Color`. -/
structure Color where
  R : fixed
  G : fixed
  B : fixed
  A : fixed
deriving DecidableEq, Repr

namespace Color

/-- Constructor `Color(uint32_t color)`: each byte is divided by `255.0f`, a `float`
division, and converted by `fixed(float)`. -/
def ofUInt32 (color : Nat) : Color :=
  { R := fixed.ofFloat (roundFloat ((((color >>> 0) &&& 0xff : Nat) : ℚ) / 255))
    G := fixed.ofFloat (roundFloat ((((color >>> 8) &&& 0xff : Nat) : ℚ) / 255))
    B := fixed.ofFloat (roundFloat ((((color >>> 16) &&& 0xff : Nat) : ℚ) / 255))
    A := fixed.ofFloat (roundFloat ((((color >>> 24) &&& 0xff : Nat) : ℚ) / 255)) }

/-- Operator `*` of `Color`: channel-wise product. -/
def mul (c d : Color) : Color := ⟨c.R * d.R, c.G * d.G, c.B * d.B, c.A * d.A⟩

instance : Mul Color := ⟨mul⟩

end Color

/-- Conversion of a `double` argument to a `Uint8` parameter. -/
def toUint8 (q : ℚ) : Int := truncToInt q % 256

/-! ## `struct Texture` -/

/-- Handle of an `SDL_Texture`: one handed in by the caller, or the `n`-th one created
through `Target::MakeTexture`. -/
inductive SDL_Texture where
  | external (id : Nat)
  | created (n : Nat)
deriving DecidableEq, Repr

/-- Texture, `struct Texture`: `w`, `h` and `pixels` are those of `Surface`. -/
structure Texture where
  w : Int
  h : Int
  pixels : List Nat
  Source : SDL_Texture
deriving DecidableEq, Repr

/-- Library function `roundf`: nearest integer, halfway cases away from zero. -/
def roundf (q : ℚ) : ℚ := if 0 ≤ q then (truncToInt (q + 1 / 2) : ℚ) else (truncToInt (q - 1 / 2) : ℚ)

namespace Texture

/-- The local `x` of `Sample`, and with `h` for `w` the local `y`:
`static_cast<int>(roundf(u * (Surface->w - 1) + 0.5f))` for a `float` `u`. The conversion
of `Surface->w - 1` to `float`, the product and the sum are rounded to `float`. -/
def SampleCoordinate (size : Int) (u : ℚ) : Int :=
  floatToInt32 (roundf (roundFloat (roundFloat (u * roundFloat ((size - 1 : Int) : ℚ)) + 1 / 2)))

/-- The local `location` of `Sample`. -/
def SampleLocation (t : Texture) (u v : ℚ) : Int :=
  SampleCoordinate t.h v * t.w + SampleCoordinate t.w u

/-- Method `Sample(float u, float v)`; an argument is converted to `float` when it is
passed. A failed `assert` and a read outside `pixels` give no result. -/
def Sample (t : Texture) (u v : ℚ) : Option Color :=
  let location := t.SampleLocation (roundFloat u) (roundFloat v)
  if location < t.w * t.h then
    if 0 ≤ location then (t.pixels.get? location.toNat).map Color.ofUInt32 else none
  else none

end Texture

/-! ## `struct Rect` and the bounding box -/

/-- Extents of a triangle, `struct Rect`. -/
structure Rect where
  MinX : fixed
  MinY : fixed
  MaxX : fixed
  MaxY : fixed
  MinU : fixed
  MinV : fixed
  MaxU : fixed
  MaxV : fixed
deriving DecidableEq, Repr

namespace Rect

/-- Method `IsOnExtreme(const FixedVector& point)`. -/
def IsOnExtreme (r : Rect) (point : FixedVector) : Bool :=
  (decide (point.X = r.MinX) || decide (point.X = r.MaxX)) &&
    (decide (point.Y = r.MinY) || decide (point.Y = r.MaxY))

/-- Method `UsesOnlyColor(const Texture* texture)`. -/
def UsesOnlyColor (r : Rect) (texture : Texture) : Bool :=
  let whiteU := fixed.ofDouble (roundDouble ((1 / 2 : ℚ) / (texture.w : ℚ)))
  let whiteV := fixed.ofDouble (roundDouble ((1 / 2 : ℚ) / (texture.h : ℚ)))
  decide (r.MinU = r.MaxU) && decide (r.MinU = whiteU) && decide (r.MinV = r.MaxV) &&
    decide (r.MaxV = whiteV)

end Rect

/-- Template `Min3` at type `fixed`. -/
def Min3 (a b c : fixed) : fixed := fixed.min a (fixed.min b c)

/-- Template `Max3` at type `fixed`. -/
def Max3 (a b c : fixed) : fixed := fixed.max a (fixed.max b c)

/-- Function `CalculateBoundingBox`. -/
def CalculateBoundingBox (v0 v1 v2 : FixedVertex) : Rect :=
  { MinX := Min3 v0.Position.X v1.Position.X v2.Position.X
    MinY := Min3 v0.Position.Y v1.Position.Y v2.Position.Y
    MaxX := Max3 v0.Position.X v1.Position.X v2.Position.X
    MaxY := Max3 v0.Position.Y v1.Position.Y v2.Position.Y
    MinU := Min3 v0.TextureCoordinate.X v1.TextureCoordinate.X v2.TextureCoordinate.X
    MinV := Min3 v0.TextureCoordinate.Y v1.TextureCoordinate.Y v2.TextureCoordinate.Y
    MaxU := Max3 v0.TextureCoordinate.X v1.TextureCoordinate.X v2.TextureCoordinate.X
    MaxV := Max3 v0.TextureCoordinate.Y v1.TextureCoordinate.Y v2.TextureCoordinate.Y }


/-! ## The renderer and `struct Target` -/

/-- Rectangle in pixels, `SDL_Rect`. -/
structure SDL_Rect where
  x : Int
  y : Int
  w : Int
  h : Int
deriving DecidableEq, Repr

/-- Clip rectangle, `struct ClipRect`. -/
structure ClipRect where
  X : Int
  Y : Int
  Width : Int
  Height : Int
deriving DecidableEq, Repr

/-- The calls made on the `SDL_Renderer`, with their arguments. -/
inductive RenderCall where
  | SetClipRect (clip : Option SDL_Rect)
  | SetRenderDrawColor (r g b a : Int)
  | SetRenderDrawBlendMode
  | RenderDrawPoint (x y : Int)
  | RenderFillRect (rect : SDL_Rect)
  | CreateTexture (w h : Int)
  | SetTextureBlendMode (texture : SDL_Texture)
  | SetRenderTarget (texture : Option SDL_Texture)
  | RenderClear
  | SetTextureColorMod (texture : SDL_Texture) (r g b : Int)
  | RenderCopy (texture : SDL_Texture) (source : Option SDL_Rect) (destination : SDL_Rect)
deriving DecidableEq, Repr

/-- Key of the tile cache, `Target::TextureCacheKey`: per vertex `X, Y, U, V, Color`,
then the tile width and height. -/
abbrev TextureCacheKey : Type :=
  fixed × fixed × fixed × fixed × Nat × fixed × fixed × fixed × fixed × Nat ×
    fixed × fixed × fixed × fixed × Nat × Int × Int

/-- Operator `<` of `std::tuple`, one step: compare the heads, then the tails. -/
def tupleLess {α β : Type} (headLess : α → α → Bool) (tailLess : β → β → Bool)
    (a b : α × β) : Bool :=
  headLess a.1 b.1 || (!headLess b.1 a.1 && tailLess a.2 b.2)

/-- Operator `<` of `uint32_t`. -/
def uint32Less (a b : Nat) : Bool := decide (a < b)

/-- Operator `<` of `int`. -/
def intLess (a b : Int) : Bool := decide (a < b)

namespace TextureCacheKey

/-- Operator `<` of the key tuple, the ordering of `std::map<TextureCacheKey, SDL_Texture*>`. -/
def less : TextureCacheKey → TextureCacheKey → Bool :=
  tupleLess fixed.lt <| tupleLess fixed.lt <| tupleLess fixed.lt <| tupleLess fixed.lt <|
  tupleLess uint32Less <|
  tupleLess fixed.lt <| tupleLess fixed.lt <| tupleLess fixed.lt <| tupleLess fixed.lt <|
  tupleLess uint32Less <|
  tupleLess fixed.lt <| tupleLess fixed.lt <| tupleLess fixed.lt <| tupleLess fixed.lt <|
  tupleLess uint32Less <|
  tupleLess intLess intLess

/-- Two keys are the same key of the `std::map` when neither is less than the other. -/
def equiv (a b : TextureCacheKey) : Bool := !less a b && !less b a

end TextureCacheKey

/-- Render target, `struct Target`. `Renderer` is the log of the calls made on the
renderer, oldest first; `Created` counts the textures made by `MakeTexture`. -/
structure Target where
  Width : Int
  Height : Int
  Clip : ClipRect
  CacheTextures : List (TextureCacheKey × SDL_Texture)
  Renderer : List RenderCall
  Created : Nat
deriving Repr

namespace Target

/-- One call on the renderer. -/
def call (target : Target) (c : RenderCall) : Target :=
  { target with Renderer := target.Renderer ++ [c] }

/-- Member `CacheTextures.count(key)`. -/
def cacheCount (target : Target) (key : TextureCacheKey) : Nat :=
  (target.CacheTextures.filter fun entry => TextureCacheKey.equiv entry.1 key).length

/-- Member `CacheTextures.at(key)`. -/
def cacheAt (target : Target) (key : TextureCacheKey) : Option SDL_Texture :=
  (target.CacheTextures.find? fun entry => TextureCacheKey.equiv entry.1 key).map Prod.snd

/-- Assignment `CacheTextures[key] = texture`. -/
def cacheSet (target : Target) (key : TextureCacheKey) (texture : SDL_Texture) : Target :=
  { target with
    CacheTextures :=
      if target.cacheCount key > 0 then
        target.CacheTextures.map fun entry =>
          if TextureCacheKey.equiv entry.1 key then (entry.1, texture) else entry
      else target.CacheTextures ++ [(key, texture)] }

/-- Method `SetClipRect`. -/
def SetClipRect (target : Target) (rect : ClipRect) : Target :=
  { target with Clip := rect }.call
    (RenderCall.SetClipRect (some ⟨rect.X, rect.Y, rect.Width, rect.Height⟩))

/-- Method `EnableClip`. -/
def EnableClip (target : Target) : Target := target.SetClipRect target.Clip

/-- Method `DisableClip`. -/
def DisableClip (target : Target) : Target := target.call (RenderCall.SetClipRect none)

/-- Method `SetAt(float x, float y, const Color& color)`. -/
def SetAt (target : Target) (x y : Int) (color : Color) : Target :=
  ((target.call (RenderCall.SetRenderDrawColor (toUint8 (color.R.to_double * 255))
      (toUint8 (color.G.to_double * 255)) (toUint8 (color.B.to_double * 255))
      (toUint8 (color.A.to_double * 255)))).call
    RenderCall.SetRenderDrawBlendMode).call (RenderCall.RenderDrawPoint x y)

/-- Method `MakeTexture(int width, int height)`. -/
def MakeTexture (target : Target) (width height : Int) : SDL_Texture × Target :=
  let texture := SDL_Texture.created target.Created
  (texture, ({ target with Created := target.Created + 1 }.call
    (RenderCall.CreateTexture width height)).call (RenderCall.SetTextureBlendMode texture))

/-- Method `UseAsRenderTarget(SDL_Texture* texture)`. -/
def UseAsRenderTarget (target : Target) (texture : Option SDL_Texture) : Target :=
  let target := target.call (RenderCall.SetRenderTarget texture)
  match texture with
  | some _ => (target.call (RenderCall.SetRenderDrawColor 0 0 0 0)).call RenderCall.RenderClear
  | none => target

end Target

/-- The constant `CacheTexturePadding`. -/
def CacheTexturePadding : Int := 2

/-- The local `destination` of `DrawTriangle` and of `DrawUniformColorTriangle`. -/
def cacheDestination (bounding : Rect) : SDL_Rect :=
  { x := truncToInt bounding.MinX.to_double - CacheTexturePadding
    y := truncToInt bounding.MinY.to_double - CacheTexturePadding
    w := truncToInt (bounding.MaxX - bounding.MinX).to_double + 2 * CacheTexturePadding
    h := truncToInt (bounding.MaxY - bounding.MinY).to_double + 2 * CacheTexturePadding }

/-- The locals `offset0`, `offset1`, `offset2` of `DrawTriangle` and of
`DrawUniformColorTriangle`. -/
def cacheOffset (v : FixedVertex) (bounding : Rect) : FixedVector :=
  ⟨v.Position.X - bounding.MinX, v.Position.Y - bounding.MinY⟩

/-- The local `key` of `DrawTriangle` and of `DrawUniformColorTriangle`. -/
def cacheKey (v0 v1 v2 : FixedVertex) (bounding : Rect) : TextureCacheKey :=
  ((cacheOffset v0 bounding).X, (cacheOffset v0 bounding).Y,
    v0.TextureCoordinate.X, v0.TextureCoordinate.Y, v0.Color,
   (cacheOffset v1 bounding).X, (cacheOffset v1 bounding).Y,
    v1.TextureCoordinate.X, v1.TextureCoordinate.Y, v1.Color,
   (cacheOffset v2 bounding).X, (cacheOffset v2 bounding).Y,
    v2.TextureCoordinate.X, v2.TextureCoordinate.Y, v2.Color,
   (cacheDestination bounding).w, (cacheDestination bounding).h)


/-! ## Rasterizers -/

/-- The values of an `int` counter running upward from `first` while it is at most `last`. -/
def intRange (first last : Int) : List Int :=
  (List.range (last + 1 - first).toNat).map fun k => first + (k : Int)

/-- The values of an `int` counter running downward from `first` while it is above `bound`. -/
def intRangeDown (first bound : Int) : List Int :=
  (List.range (first - bound).toNat).map fun k => first - (k : Int)

/-- Function `DrawTriangle`. The loops over `drawY` and `drawX` run from `0` to
`destination.h` and `destination.w` inclusive. A division by a zero `Divisor`, a failed
`assert` in `Sample` and a read outside the surface give no result. -/
def DrawTriangle (target : Target) (v0 v1 v2 : FixedVertex) (texture : Texture)
    (bounding : Rect) : Option Target :=
  let destination := cacheDestination bounding
  let key := cacheKey v0 v1 v2 bounding
  if target.cacheCount key > 0 then
    (target.cacheAt key).map fun cached =>
      target.call (RenderCall.RenderCopy cached none destination)
  else
    let line0 := Line.new v0.Position.X v0.Position.Y v1.Position.X v1.Position.Y
    let line1 := Line.new v1.Position.X v1.Position.Y v2.Position.X v2.Position.Y
    let line2 := Line.new v2.Position.X v2.Position.Y v0.Position.X v0.Position.Y
    let color0 := Color.ofUInt32 v0.Color
    let color1 := Color.ofUInt32 v1.Color
    let color2 := Color.ofUInt32 v2.Color
    let textureU := InterpolatedFactorEquation.new v0.TextureCoordinate.X v1.TextureCoordinate.X
      v2.TextureCoordinate.X v0.Position v1.Position v2.Position
    let textureV := InterpolatedFactorEquation.new v0.TextureCoordinate.Y v1.TextureCoordinate.Y
      v2.TextureCoordinate.Y v0.Position v1.Position v2.Position
    let shadeR := InterpolatedFactorEquation.new color0.R color1.R color2.R
      v0.Position v1.Position v2.Position
    let shadeG := InterpolatedFactorEquation.new color0.G color1.G color2.G
      v0.Position v1.Position v2.Position
    let shadeB := InterpolatedFactorEquation.new color0.B color1.B color2.B
      v0.Position v1.Position v2.Position
    let shadeA := InterpolatedFactorEquation.new color0.A color1.A color2.A
      v0.Position v1.Position v2.Position
    let made := target.MakeTexture destination.w destination.h
    let cacheTexture := made.1
    let target := (made.2.UseAsRenderTarget (some cacheTexture)).DisableClip
    let drawn : Option Target :=
      (intRange 0 destination.h).foldl
        (fun (row : Option Target) (drawY : Int) =>
          (intRange 0 destination.w).foldl
            (fun (state : Option Target) (drawX : Int) =>
              state.bind fun target =>
                let sampleX := fixed.ofFloat (roundFloat ((drawX : ℚ) + 1 / 2)) + bounding.MinX
                let sampleY := fixed.ofFloat (roundFloat ((drawY : ℚ) + 1 / 2)) + bounding.MinY
                if line0.IsInside sampleX sampleY && line1.IsInside sampleX sampleY
                    && line2.IsInside sampleX sampleY then
                  (textureU.Evaluate sampleX sampleY).bind fun u =>
                  (textureV.Evaluate sampleX sampleY).bind fun v =>
                  (texture.Sample u.to_double v.to_double).bind fun sampled =>
                  (shadeR.Evaluate sampleX sampleY).bind fun r =>
                  (shadeG.Evaluate sampleX sampleY).bind fun g =>
                  (shadeB.Evaluate sampleX sampleY).bind fun b =>
                  (shadeA.Evaluate sampleX sampleY).bind fun a =>
                  some (target.SetAt (drawX + CacheTexturePadding) (drawY + CacheTexturePadding)
                    (sampled * Color.mk r g b a))
                else some target)
            row)
        (some target)
    drawn.map fun target =>
      (((target.EnableClip).UseAsRenderTarget none).call
        (RenderCall.RenderCopy cacheTexture none destination)).cacheSet key cacheTexture

/-- The horizontal line slice of the flat-triangle loops: `x` runs from
`static_cast<int>(xStart)` to `static_cast<int>(xEnd)` inclusive. -/
def drawSlice (target : Target) (currentX0 currentX1 : fixed) (scanLineY : Int)
    (color : Color) : Target :=
  let xStart := min currentX0.to_double currentX1.to_double
  let xEnd := max currentX0.to_double currentX1.to_double
  (intRange (truncToInt xStart) (truncToInt xEnd)).foldl
    (fun (target : Target) (x : Int) => target.SetAt (x + CacheTexturePadding) (scanLineY + CacheTexturePadding) color)
    target

/-- Function `DrawBottomFlatTriangle`. The counter `scanLineY` starts at
`static_cast<int>(y0.to_double())` and runs while `scanLineY <= y1.to_double()`, so up to
the floor of `y1.to_double()`. A division by zero gives no result. -/
def DrawBottomFlatTriangle (target : Target) (x0 y0 x1 y1 x2 y2 : fixed) (color : Color) :
    Option Target :=
  (fixed.div (x1 - x0) (y1 - y0)).bind fun invSlope0 =>
  (fixed.div (x2 - x0) (y2 - y0)).bind fun invSlope1 =>
  some ((intRange (truncToInt y0.to_double) ⌊y1.to_double⌋).foldl
    (fun (state : fixed × fixed × Target) (scanLineY : Int) =>
      (state.1 + invSlope1, state.2.1 + invSlope0,
        drawSlice state.2.2 state.1 state.2.1 scanLineY color))
    (x0, x0, target)).2.2

/-- Function `DrawTopFlatTriangle`. The counter `scanLineY` starts at
`static_cast<int>(y2.to_double())` and runs downward while `scanLineY > y0.to_double()`, so
while it is above the floor of `y0.to_double()`. A division by zero gives no result. -/
def DrawTopFlatTriangle (target : Target) (x0 y0 x1 y1 x2 y2 : fixed) (color : Color) :
    Option Target :=
  (fixed.div (x2 - x0) (y2 - y0)).bind fun invSlope0 =>
  (fixed.div (x2 - x1) (y2 - y1)).bind fun invSlope1 =>
  some ((intRangeDown (truncToInt y2.to_double) ⌊y0.to_double⌋).foldl
    (fun (state : fixed × fixed × Target) (scanLineY : Int) =>
      (state.1 - invSlope0, state.2.1 - invSlope1,
        drawSlice state.2.2 state.1 state.2.1 scanLineY color))
    (x2, x2, target)).2.2

/-- Insertion of `v` into a list ordered by `Y.value`, behind the entries that are not above it. -/
def insertByY (v : FixedVector) : List FixedVector → List FixedVector
  | [] => [v]
  | a :: rest => if v.Y.value < a.Y.value then v :: a :: rest else a :: insertByY v rest

/-- The call `std::sort(vertices.begin(), vertices.end(), ...)` with the comparison
`a.Y.value < b.Y.value`: for three elements the library sorts by insertion, which keeps
the order of entries with equal `Y`. -/
def sortByY (vertices : List FixedVector) : List FixedVector :=
  vertices.foldl (fun sorted v => insertByY v sorted) []

/-- Function `DrawUniformColorTriangle`. A division by zero gives no result. -/
def DrawUniformColorTriangle (target : Target) (v0 v1 v2 : FixedVertex) (bounding : Rect) :
    Option Target :=
  let destination := cacheDestination bounding
  let offset0 := cacheOffset v0 bounding
  let offset1 := cacheOffset v1 bounding
  let offset2 := cacheOffset v2 bounding
  let key := cacheKey v0 v1 v2 bounding
  if target.cacheCount key > 0 then
    (target.cacheAt key).map fun cached =>
      target.call (RenderCall.RenderCopy cached none destination)
  else
    let made := target.MakeTexture destination.w destination.h
    let cacheTexture := made.1
    let target := (made.2.UseAsRenderTarget (some cacheTexture)).DisableClip
    let color := Color.ofUInt32 v0.Color
    let vertices := sortByY [offset0, offset1, offset2]
    let drawn : Option Target :=
      (vertices.get? 0).bind fun vertex0 =>
      (vertices.get? 1).bind fun vertex1 =>
      (vertices.get? 2).bind fun vertex2 =>
      if vertex1.Y = vertex2.Y then
        DrawBottomFlatTriangle target vertex0.X vertex0.Y vertex1.X vertex1.Y
          vertex2.X vertex2.Y color
      else if vertex0.Y = vertex1.Y then
        DrawTopFlatTriangle target vertex0.X vertex0.Y vertex1.X vertex1.Y
          vertex2.X vertex2.Y color
      else
        (fixed.div (vertex1.Y - vertex0.Y) (vertex2.Y - vertex0.Y)).bind fun slope =>
        let vertex3 : FixedVector := ⟨vertex0.X + slope * (vertex2.X - vertex0.X), vertex1.Y⟩
        (DrawBottomFlatTriangle target vertex0.X vertex0.Y vertex1.X vertex1.Y
          vertex3.X vertex3.Y color).bind fun target =>
        DrawTopFlatTriangle target vertex1.X vertex1.Y vertex3.X vertex3.Y
          vertex2.X vertex2.Y color
    drawn.map fun target =>
      (((target.EnableClip).UseAsRenderTarget none).call
        (RenderCall.RenderCopy cacheTexture none destination)).cacheSet key cacheTexture

/-- Function `DrawRectangle`. -/
def DrawRectangle (target : Target) (bounding : Rect) (texture : Texture) (color : Color) :
    Target :=
  let destination : SDL_Rect :=
    { x := truncToInt bounding.MinX.to_double
      y := truncToInt bounding.MinY.to_double
      w := truncToInt (bounding.MaxX - bounding.MinX).to_double
      h := truncToInt (bounding.MaxY - bounding.MinY).to_double }
  if bounding.UsesOnlyColor texture then
    (target.call (RenderCall.SetRenderDrawColor (toUint8 (color.R.to_double * 255))
      (toUint8 (color.G.to_double * 255)) (toUint8 (color.B.to_double * 255))
      (toUint8 (color.A.to_double * 255)))).call (RenderCall.RenderFillRect destination)
  else
    let source : SDL_Rect :=
      { x := truncToInt (bounding.MinU.to_double * (texture.w : ℚ))
        y := truncToInt (bounding.MinV.to_double * (texture.h : ℚ))
        w := truncToInt ((bounding.MaxU - bounding.MinU).to_double * (texture.w : ℚ))
        h := truncToInt ((bounding.MaxV - bounding.MinV).to_double * (texture.h : ℚ)) }
    (target.call (RenderCall.SetTextureColorMod texture.Source (toUint8 (color.R.to_double * 255))
      (toUint8 (color.G.to_double * 255)) (toUint8 (color.B.to_double * 255)))).call
      (RenderCall.RenderCopy texture.Source (some source) destination)

/-! ## The dispatcher `DoImGuiRender` -/

/-- Type `ImVec2` of the GUI library: two `float`s. -/
structure ImVec2 where
  x : ℚ
  y : ℚ
deriving DecidableEq, Repr

/-- Type `ImDrawVert` of the GUI library. -/
structure ImDrawVert where
  pos : ImVec2
  uv : ImVec2
  col : Nat
deriving DecidableEq, Repr

/-- Constructor `FixedVertex(const ImDrawVert& vert)`. -/
def FixedVertex.new (vert : ImDrawVert) : FixedVertex :=
  { Position := ⟨fixed.ofFloat vert.pos.x, fixed.ofFloat vert.pos.y⟩
    TextureCoordinate := ⟨fixed.ofFloat vert.uv.x, fixed.ofFloat vert.uv.y⟩
    Color := vert.col }

/-- The expression `FixedVertex(vertexBuffer[indexBuffer[i]])`; a read outside either
buffer gives no result. -/
def fetchVertex (vertexBuffer : List ImDrawVert) (indexBuffer : List Nat) (i : Nat) :
    Option FixedVertex :=
  (indexBuffer.get? i).bind fun index => (vertexBuffer.get? index).map FixedVertex.new

/-- The drawing function called by one pass of the triangle loop, with its arguments. -/
inductive DrawCall where
  | Rectangle (bounding : Rect) (texture : Texture) (color : Color)
  | UniformColorTriangle (v0 v1 v2 : FixedVertex) (bounding : Rect)
  | Triangle (v0 v1 v2 : FixedVertex) (texture : Texture) (bounding : Rect)
deriving DecidableEq, Repr

/-- The rectangle test of the triangle loop: the condition of the inner `if`. -/
def isRectangle (bounding : Rect) (v0 v1 v2 v3 v4 v5 : FixedVertex) : Bool :=
  let isTriangleUniformColor := decide (v0.Color = v1.Color) && decide (v1.Color = v2.Color)
  let isUniformColor := isTriangleUniformColor && decide (v2.Color = v3.Color)
    && decide (v3.Color = v4.Color) && decide (v4.Color = v5.Color)
  isUniformColor && bounding.IsOnExtreme v0.Position && bounding.IsOnExtreme v1.Position
    && bounding.IsOnExtreme v2.Position && bounding.IsOnExtreme v3.Position
    && bounding.IsOnExtreme v4.Position && bounding.IsOnExtreme v5.Position

/-- The call made for a triangle that is not half of a rectangle: the final `if` of the loop body. -/
def triangleCall (v0 v1 v2 : FixedVertex) (texture : Texture) (bounding : Rect) : DrawCall :=
  let isTriangleUniformColor := decide (v0.Color = v1.Color) && decide (v1.Color = v2.Color)
  let doesTriangleUseOnlyColor := bounding.UsesOnlyColor texture
  if isTriangleUniformColor && doesTriangleUseOnlyColor then
    DrawCall.UniformColorTriangle v0 v1 v2 bounding
  else DrawCall.Triangle v0 v1 v2 texture bounding

/-- One pass of the triangle loop of `DoImGuiRender` at index `i` (with `i + 3 <= ElemCount`):
the call it makes and the value of `i` after the pass, the loop's own `i += 3` included. -/
def triangleStep (vertexBuffer : List ImDrawVert) (indexBuffer : List Nat) (ElemCount : Nat)
    (texture : Texture) (i : Nat) : Option (DrawCall × Nat) :=
  (fetchVertex vertexBuffer indexBuffer (i + 0)).bind fun v0 =>
  (fetchVertex vertexBuffer indexBuffer (i + 1)).bind fun v1 =>
  (fetchVertex vertexBuffer indexBuffer (i + 2)).bind fun v2 =>
  let bounding := CalculateBoundingBox v0 v1 v2
  if i + 6 ≤ ElemCount then
    (fetchVertex vertexBuffer indexBuffer (i + 3)).bind fun v3 =>
    (fetchVertex vertexBuffer indexBuffer (i + 4)).bind fun v4 =>
    (fetchVertex vertexBuffer indexBuffer (i + 5)).bind fun v5 =>
    if isRectangle bounding v0 v1 v2 v3 v4 v5 then
      some (DrawCall.Rectangle bounding texture (Color.ofUInt32 v0.Color), i + 3 + 3)
    else some (triangleCall v0 v1 v2 texture bounding, i + 3)
  else some (triangleCall v0 v1 v2 texture bounding, i + 3)

/-- The effect of one call of the triangle loop on the target. -/
def DrawCall.run (target : Target) : DrawCall → Option Target
  | DrawCall.Rectangle bounding texture color => some (DrawRectangle target bounding texture color)
  | DrawCall.UniformColorTriangle v0 v1 v2 bounding =>
    DrawUniformColorTriangle target v0 v1 v2 bounding
  | DrawCall.Triangle v0 v1 v2 texture bounding => DrawTriangle target v0 v1 v2 texture bounding

/-- The triangle loop of `DoImGuiRender`, `for (int i = 0; i + 3 <= ElemCount; i += 3)`,
from index `i` on, on the target as it is then: each pass fetches its vertices, chooses its
call (`triangleStep`) and makes it on the target. A pass whose fetch or call has no result
ends the loop without a result. `fuel` bounds the number of passes: every pass advances `i`
by at least three, so `ElemCount / 3` passes are enough, and a loop that still has a pass
to make when the fuel is used up has no result. -/
def triangleLoop (vertexBuffer : List ImDrawVert) (indexBuffer : List Nat) (ElemCount : Nat)
    (texture : Texture) : Nat → Nat → Target → Option Target
  | 0, i, target => if i + 3 ≤ ElemCount then none else some target
  | fuel + 1, i, target =>
    if i + 3 ≤ ElemCount then
      (triangleStep vertexBuffer indexBuffer ElemCount texture i).bind fun step =>
      (step.1.run target).bind fun target =>
      triangleLoop vertexBuffer indexBuffer ElemCount texture fuel step.2 target
    else some target


/-! ## Observations on the renderer log -/

/-- A point drawn on the current render target, with the draw colour it is drawn in. -/
structure PixelWrite where
  x : Int
  y : Int
  r : Int
  g : Int
  b : Int
  a : Int
deriving DecidableEq, Repr

/-- The points drawn by a sequence of renderer calls, each with the draw colour set by the
last `SetRenderDrawColor` before it; `current` is the draw colour at the start. -/
def pixelWrites : List RenderCall → Int × Int × Int × Int → List PixelWrite
  | [], _ => []
  | RenderCall.SetRenderDrawColor r g b a :: rest, _ => pixelWrites rest (r, g, b, a)
  | RenderCall.RenderDrawPoint x y :: rest, current =>
    ⟨x, y, current.1, current.2.1, current.2.2.1, current.2.2.2⟩ :: pixelWrites rest current
  | _ :: rest, current => pixelWrites rest current

/-- A target on which nothing has been drawn or cached yet. -/
def freshTarget (width height : Int) : Target :=
  { Width := width, Height := height, Clip := ⟨0, 0, width, height⟩, CacheTextures := [],
    Renderer := [], Created := 0 }

/-- Vertex at whole-pixel position `(x, y)` with texture coordinate `(0, 0)`. -/
def pixelVertex (x y : Int) (color : Nat) : FixedVertex :=
  { Position := ⟨⟨x * 65536⟩, ⟨y * 65536⟩⟩, TextureCoordinate := ⟨⟨0⟩, ⟨0⟩⟩, Color := color }


/-- The four corners of the axis-aligned box with the sides `x0`, `x1` and `y0`, `y1`. -/
def boxCorners (x0 y0 x1 y1 : fixed) : List FixedVector :=
  [⟨x0, y0⟩, ⟨x1, y0⟩, ⟨x1, y1⟩, ⟨x0, y1⟩]

/-- Six positions are exactly the four corners of a box, every corner present and two of
them repeated: each position is a corner, and each corner occurs once or twice. -/
def OnCornersTwoRepeated (positions : List FixedVector) (x0 y0 x1 y1 : fixed) : Prop :=
  positions.length = 6 ∧ (∀ p ∈ positions, p ∈ boxCorners x0 y0 x1 y1) ∧
    ∀ c ∈ boxCorners x0 y0 x1 y1, positions.count c = 1 ∨ positions.count c = 2

instance (positions : List FixedVector) (x0 y0 x1 y1 : fixed) :
    Decidable (OnCornersTwoRepeated positions x0 y0 x1 y1) := by
  unfold OnCornersTwoRepeated; infer_instance

/-- The least of six integers. -/
def minOfSix (a b c d e f : Int) : Int := min a (min b (min c (min d (min e f))))

/-- The greatest of six integers. -/
def maxOfSix (a b c d e f : Int) : Int := max a (max b (max c (max d (max e f))))

/-- The point `p` is one of the four corners of the bounding box of the six positions
`q0`, ..., `q5`. -/
def OnCornerOfSix (p q0 q1 q2 q3 q4 q5 : FixedVector) : Prop :=
  (p.X.value = minOfSix q0.X.value q1.X.value q2.X.value q3.X.value q4.X.value q5.X.value ∨
    p.X.value = maxOfSix q0.X.value q1.X.value q2.X.value q3.X.value q4.X.value q5.X.value) ∧
  (p.Y.value = minOfSix q0.Y.value q1.Y.value q2.Y.value q3.Y.value q4.Y.value q5.Y.value ∨
    p.Y.value = maxOfSix q0.Y.value q1.Y.value q2.Y.value q3.Y.value q4.Y.value q5.Y.value)

instance (p q0 q1 q2 q3 q4 q5 : FixedVector) : Decidable (OnCornerOfSix p q0 q1 q2 q3 q4 q5) := by
  unfold OnCornerOfSix; infer_instance

/-- Vertex buffer of a quad: the corners `(0,0)`, `(10,0)`, `(10,10)`, `(0,10)` of a box, with
the texture coordinates `(0,0)`, `(1,0)`, `(1,1)`, `(0,1)` and one colour. -/
def quadVertices (color : Nat) : List ImDrawVert :=
  [⟨⟨0, 0⟩, ⟨0, 0⟩, color⟩, ⟨⟨10, 0⟩, ⟨1, 0⟩, color⟩, ⟨⟨10, 10⟩, ⟨1, 1⟩, color⟩,
    ⟨⟨0, 10⟩, ⟨0, 1⟩, color⟩]

/-- Vertex buffer of two triangles of one colour that use the white texel `(1/4, 1/4)` of a
2 by 2 texture: the flat triangle `(0,0)`, `(10,0)`, `(5,0)`, then the triangle `(0,0)`,
`(10,0)`, `(0,10)`. -/
def flatThenRightVertices (color : Nat) : List ImDrawVert :=
  [⟨⟨0, 0⟩, ⟨1 / 4, 1 / 4⟩, color⟩, ⟨⟨10, 0⟩, ⟨1 / 4, 1 / 4⟩, color⟩,
    ⟨⟨5, 0⟩, ⟨1 / 4, 1 / 4⟩, color⟩, ⟨⟨0, 0⟩, ⟨1 / 4, 1 / 4⟩, color⟩,
    ⟨⟨10, 0⟩, ⟨1 / 4, 1 / 4⟩, color⟩, ⟨⟨0, 10⟩, ⟨1 / 4, 1 / 4⟩, color⟩]

/-- A 2 by 2 texture with two white and two black texels. -/
def checkerTexture : Texture :=
  { w := 2, h := 2, pixels := [0xFFFFFFFF, 0xFF000000, 0xFF000000, 0xFFFFFFFF],
    Source := SDL_Texture.external 0 }

/-- The six vertices of the group that starts at index `i`, in index order. -/
def groupVertices (vertexBuffer : List ImDrawVert) (indexBuffer : List Nat) (i : Nat) :
    List FixedVertex :=
  (List.range 6).filterMap fun k => fetchVertex vertexBuffer indexBuffer (i + k)

/-- Vertex at whole-pixel position `(x, y)` with the whole texture coordinate `(u, v)`. -/
def texturedVertex (x y u v : Int) (color : Nat) : FixedVertex :=
  { Position := ⟨⟨x * 65536⟩, ⟨y * 65536⟩⟩, TextureCoordinate := ⟨⟨u * 65536⟩, ⟨v * 65536⟩⟩,
    Color := color }

/-- The position of a vertex relative to the minimum corner of a bounding box, as exact
differences of the raw coordinates. -/
def relativePosition (v : FixedVertex) (bounding : Rect) : Int × Int :=
  (v.Position.X.value - bounding.MinX.value, v.Position.Y.value - bounding.MinY.value)

/-- The vertex moved by the fixed-point offset `(dx, dy)`; texture coordinate and colour stay. -/
def translate (v : FixedVertex) (dx dy : fixed) : FixedVertex :=
  { v with Position := ⟨v.Position.X + dx, v.Position.Y + dy⟩ }

/-- The three positions of a triangle are `int32_t` values. -/
def PositionsInRange (v0 v1 v2 : FixedVertex) : Prop :=
  (InRange32 v0.Position.X.value ∧ InRange32 v0.Position.Y.value) ∧
  (InRange32 v1.Position.X.value ∧ InRange32 v1.Position.Y.value) ∧
  (InRange32 v2.Position.X.value ∧ InRange32 v2.Position.Y.value)

instance (v0 v1 v2 : FixedVertex) : Decidable (PositionsInRange v0 v1 v2) := by
  unfold PositionsInRange; infer_instance

/-- Moving the vertex by `(dx, dy)` overflows neither coordinate. -/
def TranslationInRange (v : FixedVertex) (dx dy : fixed) : Prop :=
  InRange32 (v.Position.X.value + dx.value) ∧ InRange32 (v.Position.Y.value + dy.value)

instance (v : FixedVertex) (dx dy : fixed) : Decidable (TranslationInRange v dx dy) := by
  unfold TranslationInRange; infer_instance

/-! ## Notions used to state the properties of the arithmetic and of the split -/

/-- The values of `int64_t`. -/
def InRange64 (x : Int) : Prop := -9223372036854775808 ≤ x ∧ x ≤ 9223372036854775807

instance (x : Int) : Decidable (InRange64 x) := by
  unfold InRange64; infer_instance

/-- Three positions lie on one line: the cross product of `p1 - p0` and `p2 - p0`, taken
exactly on the raw coordinates, is zero. -/
def Collinear (p0 p1 p2 : FixedVector) : Prop :=
  (p1.X.value - p0.X.value) * (p2.Y.value - p0.Y.value)
    - (p2.X.value - p0.X.value) * (p1.Y.value - p0.Y.value) = 0

instance (p0 p1 p2 : FixedVector) : Decidable (Collinear p0 p1 p2) := by
  unfold Collinear; infer_instance

/-- The interpolation divisor is computed without overflow: the four differences, the two
products shifted right by 16 and their sum are `int32_t` values. -/
def DivisorInRange (v0 v1 v2 : FixedVector) : Prop :=
  InRange32 (v1.Y.value - v2.Y.value) ∧ InRange32 (v0.X.value - v2.X.value) ∧
  InRange32 (v2.X.value - v1.X.value) ∧ InRange32 (v0.Y.value - v2.Y.value) ∧
  InRange32 ((v1.Y.value - v2.Y.value) * (v0.X.value - v2.X.value) / 65536) ∧
  InRange32 ((v2.X.value - v1.X.value) * (v0.Y.value - v2.Y.value) / 65536) ∧
  InRange32 ((v1.Y.value - v2.Y.value) * (v0.X.value - v2.X.value) / 65536
    + (v2.X.value - v1.X.value) * (v0.Y.value - v2.Y.value) / 65536)

instance (v0 v1 v2 : FixedVector) : Decidable (DivisorInRange v0 v1 v2) := by
  unfold DivisorInRange; infer_instance

/-- The local `vertex3` of the last branch of `DrawUniformColorTriangle`, from the sorted
vertices; a division by zero gives no result. -/
def splitVertex (vertex0 vertex1 vertex2 : FixedVector) : Option FixedVector :=
  (fixed.div (vertex1.Y - vertex0.Y) (vertex2.Y - vertex0.Y)).map fun slope =>
    ⟨vertex0.X + slope * (vertex2.X - vertex0.X), vertex1.Y⟩

/-- The three branches of `DrawUniformColorTriangle` on the sorted vertices. -/
def drawSortedTriangle (target : Target) (vertex0 vertex1 vertex2 : FixedVector)
    (color : Color) : Option Target :=
  if vertex1.Y = vertex2.Y then
    DrawBottomFlatTriangle target vertex0.X vertex0.Y vertex1.X vertex1.Y
      vertex2.X vertex2.Y color
  else if vertex0.Y = vertex1.Y then
    DrawTopFlatTriangle target vertex0.X vertex0.Y vertex1.X vertex1.Y
      vertex2.X vertex2.Y color
  else
    (splitVertex vertex0 vertex1 vertex2).bind fun vertex3 =>
    (DrawBottomFlatTriangle target vertex0.X vertex0.Y vertex1.X vertex1.Y
      vertex3.X vertex3.Y color).bind fun target =>
    DrawTopFlatTriangle target vertex1.X vertex1.Y vertex3.X vertex3.Y
      vertex2.X vertex2.Y color

/-- The strictly increasing `Y` of three sorted vertices and the absence of overflow in the
differences that the split uses. -/
def SplitInRange (vertex0 vertex1 vertex2 : FixedVector) : Prop :=
  vertex0.Y.value < vertex1.Y.value ∧ vertex1.Y.value < vertex2.Y.value ∧
  InRange32 (vertex2.Y.value - vertex0.Y.value) ∧
  InRange32 vertex0.X.value ∧ InRange32 vertex2.X.value ∧
  InRange32 (vertex2.X.value - vertex0.X.value)

instance (vertex0 vertex1 vertex2 : FixedVector) :
    Decidable (SplitInRange vertex0 vertex1 vertex2) := by
  unfold SplitInRange; infer_instance

/-! ## Notions used to state the properties of the cache and of the triangle loop -/

/-- Vertex at the raw position `(x, y)` with texture coordinate `(0, 0)`. -/
def rawVertex (x y : Int) (color : Nat) : FixedVertex :=
  { Position := ⟨⟨x⟩, ⟨y⟩⟩, TextureCoordinate := ⟨⟨0⟩, ⟨0⟩⟩, Color := color }

/-- What a call of a triangle rasterizer leaves behind for the next call with the same
triangle: the key is in the cache, it maps to `tile`, and the last renderer call was the
copy of `tile` to `destination`. -/
def LeavesTile (after : Target) (key : TextureCacheKey) (tile : SDL_Texture)
    (destination : SDL_Rect) : Prop :=
  0 < after.cacheCount key ∧ after.cacheAt key = some tile ∧
    after.Renderer.getLast? = some (RenderCall.RenderCopy tile none destination)

/-- Whether a call of the triangle loop is the `DrawRectangle` call. -/
def DrawCall.isRectangle : DrawCall → Bool
  | DrawCall.Rectangle _ _ _ => true
  | DrawCall.UniformColorTriangle _ _ _ _ => false
  | DrawCall.Triangle _ _ _ _ _ => false

/-! ## `Color::ToInt`, and notions used to state the interpolation at the vertices -/

/-- One operand of `Color::ToInt`: `static_cast<int>(channel.to_double() * 255) & 0xff`;
the mask keeps the value modulo 256. -/
def Color.channelByte (channel : fixed) : Nat :=
  (truncToInt (channel.to_double * 255) % 256).toNat

/-- Method `ToInt` of `Color`: the four bytes are shifted to their places and joined; the
result is the `uint32_t` with these bytes. -/
def Color.ToInt (c : Color) : Nat :=
  (Color.channelByte c.R <<< 0) ||| (Color.channelByte c.G <<< 8) |||
    (Color.channelByte c.B <<< 16) ||| (Color.channelByte c.A <<< 24)

/-- The byte that `ToInt` gives back for a channel that `Color(uint32_t)` made from the
byte `b`. -/
def channelRoundTrip (b : Nat) : Nat :=
  Color.channelByte (fixed.ofFloat (roundFloat ((b : ℚ) / 255)))

/-- The byte that comes back for the channel byte `b`: `b` itself when `b` is `0` or at
least `128`, and `b - 1` when `b` is from `1` to `127`. -/
def returnedByte (b : Nat) : Nat := if b = 0 ∨ 128 ≤ b then b else b - 1

/-- The fixed-point expression `a * b + c * d` on the raw values `a`, `b`, `c`, `d` is
computed without overflow: the operands, the two products shifted right by 16 and their
sum are `int32_t` values. -/
def SumOfProductsInRange (a b c d : Int) : Prop :=
  InRange32 a ∧ InRange32 b ∧ InRange32 c ∧ InRange32 d ∧
  InRange32 (a * b / 65536) ∧ InRange32 (c * d / 65536) ∧
  InRange32 (a * b / 65536 + c * d / 65536)

instance (a b c d : Int) : Decidable (SumOfProductsInRange a b c d) := by
  unfold SumOfProductsInRange; infer_instance

/-- The numerators of `w1` and `w2` in `InterpolatedFactorEquation::Evaluate(x, y)` are
computed without overflow. -/
def NumeratorsInRange (v0 v1 v2 : FixedVector) (x y : fixed) : Prop :=
  SumOfProductsInRange (v1.Y.value - v2.Y.value) (x.value - v2.X.value)
    (v2.X.value - v1.X.value) (y.value - v2.Y.value) ∧
  SumOfProductsInRange (v2.Y.value - v0.Y.value) (x.value - v2.X.value)
    (v0.X.value - v2.X.value) (y.value - v2.Y.value)

instance (v0 v1 v2 : FixedVector) (x y : fixed) : Decidable (NumeratorsInRange v0 v1 v2 x y) := by
  unfold NumeratorsInRange; infer_instance

/-- The position has whole-pixel coordinates: both raw values are multiples of `2^16`. -/
def WholePixel (p : FixedVector) : Prop := (65536 : Int) ∣ p.X.value ∧ (65536 : Int) ∣ p.Y.value

instance (p : FixedVector) : Decidable (WholePixel p) := by
  unfold WholePixel; infer_instance

/-! ## Facts about the arithmetic -/

theorem wrap32_of_inRange {x : Int} (h : InRange32 x) : wrap32 x = x := by
  unfold InRange32 at h
  unfold wrap32
  omega

theorem wrap32_inRange (x : Int) : InRange32 (wrap32 x) := by
  unfold InRange32 wrap32
  omega

theorem truncToInt_neg (q : ℚ) : truncToInt (-q) = -truncToInt q := by
  unfold truncToInt
  simp [Int.neg_tdiv]

theorem truncToInt_of_nonneg {q : ℚ} (h : 0 ≤ q) : truncToInt q = ⌊q⌋ := by
  unfold truncToInt
  rw [Rat.floor_def]
  exact Int.tdiv_eq_ediv (Rat.num_nonneg.2 h) (by positivity)

theorem truncToInt_eq_of_nonneg {q : ℚ} {z : Int} (h : 0 ≤ q) (h1 : (z : ℚ) ≤ q)
    (h2 : q < (z : ℚ) + 1) : truncToInt q = z := by
  rw [truncToInt_of_nonneg h]
  exact Int.floor_eq_iff.2 ⟨h1, h2⟩

theorem truncToInt_eq_of_nonpos {q : ℚ} {z : Int} (h : q ≤ 0) (h1 : q ≤ (z : ℚ))
    (h2 : (z : ℚ) - 1 < q) : truncToInt q = z := by
  have hq : truncToInt (-q) = -z := by
    apply truncToInt_eq_of_nonneg
    · linarith
    · push_cast; linarith
    · push_cast; linarith
  have := truncToInt_neg q
  omega

/-- The constant `fixed(-0.5f)` has raw value `-32767`. -/
theorem fixed.ofFloat_neg_half : fixed.ofFloat (-1 / 2) = ⟨-32767⟩ := by
  decide!

/-- The constant `fixed(1.0)` has raw value `65536`. -/
theorem fixed.ofDouble_one : fixed.ofDouble 1 = ⟨65536⟩ := by
  decide!

theorem fixed.add_value (a b : fixed) : (a + b).value = wrap32 (a.value + b.value) := rfl

theorem fixed.sub_value (a b : fixed) : (a - b).value = wrap32 (a.value - b.value) := rfl

theorem fixed.mul_value (a b : fixed) :
    (a * b).value = wrap32 ((a.value * b.value) / 65536) := by
  show wrap32 ((a.value * b.value) >>> fixed.shift) = _
  rw [Int.shiftRight_eq_div_pow]
  rfl

theorem fixed.eq_iff (a b : fixed) : a = b ↔ a.value = b.value := by
  cases a; cases b; simp

theorem fixed.lt_iff (a b : fixed) : a.lt b = true ↔ a.value < b.value := by
  unfold fixed.lt fixed.to_double
  rw [decide_eq_true_iff]
  have h : (0 : ℚ) < 2 ^ fixed.shift := by positivity
  rw [div_lt_div_iff_of_pos_right h]
  exact Int.cast_lt

/-! ## Facts about the bounding box and the rectangle test -/

theorem fixed.lt_eq_decide (a b : fixed) : a.lt b = decide (a.value < b.value) := by
  rcases h : decide (a.value < b.value) with _ | _
  · rw [Bool.eq_false_iff]
    intro hlt
    rw [fixed.lt_iff] at hlt
    simp at h
    omega
  · rw [fixed.lt_iff]
    simpa using h

theorem value_min (a b : fixed) : (fixed.min a b).value = min a.value b.value := by
  unfold fixed.min
  rw [fixed.lt_eq_decide]
  by_cases h : b.value < a.value
  · simp [h]; omega
  · simp [h]; omega

theorem value_max (a b : fixed) : (fixed.max a b).value = max a.value b.value := by
  unfold fixed.max
  rw [fixed.lt_eq_decide]
  by_cases h : a.value < b.value
  · simp [h]; omega
  · simp [h]; omega

theorem Min3_value (a b c : fixed) :
    (Min3 a b c).value = min a.value (min b.value c.value) := by
  unfold Min3
  rw [value_min, value_min]

theorem Max3_value (a b c : fixed) :
    (Max3 a b c).value = max a.value (max b.value c.value) := by
  unfold Max3
  rw [value_max, value_max]

theorem Rect.IsOnExtreme_iff (r : Rect) (p : FixedVector) :
    r.IsOnExtreme p = true ↔
      (p.X.value = r.MinX.value ∨ p.X.value = r.MaxX.value) ∧
      (p.Y.value = r.MinY.value ∨ p.Y.value = r.MaxY.value) := by
  unfold Rect.IsOnExtreme
  simp [fixed.eq_iff]

theorem FixedVector.ne_iff (p q : FixedVector) :
    p ≠ q ↔ p.X.value ≠ q.X.value ∨ p.Y.value ≠ q.Y.value := by
  cases p; cases q
  simp only [ne_eq, FixedVector.mk.injEq, fixed.eq_iff]
  tauto

theorem mem_boxCorners {p : FixedVector} {x0 y0 x1 y1 : fixed}
    (h : p ∈ boxCorners x0 y0 x1 y1) :
    (p.X.value = x0.value ∨ p.X.value = x1.value) ∧
      (p.Y.value = y0.value ∨ p.Y.value = y1.value) := by
  unfold boxCorners at h
  simp only [List.mem_cons, List.mem_singleton, List.not_mem_nil, or_false] at h
  rcases h with h | h | h | h <;> subst h <;> simp

theorem not_all_equal_of_distinct {a b c p q r y0 y1 : Int}
    (hp : p = y0 ∨ p = y1) (hq : q = y0 ∨ q = y1) (hr : r = y0 ∨ r = y1)
    (d1 : a ≠ b ∨ p ≠ q) (d2 : b ≠ c ∨ q ≠ r) (d3 : a ≠ c ∨ p ≠ r) : ¬(a = b ∧ b = c) := by
  rcases hp with hp | hp <;> rcases hq with hq | hq <;> rcases hr with hr | hr <;>
    subst hp hq hr <;> omega

theorem span_of_not_all_equal {a b c x0 x1 : Int}
    (ha : a = x0 ∨ a = x1) (hb : b = x0 ∨ b = x1) (hc : c = x0 ∨ c = x1)
    (hne : ¬(a = b ∧ b = c)) :
    min a (min b c) = min x0 x1 ∧ max a (max b c) = max x0 x1 := by
  rcases ha with ha | ha <;> rcases hb with hb | hb <;> rcases hc with hc | hc <;>
    subst ha hb hc <;> omega

theorem three_corners_span {a b c p q r x0 x1 y0 y1 : Int}
    (ha : a = x0 ∨ a = x1) (hb : b = x0 ∨ b = x1) (hc : c = x0 ∨ c = x1)
    (hp : p = y0 ∨ p = y1) (hq : q = y0 ∨ q = y1) (hr : r = y0 ∨ r = y1)
    (d1 : a ≠ b ∨ p ≠ q) (d2 : b ≠ c ∨ q ≠ r) (d3 : a ≠ c ∨ p ≠ r) :
    (min a (min b c) = min x0 x1 ∧ max a (max b c) = max x0 x1) ∧
      (min p (min q r) = min y0 y1 ∧ max p (max q r) = max y0 y1) :=
  ⟨span_of_not_all_equal ha hb hc (not_all_equal_of_distinct hp hq hr d1 d2 d3),
    span_of_not_all_equal hp hq hr
      (not_all_equal_of_distinct ha hb hc d1.symm d2.symm d3.symm)⟩

theorem on_span {x a b : Int} (h : x = a ∨ x = b) : x = min a b ∨ x = max a b := by
  omega

/-- The rectangle test succeeds on six equally coloured vertices placed on the corners of a
box when the first three are three different corners. -/
theorem isRectangle_of_corners (v0 v1 v2 v3 v4 v5 : FixedVertex) (x0 y0 x1 y1 : fixed)
    (hcolor : v0.Color = v1.Color ∧ v1.Color = v2.Color ∧ v2.Color = v3.Color ∧
      v3.Color = v4.Color ∧ v4.Color = v5.Color)
    (hcorner : ∀ p ∈ [v0.Position, v1.Position, v2.Position, v3.Position, v4.Position,
      v5.Position], p ∈ boxCorners x0 y0 x1 y1)
    (hfirst : v0.Position ≠ v1.Position ∧ v1.Position ≠ v2.Position ∧
      v0.Position ≠ v2.Position) :
    isRectangle (CalculateBoundingBox v0 v1 v2) v0 v1 v2 v3 v4 v5 = true := by
  obtain ⟨c01, c12, c23, c34, c45⟩ := hcolor
  obtain ⟨d01, d12, d02⟩ := hfirst
  rw [FixedVector.ne_iff] at d01 d12 d02
  have m0 := mem_boxCorners (hcorner v0.Position (by simp))
  have m1 := mem_boxCorners (hcorner v1.Position (by simp))
  have m2 := mem_boxCorners (hcorner v2.Position (by simp))
  have m3 := mem_boxCorners (hcorner v3.Position (by simp))
  have m4 := mem_boxCorners (hcorner v4.Position (by simp))
  have m5 := mem_boxCorners (hcorner v5.Position (by simp))
  obtain ⟨hX, hY⟩ := three_corners_span m0.1 m1.1 m2.1 m0.2 m1.2 m2.2 d01 d12 d02
  unfold isRectangle
  simp only [c01, c12, c23, c34, c45, decide_True, Bool.and_self, Bool.true_and,
    Bool.and_eq_true, Rect.IsOnExtreme_iff, CalculateBoundingBox, Min3_value, Max3_value,
    hX.1, hX.2, hY.1, hY.2]
  exact ⟨⟨⟨⟨⟨⟨on_span m0.1, on_span m0.2⟩, on_span m1.1, on_span m1.2⟩, on_span m2.1,
    on_span m2.2⟩, on_span m3.1, on_span m3.2⟩, on_span m4.1, on_span m4.2⟩, on_span m5.1,
    on_span m5.2⟩


theorem triangleCall_ne_rectangle (v0 v1 v2 : FixedVertex) (texture : Texture) (bounding b : Rect)
    (t : Texture) (c : Color) : triangleCall v0 v1 v2 texture bounding ≠ DrawCall.Rectangle b t c := by
  simp only [triangleCall]
  split_ifs <;> simp

/-- A pass of the triangle loop over six fetched vertices that pass the rectangle test calls
`DrawRectangle` and advances by six indices. -/
theorem triangleStep_of_isRectangle (vertexBuffer : List ImDrawVert) (indexBuffer : List Nat)
    (ElemCount : Nat) (texture : Texture) (i : Nat) (v0 v1 v2 v3 v4 v5 : FixedVertex)
    (hcount : i + 6 ≤ ElemCount)
    (f0 : fetchVertex vertexBuffer indexBuffer i = some v0)
    (f1 : fetchVertex vertexBuffer indexBuffer (i + 1) = some v1)
    (f2 : fetchVertex vertexBuffer indexBuffer (i + 2) = some v2)
    (f3 : fetchVertex vertexBuffer indexBuffer (i + 3) = some v3)
    (f4 : fetchVertex vertexBuffer indexBuffer (i + 4) = some v4)
    (f5 : fetchVertex vertexBuffer indexBuffer (i + 5) = some v5)
    (hrect : isRectangle (CalculateBoundingBox v0 v1 v2) v0 v1 v2 v3 v4 v5 = true) :
    triangleStep vertexBuffer indexBuffer ElemCount texture i =
      some (DrawCall.Rectangle (CalculateBoundingBox v0 v1 v2) texture (Color.ofUInt32 v0.Color),
        i + 6) := by
  unfold triangleStep
  rw [Nat.add_zero]
  simp only [f0, f1, f2, f3, f4, f5, Option.some_bind, hcount, if_true, hrect]

/-- A pass of the triangle loop that calls `DrawRectangle` has fetched six vertices that
pass the rectangle test. -/
theorem isRectangle_of_triangleStep (vertexBuffer : List ImDrawVert) (indexBuffer : List Nat)
    (ElemCount : Nat) (texture : Texture) (i : Nat) (bounding : Rect) (t : Texture) (c : Color)
    (j : Nat)
    (h : triangleStep vertexBuffer indexBuffer ElemCount texture i =
      some (DrawCall.Rectangle bounding t c, j)) :
    ∃ v0 v1 v2 v3 v4 v5,
      fetchVertex vertexBuffer indexBuffer i = some v0 ∧
      fetchVertex vertexBuffer indexBuffer (i + 1) = some v1 ∧
      fetchVertex vertexBuffer indexBuffer (i + 2) = some v2 ∧
      fetchVertex vertexBuffer indexBuffer (i + 3) = some v3 ∧
      fetchVertex vertexBuffer indexBuffer (i + 4) = some v4 ∧
      fetchVertex vertexBuffer indexBuffer (i + 5) = some v5 ∧
      i + 6 ≤ ElemCount ∧ bounding = CalculateBoundingBox v0 v1 v2 ∧ j = i + 6 ∧
      isRectangle (CalculateBoundingBox v0 v1 v2) v0 v1 v2 v3 v4 v5 = true := by
  unfold triangleStep at h
  rw [Nat.add_zero] at h
  rcases f0 : fetchVertex vertexBuffer indexBuffer i with _ | v0
  · simp [f0] at h
  rcases f1 : fetchVertex vertexBuffer indexBuffer (i + 1) with _ | v1
  · simp [f0, f1] at h
  rcases f2 : fetchVertex vertexBuffer indexBuffer (i + 2) with _ | v2
  · simp [f0, f1, f2] at h
  simp only [f0, f1, f2, Option.some_bind] at h
  by_cases hcount : i + 6 ≤ ElemCount
  · simp only [hcount, if_true] at h
    rcases f3 : fetchVertex vertexBuffer indexBuffer (i + 3) with _ | v3
    · simp [f3] at h
    rcases f4 : fetchVertex vertexBuffer indexBuffer (i + 4) with _ | v4
    · simp [f3, f4] at h
    rcases f5 : fetchVertex vertexBuffer indexBuffer (i + 5) with _ | v5
    · simp [f3, f4, f5] at h
    simp only [f3, f4, f5, Option.some_bind] at h
    by_cases hrect : isRectangle (CalculateBoundingBox v0 v1 v2) v0 v1 v2 v3 v4 v5 = true
    · rw [if_pos hrect] at h
      simp only [Option.some.injEq, Prod.mk.injEq, DrawCall.Rectangle.injEq] at h
      exact ⟨v0, v1, v2, v3, v4, v5, rfl, rfl, rfl, rfl, rfl, rfl, hcount, h.1.1.symm,
        h.2.symm, hrect⟩
    · rw [if_neg hrect] at h
      simp only [Option.some.injEq, Prod.mk.injEq] at h
      exact absurd h.1 (triangleCall_ne_rectangle _ _ _ _ _ _ _ _)
  · simp only [hcount, if_false, Option.some.injEq, Prod.mk.injEq] at h
    exact absurd h.1 (triangleCall_ne_rectangle _ _ _ _ _ _ _ _)

theorem isRectangle_iff (bounding : Rect) (v0 v1 v2 v3 v4 v5 : FixedVertex) :
    isRectangle bounding v0 v1 v2 v3 v4 v5 = true ↔
      (v0.Color = v1.Color ∧ v1.Color = v2.Color ∧ v2.Color = v3.Color ∧ v3.Color = v4.Color ∧
        v4.Color = v5.Color) ∧
      bounding.IsOnExtreme v0.Position = true ∧ bounding.IsOnExtreme v1.Position = true ∧
      bounding.IsOnExtreme v2.Position = true ∧ bounding.IsOnExtreme v3.Position = true ∧
      bounding.IsOnExtreme v4.Position = true ∧ bounding.IsOnExtreme v5.Position = true := by
  unfold isRectangle
  simp only [Bool.and_eq_true, decide_eq_true_eq]
  tauto

theorem onCornerOfSix_of_extreme {p q0 q1 q2 q3 q4 q5 : FixedVector} {lo hi lo2 hi2 : Int}
    (hp : (p.X.value = lo ∨ p.X.value = hi) ∧ (p.Y.value = lo2 ∨ p.Y.value = hi2))
    (hX : minOfSix q0.X.value q1.X.value q2.X.value q3.X.value q4.X.value q5.X.value = lo ∧
      maxOfSix q0.X.value q1.X.value q2.X.value q3.X.value q4.X.value q5.X.value = hi)
    (hY : minOfSix q0.Y.value q1.Y.value q2.Y.value q3.Y.value q4.Y.value q5.Y.value = lo2 ∧
      maxOfSix q0.Y.value q1.Y.value q2.Y.value q3.Y.value q4.Y.value q5.Y.value = hi2) :
    OnCornerOfSix p q0 q1 q2 q3 q4 q5 := by
  unfold OnCornerOfSix
  rw [hX.1, hX.2, hY.1, hY.2]
  exact hp

theorem six_span {a b c d e f : Int}
    (hd : d = min a (min b c) ∨ d = max a (max b c))
    (he : e = min a (min b c) ∨ e = max a (max b c))
    (hf : f = min a (min b c) ∨ f = max a (max b c)) :
    minOfSix a b c d e f = min a (min b c) ∧ maxOfSix a b c d e f = max a (max b c) := by
  unfold minOfSix maxOfSix
  omega

/-! ## C1: the fill convention on a shared edge -/

/-- C1, counterexample: the edge from `(0, 0)` to `(0.6, 1.8)` (raw `39322`, `117965`) and
the pixel centre `(0.5, 1.5)`. The edge function of the edge evaluates to zero there and its
tie-break flag is off; the edge function of the reversed edge, whose products are floored
separately, evaluates to `-1` there. The sample is inside neither. -/
theorem shared_edge_sample_in_neither :
    ((Line.new ⟨0⟩ ⟨0⟩ ⟨39322⟩ ⟨117965⟩).Evaluate ⟨32768⟩ ⟨98304⟩).value = 0 ∧
    ((Line.new ⟨39322⟩ ⟨117965⟩ ⟨0⟩ ⟨0⟩).Evaluate ⟨32768⟩ ⟨98304⟩).value = -1 ∧
    (Line.new ⟨0⟩ ⟨0⟩ ⟨39322⟩ ⟨117965⟩).IsInside ⟨32768⟩ ⟨98304⟩ = false ∧
    (Line.new ⟨39322⟩ ⟨117965⟩ ⟨0⟩ ⟨0⟩).IsInside ⟨32768⟩ ⟨98304⟩ = false := by
  decide!

/-- C1, amended: for two distinct points whose coordinate differences fit in 32 bits and a
sample at which the edge function of the edge and the edge function of the reversed edge
both evaluate to zero, exactly one of the two `IsInside` tests holds. -/
theorem tie_break_exactly_one (x0 y0 x1 y1 x y : fixed)
    (hne : x0.value ≠ x1.value ∨ y0.value ≠ y1.value)
    (hx : InRange32 (x1.value - x0.value)) (hx' : InRange32 (x0.value - x1.value))
    (hy : InRange32 (y0.value - y1.value)) (hy' : InRange32 (y1.value - y0.value))
    (h0 : ((Line.new x0 y0 x1 y1).Evaluate x y).value = 0)
    (h1 : ((Line.new x1 y1 x0 y0).Evaluate x y).value = 0) :
    (Line.new x0 y0 x1 y1).IsInside x y = !(Line.new x1 y1 x0 y0).IsInside x y := by
  unfold Line.IsInside Line.IsInsideValue
  rw [h0, h1]
  simp only [Line.new, fixed.sub_value, wrap32_of_inRange hx, wrap32_of_inRange hx',
    wrap32_of_inRange hy, wrap32_of_inRange hy']
  unfold InRange32 at hx hx' hy hy'
  by_cases hA : y0.value - y1.value = 0
  · have hA' : y1.value - y0.value = 0 := by omega
    by_cases hB1 : x1.value - x0.value > 0
    · have : ¬ (x0.value - x1.value > 0) := by omega
      simp [hA, hA', hB1, this]
    · have : (x0.value - x1.value > 0) := by omega
      simp [hA, hA', hB1, this]
  · have hA' : ¬ (y1.value - y0.value = 0) := by omega
    by_cases hB1 : y0.value - y1.value > 0
    · have : ¬ (y1.value - y0.value > 0) := by omega
      simp [hA, hA', hB1, this]
    · have : (y1.value - y0.value > 0) := by omega
      simp [hA, hA', hB1, this]

/-- C1, amended, at an instance: the diagonal edge from `(0, 0)` to `(2, 2)` and the pixel
centre `(0.5, 0.5)` on it. -/
theorem tie_break_exactly_one_witness :
    (Line.new ⟨0⟩ ⟨0⟩ ⟨131072⟩ ⟨131072⟩).IsInside ⟨32768⟩ ⟨32768⟩ =
      !(Line.new ⟨131072⟩ ⟨131072⟩ ⟨0⟩ ⟨0⟩).IsInside ⟨32768⟩ ⟨32768⟩ :=
  tie_break_exactly_one ⟨0⟩ ⟨0⟩ ⟨131072⟩ ⟨131072⟩ ⟨32768⟩ ⟨32768⟩ (by decide)
    (by decide) (by decide) (by decide) (by decide) (by decide!) (by decide!)

/-! ## C2: the uniform-colour triangle `(0,0)`, `(10,0)`, `(0,10)` -/

/-- C2, the code at the claim's input, opaque red on a fresh 20 by 20 target. The draw
completes, and the points written to the tile are exactly `(x + 2, y + 2)` for the rows
`y = 10, 9, ..., 1` and `x = 0, ..., 10 - y`, all opaque red. Tile pixel `(tx, ty)` lands on
screen pixel `(tx - 2, ty - 2)`. So screen pixel `(0, 0)`, whose centre `(0.5, 0.5)` is
strictly inside the triangle, is not written (tile pixel `(2, 2)`), and screen pixel
`(0, 10)`, whose centre `(0.5, 10.5)` is strictly outside, is written (tile pixel `(2, 12)`). -/
theorem uniform_triangle_rows_one_to_ten :
    (DrawUniformColorTriangle (freshTarget 20 20) (pixelVertex 0 0 0xFF0000FF)
        (pixelVertex 10 0 0xFF0000FF) (pixelVertex 0 10 0xFF0000FF)
        (CalculateBoundingBox (pixelVertex 0 0 0xFF0000FF) (pixelVertex 10 0 0xFF0000FF)
          (pixelVertex 0 10 0xFF0000FF))).map
        (fun target => pixelWrites target.Renderer (0, 0, 0, 0))
      = some ((intRangeDown 10 0).flatMap fun y =>
          (intRange 0 (10 - y)).map fun x => PixelWrite.mk (x + 2) (y + 2) 255 0 0 255) ∧
    (DrawUniformColorTriangle (freshTarget 20 20) (pixelVertex 0 0 0xFF0000FF)
        (pixelVertex 10 0 0xFF0000FF) (pixelVertex 0 10 0xFF0000FF)
        (CalculateBoundingBox (pixelVertex 0 0 0xFF0000FF) (pixelVertex 10 0 0xFF0000FF)
          (pixelVertex 0 10 0xFF0000FF))).map
        (fun target =>
          ((pixelWrites target.Renderer (0, 0, 0, 0)).filter fun p =>
            decide (p.x = 2 ∧ p.y = 2),
           (pixelWrites target.Renderer (0, 0, 0, 0)).filter fun p =>
            decide (p.x = 2 ∧ p.y = 12)))
      = some ([], [PixelWrite.mk 2 12 255 0 0 255]) := by
  decide!

/-- The generic rasterizer `DrawTriangle` on the triangle of C2 (with a white texel sampled):
it writes exactly the screen pixels `(x, y)` with `x + y <= 8`, the pixels whose centres are
strictly inside the triangle, all opaque red. -/
theorem generic_rasterizer_fills_interior :
    (DrawTriangle (freshTarget 20 20) (pixelVertex 0 0 0xFF0000FF)
        (pixelVertex 10 0 0xFF0000FF) (pixelVertex 0 10 0xFF0000FF) checkerTexture
        (CalculateBoundingBox (pixelVertex 0 0 0xFF0000FF) (pixelVertex 10 0 0xFF0000FF)
          (pixelVertex 0 10 0xFF0000FF))).map
        (fun target => pixelWrites target.Renderer (0, 0, 0, 0))
      = some ((intRange 0 8).flatMap fun y =>
          (intRange 0 (8 - y)).map fun x => PixelWrite.mk (x + 2) (y + 2) 255 0 0 255) := by
  decide!

/-! ## C3, C4, C5: the rectangle fast path -/

/-- C3, counterexample: six white vertices on the corners `(0,0)`, `(10,0)`, `(10,10)`,
`(0,10)` of a box, in the order `(0,0)`, `(0,0)`, `(10,0)`, `(10,0)`, `(10,10)`, `(0,10)`:
every corner is present and two corners are repeated. The dispatcher takes the bounding box
of the first three alone, a segment, so the rectangle test fails: the pass calls
`DrawTriangle` for the first triangle and advances by three indices only. -/
theorem repeated_corner_pair_not_rectangle :
    OnCornersTwoRepeated
      ((groupVertices (quadVertices 0xFFFFFFFF) [0, 0, 1, 1, 2, 3] 0).map FixedVertex.Position)
      ⟨0⟩ ⟨0⟩ ⟨655360⟩ ⟨655360⟩ ∧
    (∀ v ∈ groupVertices (quadVertices 0xFFFFFFFF) [0, 0, 1, 1, 2, 3] 0, v.Color = 0xFFFFFFFF) ∧
    isRectangle
      (CalculateBoundingBox (texturedVertex 0 0 0 0 0xFFFFFFFF)
        (texturedVertex 0 0 0 0 0xFFFFFFFF) (texturedVertex 10 0 1 0 0xFFFFFFFF))
      (texturedVertex 0 0 0 0 0xFFFFFFFF) (texturedVertex 0 0 0 0 0xFFFFFFFF)
      (texturedVertex 10 0 1 0 0xFFFFFFFF) (texturedVertex 10 0 1 0 0xFFFFFFFF)
      (texturedVertex 10 10 1 1 0xFFFFFFFF) (texturedVertex 0 10 0 1 0xFFFFFFFF) = false ∧
    triangleStep (quadVertices 0xFFFFFFFF) [0, 0, 1, 1, 2, 3] 6 checkerTexture 0 =
      some (DrawCall.Triangle (texturedVertex 0 0 0 0 0xFFFFFFFF)
        (texturedVertex 0 0 0 0 0xFFFFFFFF) (texturedVertex 10 0 1 0 0xFFFFFFFF) checkerTexture
        (CalculateBoundingBox (texturedVertex 0 0 0 0 0xFFFFFFFF)
          (texturedVertex 0 0 0 0 0xFFFFFFFF) (texturedVertex 10 0 1 0 0xFFFFFFFF)), 3) := by
  decide!

/-- C3, amended: for six fetched vertices of one colour whose positions are corners of an
axis-aligned box and whose first three positions are three different corners, the rectangle
test succeeds and the pass of the dispatcher calls `DrawRectangle` and advances by six. -/
theorem rectangle_test_accepts_quads (vertexBuffer : List ImDrawVert) (indexBuffer : List Nat)
    (ElemCount : Nat) (texture : Texture) (i : Nat) (v0 v1 v2 v3 v4 v5 : FixedVertex)
    (x0 y0 x1 y1 : fixed)
    (hcount : i + 6 ≤ ElemCount)
    (f0 : fetchVertex vertexBuffer indexBuffer i = some v0)
    (f1 : fetchVertex vertexBuffer indexBuffer (i + 1) = some v1)
    (f2 : fetchVertex vertexBuffer indexBuffer (i + 2) = some v2)
    (f3 : fetchVertex vertexBuffer indexBuffer (i + 3) = some v3)
    (f4 : fetchVertex vertexBuffer indexBuffer (i + 4) = some v4)
    (f5 : fetchVertex vertexBuffer indexBuffer (i + 5) = some v5)
    (hcolor : v0.Color = v1.Color ∧ v1.Color = v2.Color ∧ v2.Color = v3.Color ∧
      v3.Color = v4.Color ∧ v4.Color = v5.Color)
    (hcorner : ∀ p ∈ [v0.Position, v1.Position, v2.Position, v3.Position, v4.Position,
      v5.Position], p ∈ boxCorners x0 y0 x1 y1)
    (hfirst : v0.Position ≠ v1.Position ∧ v1.Position ≠ v2.Position ∧
      v0.Position ≠ v2.Position) :
    isRectangle (CalculateBoundingBox v0 v1 v2) v0 v1 v2 v3 v4 v5 = true ∧
    triangleStep vertexBuffer indexBuffer ElemCount texture i =
      some (DrawCall.Rectangle (CalculateBoundingBox v0 v1 v2) texture (Color.ofUInt32 v0.Color),
        i + 6) :=
  ⟨isRectangle_of_corners v0 v1 v2 v3 v4 v5 x0 y0 x1 y1 hcolor hcorner hfirst,
    triangleStep_of_isRectangle vertexBuffer indexBuffer ElemCount texture i v0 v1 v2 v3 v4 v5
      hcount f0 f1 f2 f3 f4 f5
      (isRectangle_of_corners v0 v1 v2 v3 v4 v5 x0 y0 x1 y1 hcolor hcorner hfirst)⟩

/-- C3, amended, at an instance: the quad `(0,0)`, `(10,0)`, `(10,10)`, `(0,10)` split
along a diagonal. -/
theorem rectangle_test_accepts_quads_witness :
    isRectangle
      (CalculateBoundingBox (pixelVertex 0 0 7) (pixelVertex 10 0 7) (pixelVertex 10 10 7))
      (pixelVertex 0 0 7) (pixelVertex 10 0 7) (pixelVertex 10 10 7)
      (pixelVertex 0 0 7) (pixelVertex 10 10 7) (pixelVertex 0 10 7) = true ∧
    triangleStep
      [⟨⟨0, 0⟩, ⟨0, 0⟩, 7⟩, ⟨⟨10, 0⟩, ⟨0, 0⟩, 7⟩, ⟨⟨10, 10⟩, ⟨0, 0⟩, 7⟩, ⟨⟨0, 10⟩, ⟨0, 0⟩, 7⟩]
      [0, 1, 2, 0, 2, 3] 6 checkerTexture 0 =
      some (DrawCall.Rectangle
        (CalculateBoundingBox (pixelVertex 0 0 7) (pixelVertex 10 0 7) (pixelVertex 10 10 7))
        checkerTexture (Color.ofUInt32 (pixelVertex 0 0 7).Color), 0 + 6) :=
  rectangle_test_accepts_quads
    [⟨⟨0, 0⟩, ⟨0, 0⟩, 7⟩, ⟨⟨10, 0⟩, ⟨0, 0⟩, 7⟩, ⟨⟨10, 10⟩, ⟨0, 0⟩, 7⟩, ⟨⟨0, 10⟩, ⟨0, 0⟩, 7⟩]
    [0, 1, 2, 0, 2, 3] 6 checkerTexture 0
    (pixelVertex 0 0 7) (pixelVertex 10 0 7) (pixelVertex 10 10 7)
    (pixelVertex 0 0 7) (pixelVertex 10 10 7) (pixelVertex 0 10 7)
    ⟨0⟩ ⟨0⟩ ⟨655360⟩ ⟨655360⟩ (by decide) (by decide!) (by decide!) (by decide!) (by decide!)
    (by decide!) (by decide!) (by decide) (by decide) (by decide)

/-- C4: whenever a pass of the dispatcher calls `DrawRectangle`, it has fetched six vertices
whose colours are all equal and each of whose positions is one of the four corners of the
bounding box of all six positions. -/
theorem rectangle_path_only_for_corner_groups (vertexBuffer : List ImDrawVert)
    (indexBuffer : List Nat) (ElemCount : Nat) (texture : Texture) (i : Nat) (bounding : Rect)
    (t : Texture) (c : Color) (j : Nat)
    (h : triangleStep vertexBuffer indexBuffer ElemCount texture i =
      some (DrawCall.Rectangle bounding t c, j)) :
    ∃ v0 v1 v2 v3 v4 v5,
      fetchVertex vertexBuffer indexBuffer i = some v0 ∧
      fetchVertex vertexBuffer indexBuffer (i + 1) = some v1 ∧
      fetchVertex vertexBuffer indexBuffer (i + 2) = some v2 ∧
      fetchVertex vertexBuffer indexBuffer (i + 3) = some v3 ∧
      fetchVertex vertexBuffer indexBuffer (i + 4) = some v4 ∧
      fetchVertex vertexBuffer indexBuffer (i + 5) = some v5 ∧
      (v0.Color = v1.Color ∧ v1.Color = v2.Color ∧ v2.Color = v3.Color ∧
        v3.Color = v4.Color ∧ v4.Color = v5.Color) ∧
      ∀ p ∈ [v0.Position, v1.Position, v2.Position, v3.Position, v4.Position, v5.Position],
        OnCornerOfSix p v0.Position v1.Position v2.Position v3.Position v4.Position
          v5.Position := by
  obtain ⟨v0, v1, v2, v3, v4, v5, f0, f1, f2, f3, f4, f5, _, _, _, hrect⟩ :=
    isRectangle_of_triangleStep vertexBuffer indexBuffer ElemCount texture i bounding t c j h
  rw [isRectangle_iff] at hrect
  obtain ⟨hcolor, e0, e1, e2, e3, e4, e5⟩ := hrect
  rw [Rect.IsOnExtreme_iff] at e0 e1 e2 e3 e4 e5
  simp only [CalculateBoundingBox, Min3_value, Max3_value] at e0 e1 e2 e3 e4 e5
  have hX := six_span e3.1 e4.1 e5.1
  have hY := six_span e3.2 e4.2 e5.2
  refine ⟨v0, v1, v2, v3, v4, v5, f0, f1, f2, f3, f4, f5, hcolor, ?_⟩
  intro p hp
  simp only [List.mem_cons, List.mem_singleton, List.not_mem_nil, or_false] at hp
  rcases hp with hp | hp | hp | hp | hp | hp <;> subst hp
  · exact onCornerOfSix_of_extreme e0 hX hY
  · exact onCornerOfSix_of_extreme e1 hX hY
  · exact onCornerOfSix_of_extreme e2 hX hY
  · exact onCornerOfSix_of_extreme e3 hX hY
  · exact onCornerOfSix_of_extreme e4 hX hY
  · exact onCornerOfSix_of_extreme e5 hX hY

/-- C4, at an instance: the quad of `quadVertices` split along a diagonal. -/
theorem rectangle_path_only_for_corner_groups_witness :
    ∃ v0 v1 v2 v3 v4 v5,
      fetchVertex (quadVertices 7) [0, 1, 2, 0, 2, 3] 0 = some v0 ∧
      fetchVertex (quadVertices 7) [0, 1, 2, 0, 2, 3] (0 + 1) = some v1 ∧
      fetchVertex (quadVertices 7) [0, 1, 2, 0, 2, 3] (0 + 2) = some v2 ∧
      fetchVertex (quadVertices 7) [0, 1, 2, 0, 2, 3] (0 + 3) = some v3 ∧
      fetchVertex (quadVertices 7) [0, 1, 2, 0, 2, 3] (0 + 4) = some v4 ∧
      fetchVertex (quadVertices 7) [0, 1, 2, 0, 2, 3] (0 + 5) = some v5 ∧
      (v0.Color = v1.Color ∧ v1.Color = v2.Color ∧ v2.Color = v3.Color ∧
        v3.Color = v4.Color ∧ v4.Color = v5.Color) ∧
      ∀ p ∈ [v0.Position, v1.Position, v2.Position, v3.Position, v4.Position, v5.Position],
        OnCornerOfSix p v0.Position v1.Position v2.Position v3.Position v4.Position
          v5.Position :=
  rectangle_path_only_for_corner_groups (quadVertices 7) [0, 1, 2, 0, 2, 3] 6 checkerTexture 0
    (CalculateBoundingBox (FixedVertex.new ⟨⟨0, 0⟩, ⟨0, 0⟩, 7⟩)
      (FixedVertex.new ⟨⟨10, 0⟩, ⟨1, 0⟩, 7⟩) (FixedVertex.new ⟨⟨10, 10⟩, ⟨1, 1⟩, 7⟩))
    checkerTexture (Color.ofUInt32 7) 6 (by decide!)

/-- C5, counterexample: the white quad of `quadVertices`, texture coordinates from `(0,0)` to
`(1,1)`, indexed as the triangles `(0,0), (10,0), (0,0)` and `(10,10), (0,10), (10,10)`. All
six vertices sit on the corners of the box, every corner is used, the colours are equal and
the texture coordinates reach `(0,0)` and `(1,1)`; the pass of the dispatcher calls
`DrawTriangle` for the first triangle and advances by three indices. -/
theorem degenerate_first_triangle_is_rasterized :
    (groupVertices (quadVertices 0xFFFFFFFF) [0, 1, 0, 2, 3, 2] 0).length = 6 ∧
    (∀ q ∈ boxCorners ⟨0⟩ ⟨0⟩ ⟨655360⟩ ⟨655360⟩,
      q ∈ (groupVertices (quadVertices 0xFFFFFFFF) [0, 1, 0, 2, 3, 2] 0).map
        FixedVertex.Position) ∧
    (∀ v ∈ groupVertices (quadVertices 0xFFFFFFFF) [0, 1, 0, 2, 3, 2] 0,
      v.Position ∈ boxCorners ⟨0⟩ ⟨0⟩ ⟨655360⟩ ⟨655360⟩ ∧ v.Color = 0xFFFFFFFF) ∧
    (∃ v ∈ groupVertices (quadVertices 0xFFFFFFFF) [0, 1, 0, 2, 3, 2] 0,
      v.TextureCoordinate = ⟨⟨0⟩, ⟨0⟩⟩) ∧
    (∃ v ∈ groupVertices (quadVertices 0xFFFFFFFF) [0, 1, 0, 2, 3, 2] 0,
      v.TextureCoordinate = ⟨⟨65536⟩, ⟨65536⟩⟩) ∧
    triangleStep (quadVertices 0xFFFFFFFF) [0, 1, 0, 2, 3, 2] 6 checkerTexture 0 =
      some (DrawCall.Triangle (texturedVertex 0 0 0 0 0xFFFFFFFF)
        (texturedVertex 10 0 1 0 0xFFFFFFFF) (texturedVertex 0 0 0 0 0xFFFFFFFF)
        checkerTexture
        ⟨⟨0⟩, ⟨0⟩, ⟨655360⟩, ⟨0⟩, ⟨0⟩, ⟨0⟩, ⟨65536⟩, ⟨0⟩⟩, 3) := by
  decide!

theorem truncToInt_intCast (z : Int) : truncToInt (z : ℚ) = z := by
  unfold truncToInt
  simp

theorem to_double_zero : (fixed.mk 0).to_double = 0 := by
  unfold fixed.to_double
  simp

theorem to_double_one : (fixed.mk 65536).to_double = 1 := by
  unfold fixed.to_double fixed.shift
  norm_num

theorem Target.call_Renderer (target : Target) (c : RenderCall) :
    (target.call c).Renderer = target.Renderer ++ [c] := rfl

/-- A quad of two proper triangles, `(0,0), (10,0), (10,10)` and `(0,0), (10,10), (0,10)`,
white, whose six texture coordinates reach `(0,0)` and `(1,1)` but are all `(0,0)` on the
first triangle: the pass calls `DrawRectangle`, and the copy it makes has the empty source
rectangle `(0, 0, 0, 0)`, taken from the texture coordinates of the first triangle alone. -/
theorem first_triangle_decides_source :
    (triangleStep
        [⟨⟨0, 0⟩, ⟨0, 0⟩, 0xFFFFFFFF⟩, ⟨⟨10, 0⟩, ⟨0, 0⟩, 0xFFFFFFFF⟩,
          ⟨⟨10, 10⟩, ⟨0, 0⟩, 0xFFFFFFFF⟩, ⟨⟨0, 0⟩, ⟨0, 0⟩, 0xFFFFFFFF⟩,
          ⟨⟨10, 10⟩, ⟨1, 1⟩, 0xFFFFFFFF⟩, ⟨⟨0, 10⟩, ⟨0, 1⟩, 0xFFFFFFFF⟩]
        [0, 1, 2, 3, 4, 5] 6 checkerTexture 0).bind
        (fun step => (DrawCall.run (freshTarget 20 20) step.1).map fun target =>
          (step.2, target.Renderer)) =
      some (6, [RenderCall.SetTextureColorMod checkerTexture.Source 255 255 255,
        RenderCall.RenderCopy checkerTexture.Source (some ⟨0, 0, 0, 0⟩) ⟨0, 0, 10, 10⟩]) := by
  decide!

/-- The effect of `DrawRectangle` on a bounding box whose texture coordinates span `[0,1]x[0,1]`. -/
theorem DrawRectangle_full_span (target : Target) (bounding : Rect) (texture : Texture)
    (color : Color)
    (huv : bounding.MinU = ⟨0⟩ ∧ bounding.MaxU = ⟨65536⟩ ∧ bounding.MinV = ⟨0⟩ ∧
      bounding.MaxV = ⟨65536⟩) :
    bounding.UsesOnlyColor texture = false ∧
    (DrawRectangle target bounding texture color).Renderer = target.Renderer ++
      [RenderCall.SetTextureColorMod texture.Source (toUint8 (color.R.to_double * 255))
        (toUint8 (color.G.to_double * 255)) (toUint8 (color.B.to_double * 255)),
       RenderCall.RenderCopy texture.Source (some ⟨0, 0, texture.w, texture.h⟩)
        ⟨truncToInt bounding.MinX.to_double, truncToInt bounding.MinY.to_double,
          truncToInt (bounding.MaxX - bounding.MinX).to_double,
          truncToInt (bounding.MaxY - bounding.MinY).to_double⟩] ∧
    (DrawRectangle target bounding texture color).CacheTextures = target.CacheTextures ∧
    (DrawRectangle target bounding texture color).Created = target.Created := by
  obtain ⟨hu0, hu1, hv0, hv1⟩ := huv
  have hsolid : bounding.UsesOnlyColor texture = false := by
    unfold Rect.UsesOnlyColor
    rw [hu0, hu1]
    simp [fixed.eq_iff]
  have hsub : (fixed.mk 65536 - fixed.mk 0) = fixed.mk 65536 := by decide
  unfold DrawRectangle
  rw [hsolid]
  simp only [Bool.false_eq_true, if_false, hu0, hu1, hv0, hv1, hsub, to_double_zero,
    to_double_one, zero_mul, one_mul, truncToInt_intCast, Target.call_Renderer,
    List.append_assoc, List.cons_append, List.nil_append]
  refine ⟨trivial, ?_, rfl, rfl⟩
  have h0 : truncToInt 0 = 0 := by simpa using truncToInt_intCast 0
  rw [h0]

/-- The function `DrawRectangle` adds a fill-rectangle call only when `UsesOnlyColor` holds. -/
theorem DrawRectangle_fill_only_if_solid (target : Target) (bounding : Rect) (texture : Texture)
    (color : Color) (rect : SDL_Rect)
    (h : RenderCall.RenderFillRect rect ∈ (DrawRectangle target bounding texture color).Renderer) :
    RenderCall.RenderFillRect rect ∈ target.Renderer ∨ bounding.UsesOnlyColor texture = true := by
  by_cases hs : bounding.UsesOnlyColor texture = true
  · exact Or.inr hs
  · left
    unfold DrawRectangle at h
    rw [if_neg hs] at h
    simpa [Target.call_Renderer] using h

/-- C5, amended: for six fetched vertices of one colour whose positions are corners of an
axis-aligned box, whose first three positions are three different corners and whose first
three texture coordinates span `[0,1]x[0,1]`, the pass of the dispatcher calls `DrawRectangle`
and advances by six indices; `UsesOnlyColor` does not hold, and the call adds to the renderer
log exactly a colour modulation and one copy of the whole texture `(0, 0, w, h)` to the
bounding box (minimum corner and extent, truncated to whole pixels); it creates no texture
and leaves the tile cache as it was. For any bounding box, `DrawRectangle` adds a
fill-rectangle call only when `UsesOnlyColor` holds. -/
theorem textured_quad_is_blitted (vertexBuffer : List ImDrawVert) (indexBuffer : List Nat)
    (ElemCount : Nat) (texture : Texture) (i : Nat) (v0 v1 v2 v3 v4 v5 : FixedVertex)
    (x0 y0 x1 y1 : fixed) (target : Target)
    (hcount : i + 6 ≤ ElemCount)
    (f0 : fetchVertex vertexBuffer indexBuffer i = some v0)
    (f1 : fetchVertex vertexBuffer indexBuffer (i + 1) = some v1)
    (f2 : fetchVertex vertexBuffer indexBuffer (i + 2) = some v2)
    (f3 : fetchVertex vertexBuffer indexBuffer (i + 3) = some v3)
    (f4 : fetchVertex vertexBuffer indexBuffer (i + 4) = some v4)
    (f5 : fetchVertex vertexBuffer indexBuffer (i + 5) = some v5)
    (hcolor : v0.Color = v1.Color ∧ v1.Color = v2.Color ∧ v2.Color = v3.Color ∧
      v3.Color = v4.Color ∧ v4.Color = v5.Color)
    (hcorner : ∀ p ∈ [v0.Position, v1.Position, v2.Position, v3.Position, v4.Position,
      v5.Position], p ∈ boxCorners x0 y0 x1 y1)
    (hfirst : v0.Position ≠ v1.Position ∧ v1.Position ≠ v2.Position ∧
      v0.Position ≠ v2.Position)
    (huv : Min3 v0.TextureCoordinate.X v1.TextureCoordinate.X v2.TextureCoordinate.X = ⟨0⟩ ∧
      Max3 v0.TextureCoordinate.X v1.TextureCoordinate.X v2.TextureCoordinate.X = ⟨65536⟩ ∧
      Min3 v0.TextureCoordinate.Y v1.TextureCoordinate.Y v2.TextureCoordinate.Y = ⟨0⟩ ∧
      Max3 v0.TextureCoordinate.Y v1.TextureCoordinate.Y v2.TextureCoordinate.Y = ⟨65536⟩) :
    triangleStep vertexBuffer indexBuffer ElemCount texture i =
      some (DrawCall.Rectangle (CalculateBoundingBox v0 v1 v2) texture (Color.ofUInt32 v0.Color),
        i + 6) ∧
    (CalculateBoundingBox v0 v1 v2).UsesOnlyColor texture = false ∧
    ∃ drawn : Target,
      DrawCall.run target (DrawCall.Rectangle (CalculateBoundingBox v0 v1 v2) texture
        (Color.ofUInt32 v0.Color)) = some drawn ∧
      drawn.Renderer = target.Renderer ++
        [RenderCall.SetTextureColorMod texture.Source
          (toUint8 ((Color.ofUInt32 v0.Color).R.to_double * 255))
          (toUint8 ((Color.ofUInt32 v0.Color).G.to_double * 255))
          (toUint8 ((Color.ofUInt32 v0.Color).B.to_double * 255)),
         RenderCall.RenderCopy texture.Source (some ⟨0, 0, texture.w, texture.h⟩)
          ⟨truncToInt (CalculateBoundingBox v0 v1 v2).MinX.to_double,
            truncToInt (CalculateBoundingBox v0 v1 v2).MinY.to_double,
            truncToInt ((CalculateBoundingBox v0 v1 v2).MaxX
              - (CalculateBoundingBox v0 v1 v2).MinX).to_double,
            truncToInt ((CalculateBoundingBox v0 v1 v2).MaxY
              - (CalculateBoundingBox v0 v1 v2).MinY).to_double⟩] ∧
      drawn.CacheTextures = target.CacheTextures ∧ drawn.Created = target.Created ∧
      ∀ (bounding : Rect) (color : Color) (rect : SDL_Rect),
        RenderCall.RenderFillRect rect ∈ (DrawRectangle target bounding texture color).Renderer →
        RenderCall.RenderFillRect rect ∈ target.Renderer ∨
          bounding.UsesOnlyColor texture = true := by
  have hspan := DrawRectangle_full_span target (CalculateBoundingBox v0 v1 v2) texture
    (Color.ofUInt32 v0.Color) huv
  exact ⟨triangleStep_of_isRectangle vertexBuffer indexBuffer ElemCount texture i
      v0 v1 v2 v3 v4 v5 hcount f0 f1 f2 f3 f4 f5
      (isRectangle_of_corners v0 v1 v2 v3 v4 v5 x0 y0 x1 y1 hcolor hcorner hfirst),
    hspan.1, _, rfl, hspan.2.1, hspan.2.2.1, hspan.2.2.2,
    fun bounding color rect h =>
      DrawRectangle_fill_only_if_solid target bounding texture color rect h⟩

/-- C5, amended, at an instance: the white quad of `quadVertices` split along a diagonal. -/
theorem textured_quad_is_blitted_witness :
    triangleStep (quadVertices 0xFFFFFFFF) [0, 1, 2, 0, 2, 3] 6 checkerTexture 0 =
      some (DrawCall.Rectangle (CalculateBoundingBox
          (texturedVertex 0 0 0 0 0xFFFFFFFF) (texturedVertex 10 0 1 0 0xFFFFFFFF)
          (texturedVertex 10 10 1 1 0xFFFFFFFF)) checkerTexture
        (Color.ofUInt32 0xFFFFFFFF), 0 + 6) ∧
    (CalculateBoundingBox
        (texturedVertex 0 0 0 0 0xFFFFFFFF) (texturedVertex 10 0 1 0 0xFFFFFFFF)
        (texturedVertex 10 10 1 1 0xFFFFFFFF)).UsesOnlyColor checkerTexture
      = false ∧
    ∃ drawn : Target,
      DrawCall.run (freshTarget 20 20) (DrawCall.Rectangle (CalculateBoundingBox
          (texturedVertex 0 0 0 0 0xFFFFFFFF) (texturedVertex 10 0 1 0 0xFFFFFFFF)
          (texturedVertex 10 10 1 1 0xFFFFFFFF)) checkerTexture
        (Color.ofUInt32 0xFFFFFFFF)) = some drawn ∧
      drawn.Renderer = (freshTarget 20 20).Renderer ++
        [RenderCall.SetTextureColorMod checkerTexture.Source
          (toUint8 ((Color.ofUInt32 0xFFFFFFFF).R.to_double * 255))
          (toUint8 ((Color.ofUInt32 0xFFFFFFFF).G.to_double * 255))
          (toUint8 ((Color.ofUInt32 0xFFFFFFFF).B.to_double * 255)),
         RenderCall.RenderCopy checkerTexture.Source
          (some ⟨0, 0, checkerTexture.w, checkerTexture.h⟩)
          ⟨truncToInt (CalculateBoundingBox
              (texturedVertex 0 0 0 0 0xFFFFFFFF)
              (texturedVertex 10 0 1 0 0xFFFFFFFF)
              (texturedVertex 10 10 1 1 0xFFFFFFFF)).MinX.to_double,
            truncToInt (CalculateBoundingBox
              (texturedVertex 0 0 0 0 0xFFFFFFFF)
              (texturedVertex 10 0 1 0 0xFFFFFFFF)
              (texturedVertex 10 10 1 1 0xFFFFFFFF)).MinY.to_double,
            truncToInt ((CalculateBoundingBox
              (texturedVertex 0 0 0 0 0xFFFFFFFF)
              (texturedVertex 10 0 1 0 0xFFFFFFFF)
              (texturedVertex 10 10 1 1 0xFFFFFFFF)).MaxX
              - (CalculateBoundingBox
              (texturedVertex 0 0 0 0 0xFFFFFFFF)
              (texturedVertex 10 0 1 0 0xFFFFFFFF)
              (texturedVertex 10 10 1 1 0xFFFFFFFF)).MinX).to_double,
            truncToInt ((CalculateBoundingBox
              (texturedVertex 0 0 0 0 0xFFFFFFFF)
              (texturedVertex 10 0 1 0 0xFFFFFFFF)
              (texturedVertex 10 10 1 1 0xFFFFFFFF)).MaxY
              - (CalculateBoundingBox
              (texturedVertex 0 0 0 0 0xFFFFFFFF)
              (texturedVertex 10 0 1 0 0xFFFFFFFF)
              (texturedVertex 10 10 1 1 0xFFFFFFFF)).MinY).to_double⟩] ∧
      drawn.CacheTextures = (freshTarget 20 20).CacheTextures ∧
      drawn.Created = (freshTarget 20 20).Created ∧
      ∀ (bounding : Rect) (color : Color) (rect : SDL_Rect),
        RenderCall.RenderFillRect rect ∈
          (DrawRectangle (freshTarget 20 20) bounding checkerTexture color).Renderer →
        RenderCall.RenderFillRect rect ∈ (freshTarget 20 20).Renderer ∨
          bounding.UsesOnlyColor checkerTexture = true :=
  textured_quad_is_blitted (quadVertices 0xFFFFFFFF) [0, 1, 2, 0, 2, 3] 6 checkerTexture 0
    (texturedVertex 0 0 0 0 0xFFFFFFFF) (texturedVertex 10 0 1 0 0xFFFFFFFF)
    (texturedVertex 10 10 1 1 0xFFFFFFFF)
    (texturedVertex 0 0 0 0 0xFFFFFFFF)
    (texturedVertex 10 10 1 1 0xFFFFFFFF)
    (texturedVertex 0 10 0 1 0xFFFFFFFF)
    ⟨0⟩ ⟨0⟩ ⟨655360⟩ ⟨655360⟩ (freshTarget 20 20) (by decide) (by decide!) (by decide!)
    (by decide!) (by decide!) (by decide!) (by decide!) (by decide!) (by decide!) (by decide!)
    (by decide!)

/-! ## C6, C7: the key of the tile cache -/

/-- Equivalence under a strict order given as a Boolean function: neither is less. -/
theorem tupleLess_equiv {α β : Type} (headLess : α → α → Bool) (tailLess : β → β → Bool)
    (hα : ∀ a b, (!headLess a b && !headLess b a) = true ↔ a = b)
    (hβ : ∀ a b, (!tailLess a b && !tailLess b a) = true ↔ a = b) (a b : α × β) :
    (!tupleLess headLess tailLess a b && !tupleLess headLess tailLess b a) = true ↔ a = b := by
  obtain ⟨a1, a2⟩ := a
  obtain ⟨b1, b2⟩ := b
  unfold tupleLess
  have h1 := hα a1 b1
  have h2 := hβ a2 b2
  have h1' := hα a1 a1
  have h2' := hβ a2 a2
  constructor
  · intro h
    simp only [Bool.and_eq_true, Bool.not_eq_true', Bool.or_eq_false_iff, Bool.and_eq_false_imp,
      Bool.not_eq_true'] at h h1 h2
    obtain ⟨⟨hab, h3⟩, hba, h4⟩ := h
    have e1 : a1 = b1 := h1.1 ⟨hab, hba⟩
    have e2 : a2 = b2 := h2.1 ⟨h3 hba, h4 hab⟩
    rw [e1, e2]
  · intro h
    simp only [Prod.mk.injEq] at h
    obtain ⟨e1, e2⟩ := h
    subst e1 e2
    simp only [Bool.and_self, Bool.not_eq_true', true_iff] at h1' h2'
    simp [h1', h2']

theorem fixed_less_equiv (a b : fixed) : (!fixed.lt a b && !fixed.lt b a) = true ↔ a = b := by
  rw [fixed.lt_eq_decide, fixed.lt_eq_decide, fixed.eq_iff]
  simp only [Bool.and_eq_true, Bool.not_eq_true', decide_eq_false_iff_not]
  omega

theorem uint32_less_equiv (a b : Nat) : (!uint32Less a b && !uint32Less b a) = true ↔ a = b := by
  unfold uint32Less
  simp only [Bool.and_eq_true, Bool.not_eq_true', decide_eq_false_iff_not]
  omega

theorem int_less_equiv (a b : Int) : (!intLess a b && !intLess b a) = true ↔ a = b := by
  unfold intLess
  simp only [Bool.and_eq_true, Bool.not_eq_true', decide_eq_false_iff_not]
  omega

/-- Two keys are the same key of the tile cache exactly when they are equal tuples. -/
theorem TextureCacheKey.equiv_iff_eq (a b : TextureCacheKey) :
    TextureCacheKey.equiv a b = true ↔ a = b := by
  unfold TextureCacheKey.equiv TextureCacheKey.less
  revert a b
  exact tupleLess_equiv _ _ fixed_less_equiv <| tupleLess_equiv _ _ fixed_less_equiv <|
    tupleLess_equiv _ _ fixed_less_equiv <| tupleLess_equiv _ _ fixed_less_equiv <|
    tupleLess_equiv _ _ uint32_less_equiv <|
    tupleLess_equiv _ _ fixed_less_equiv <| tupleLess_equiv _ _ fixed_less_equiv <|
    tupleLess_equiv _ _ fixed_less_equiv <| tupleLess_equiv _ _ fixed_less_equiv <|
    tupleLess_equiv _ _ uint32_less_equiv <|
    tupleLess_equiv _ _ fixed_less_equiv <| tupleLess_equiv _ _ fixed_less_equiv <|
    tupleLess_equiv _ _ fixed_less_equiv <| tupleLess_equiv _ _ fixed_less_equiv <|
    tupleLess_equiv _ _ uint32_less_equiv <|
    tupleLess_equiv _ _ int_less_equiv int_less_equiv


theorem wrap32_sub_inj {a m b n : Int} (ha : InRange32 a) (hm : InRange32 m) (hb : InRange32 b)
    (hn : InRange32 n) (h1 : m ≤ a) (h2 : n ≤ b) :
    wrap32 (a - m) = wrap32 (b - n) ↔ a - m = b - n := by
  unfold InRange32 at ha hm hb hn
  unfold wrap32
  omega

theorem Min3_inRange {a b c : fixed} (ha : InRange32 a.value) (hb : InRange32 b.value)
    (hc : InRange32 c.value) : InRange32 (Min3 a b c).value := by
  rw [Min3_value]
  unfold InRange32 at *
  omega

theorem Min3_le (a b c : fixed) :
    (Min3 a b c).value ≤ a.value ∧ (Min3 a b c).value ≤ b.value ∧
      (Min3 a b c).value ≤ c.value := by
  rw [Min3_value]
  omega

/-- Equality of the cache offsets of two vertices against equality of their exact
relative positions. -/
theorem cacheOffset_eq_iff (v w : FixedVertex) (bv bw : Rect)
    (hv : InRange32 v.Position.X.value ∧ InRange32 v.Position.Y.value)
    (hw : InRange32 w.Position.X.value ∧ InRange32 w.Position.Y.value)
    (hbv : InRange32 bv.MinX.value ∧ InRange32 bv.MinY.value)
    (hbw : InRange32 bw.MinX.value ∧ InRange32 bw.MinY.value)
    (lv : bv.MinX.value ≤ v.Position.X.value ∧ bv.MinY.value ≤ v.Position.Y.value)
    (lw : bw.MinX.value ≤ w.Position.X.value ∧ bw.MinY.value ≤ w.Position.Y.value) :
    ((cacheOffset v bv).X = (cacheOffset w bw).X ∧ (cacheOffset v bv).Y = (cacheOffset w bw).Y)
      ↔ relativePosition v bv = relativePosition w bw := by
  unfold cacheOffset relativePosition
  simp only [fixed.eq_iff, fixed.sub_value, Prod.mk.injEq]
  rw [wrap32_sub_inj hv.1 hbv.1 hw.1 hbw.1 lv.1 lw.1,
    wrap32_sub_inj hv.2 hbv.2 hw.2 hbw.2 lv.2 lw.2]

/-- C6: the cache keys of two triangles whose positions are `int32_t` values are the same
key of the tile cache if and only if corresponding vertices have the same position relative
to the minimum corner of their triangle's bounding box, the same texture coordinate and the
same packed colour, and the two destination tiles have the same width and height. -/
theorem cache_key_equal_iff (v0 v1 v2 w0 w1 w2 : FixedVertex)
    (hv : PositionsInRange v0 v1 v2) (hw : PositionsInRange w0 w1 w2) :
    TextureCacheKey.equiv (cacheKey v0 v1 v2 (CalculateBoundingBox v0 v1 v2))
        (cacheKey w0 w1 w2 (CalculateBoundingBox w0 w1 w2)) = true ↔
      (relativePosition v0 (CalculateBoundingBox v0 v1 v2) =
          relativePosition w0 (CalculateBoundingBox w0 w1 w2) ∧
        v0.TextureCoordinate = w0.TextureCoordinate ∧ v0.Color = w0.Color) ∧
      (relativePosition v1 (CalculateBoundingBox v0 v1 v2) =
          relativePosition w1 (CalculateBoundingBox w0 w1 w2) ∧
        v1.TextureCoordinate = w1.TextureCoordinate ∧ v1.Color = w1.Color) ∧
      (relativePosition v2 (CalculateBoundingBox v0 v1 v2) =
          relativePosition w2 (CalculateBoundingBox w0 w1 w2) ∧
        v2.TextureCoordinate = w2.TextureCoordinate ∧ v2.Color = w2.Color) ∧
      (cacheDestination (CalculateBoundingBox v0 v1 v2)).w =
        (cacheDestination (CalculateBoundingBox w0 w1 w2)).w ∧
      (cacheDestination (CalculateBoundingBox v0 v1 v2)).h =
        (cacheDestination (CalculateBoundingBox w0 w1 w2)).h := by
  obtain ⟨hv0, hv1, hv2⟩ := hv
  obtain ⟨hw0, hw1, hw2⟩ := hw
  have bv : InRange32 (CalculateBoundingBox v0 v1 v2).MinX.value ∧
      InRange32 (CalculateBoundingBox v0 v1 v2).MinY.value :=
    ⟨Min3_inRange hv0.1 hv1.1 hv2.1, Min3_inRange hv0.2 hv1.2 hv2.2⟩
  have bw : InRange32 (CalculateBoundingBox w0 w1 w2).MinX.value ∧
      InRange32 (CalculateBoundingBox w0 w1 w2).MinY.value :=
    ⟨Min3_inRange hw0.1 hw1.1 hw2.1, Min3_inRange hw0.2 hw1.2 hw2.2⟩
  have lvX := Min3_le v0.Position.X v1.Position.X v2.Position.X
  have lvY := Min3_le v0.Position.Y v1.Position.Y v2.Position.Y
  have lwX := Min3_le w0.Position.X w1.Position.X w2.Position.X
  have lwY := Min3_le w0.Position.Y w1.Position.Y w2.Position.Y
  have e0 := cacheOffset_eq_iff v0 w0 _ _ hv0 hw0 bv bw ⟨lvX.1, lvY.1⟩ ⟨lwX.1, lwY.1⟩
  have e1 := cacheOffset_eq_iff v1 w1 _ _ hv1 hw1 bv bw ⟨lvX.2.1, lvY.2.1⟩ ⟨lwX.2.1, lwY.2.1⟩
  have e2 := cacheOffset_eq_iff v2 w2 _ _ hv2 hw2 bv bw ⟨lvX.2.2, lvY.2.2⟩ ⟨lwX.2.2, lwY.2.2⟩
  rw [TextureCacheKey.equiv_iff_eq, ← e0, ← e1, ← e2]
  unfold cacheKey
  simp only [Prod.mk.injEq]
  have t0 : v0.TextureCoordinate = w0.TextureCoordinate ↔
      v0.TextureCoordinate.X = w0.TextureCoordinate.X ∧
        v0.TextureCoordinate.Y = w0.TextureCoordinate.Y := by
    cases v0.TextureCoordinate; cases w0.TextureCoordinate; simp
  have t1 : v1.TextureCoordinate = w1.TextureCoordinate ↔
      v1.TextureCoordinate.X = w1.TextureCoordinate.X ∧
        v1.TextureCoordinate.Y = w1.TextureCoordinate.Y := by
    cases v1.TextureCoordinate; cases w1.TextureCoordinate; simp
  have t2 : v2.TextureCoordinate = w2.TextureCoordinate ↔
      v2.TextureCoordinate.X = w2.TextureCoordinate.X ∧
        v2.TextureCoordinate.Y = w2.TextureCoordinate.Y := by
    cases v2.TextureCoordinate; cases w2.TextureCoordinate; simp
  rw [t0, t1, t2]
  constructor
  · rintro ⟨a1, a2, a3, a4, a5, b1, b2, b3, b4, b5, c1, c2, c3, c4, c5, d1, d2⟩
    exact ⟨⟨⟨a1, a2⟩, ⟨a3, a4⟩, a5⟩, ⟨⟨b1, b2⟩, ⟨b3, b4⟩, b5⟩, ⟨⟨c1, c2⟩, ⟨c3, c4⟩, c5⟩, d1, d2⟩
  · rintro ⟨⟨⟨a1, a2⟩, ⟨a3, a4⟩, a5⟩, ⟨⟨b1, b2⟩, ⟨b3, b4⟩, b5⟩, ⟨⟨c1, c2⟩, ⟨c3, c4⟩, c5⟩, d1, d2⟩
    exact ⟨a1, a2, a3, a4, a5, b1, b2, b3, b4, b5, c1, c2, c3, c4, c5, d1, d2⟩

/-- C6, at an instance: the triangle `(0,0)`, `(10,0)`, `(0,10)` and the triangle
`(5,7)`, `(15,7)`, `(5,17)`. -/
theorem cache_key_equal_iff_witness :
    PositionsInRange (pixelVertex 0 0 7) (pixelVertex 10 0 7) (pixelVertex 0 10 7) ∧
    PositionsInRange (pixelVertex 5 7 7) (pixelVertex 15 7 7) (pixelVertex 5 17 7) ∧
    (TextureCacheKey.equiv
        (cacheKey (pixelVertex 0 0 7) (pixelVertex 10 0 7) (pixelVertex 0 10 7)
          (CalculateBoundingBox (pixelVertex 0 0 7) (pixelVertex 10 0 7) (pixelVertex 0 10 7)))
        (cacheKey (pixelVertex 5 7 7) (pixelVertex 15 7 7) (pixelVertex 5 17 7)
          (CalculateBoundingBox (pixelVertex 5 7 7) (pixelVertex 15 7 7) (pixelVertex 5 17 7)))
        = true ↔
      (relativePosition (pixelVertex 0 0 7)
          (CalculateBoundingBox (pixelVertex 0 0 7) (pixelVertex 10 0 7) (pixelVertex 0 10 7)) =
        relativePosition (pixelVertex 5 7 7)
          (CalculateBoundingBox (pixelVertex 5 7 7) (pixelVertex 15 7 7) (pixelVertex 5 17 7)) ∧
        (pixelVertex 0 0 7).TextureCoordinate = (pixelVertex 5 7 7).TextureCoordinate ∧
        (pixelVertex 0 0 7).Color = (pixelVertex 5 7 7).Color) ∧
      (relativePosition (pixelVertex 10 0 7)
          (CalculateBoundingBox (pixelVertex 0 0 7) (pixelVertex 10 0 7) (pixelVertex 0 10 7)) =
        relativePosition (pixelVertex 15 7 7)
          (CalculateBoundingBox (pixelVertex 5 7 7) (pixelVertex 15 7 7) (pixelVertex 5 17 7)) ∧
        (pixelVertex 10 0 7).TextureCoordinate = (pixelVertex 15 7 7).TextureCoordinate ∧
        (pixelVertex 10 0 7).Color = (pixelVertex 15 7 7).Color) ∧
      (relativePosition (pixelVertex 0 10 7)
          (CalculateBoundingBox (pixelVertex 0 0 7) (pixelVertex 10 0 7) (pixelVertex 0 10 7)) =
        relativePosition (pixelVertex 5 17 7)
          (CalculateBoundingBox (pixelVertex 5 7 7) (pixelVertex 15 7 7) (pixelVertex 5 17 7)) ∧
        (pixelVertex 0 10 7).TextureCoordinate = (pixelVertex 5 17 7).TextureCoordinate ∧
        (pixelVertex 0 10 7).Color = (pixelVertex 5 17 7).Color) ∧
      (cacheDestination
          (CalculateBoundingBox (pixelVertex 0 0 7) (pixelVertex 10 0 7) (pixelVertex 0 10 7))).w =
        (cacheDestination
          (CalculateBoundingBox (pixelVertex 5 7 7) (pixelVertex 15 7 7) (pixelVertex 5 17 7))).w ∧
      (cacheDestination
          (CalculateBoundingBox (pixelVertex 0 0 7) (pixelVertex 10 0 7) (pixelVertex 0 10 7))).h =
        (cacheDestination
          (CalculateBoundingBox (pixelVertex 5 7 7) (pixelVertex 15 7 7)
            (pixelVertex 5 17 7))).h) :=
  ⟨by decide, by decide,
    cache_key_equal_iff (pixelVertex 0 0 7) (pixelVertex 10 0 7) (pixelVertex 0 10 7)
      (pixelVertex 5 7 7) (pixelVertex 15 7 7) (pixelVertex 5 17 7) (by decide) (by decide)⟩

theorem sub_shifted (a b d : Int) : (fixed.mk (a + d)) - (fixed.mk (b + d)) = fixed.mk a - fixed.mk b := by
  rw [fixed.eq_iff]
  show wrap32 ((a + d) - (b + d)) = wrap32 (a - b)
  congr 1
  omega

theorem fixed_eta (a : fixed) : fixed.mk a.value = a := rfl

theorem Min3_shifted {a b c d : fixed} (ha : InRange32 (a.value + d.value))
    (hb : InRange32 (b.value + d.value)) (hc : InRange32 (c.value + d.value)) :
    Min3 (a + d) (b + d) (c + d) = fixed.mk ((Min3 a b c).value + d.value) := by
  rw [fixed.eq_iff, Min3_value, Min3_value, fixed.add_value, fixed.add_value, fixed.add_value,
    wrap32_of_inRange ha, wrap32_of_inRange hb, wrap32_of_inRange hc]
  show _ = min a.value (min b.value c.value) + d.value
  omega

theorem Max3_shifted {a b c d : fixed} (ha : InRange32 (a.value + d.value))
    (hb : InRange32 (b.value + d.value)) (hc : InRange32 (c.value + d.value)) :
    Max3 (a + d) (b + d) (c + d) = fixed.mk ((Max3 a b c).value + d.value) := by
  rw [fixed.eq_iff, Max3_value, Max3_value, fixed.add_value, fixed.add_value, fixed.add_value,
    wrap32_of_inRange ha, wrap32_of_inRange hb, wrap32_of_inRange hc]
  show _ = max a.value (max b.value c.value) + d.value
  omega

theorem add_of_inRange {a d : fixed} (h : InRange32 (a.value + d.value)) :
    a + d = fixed.mk (a.value + d.value) := by
  rw [fixed.eq_iff, fixed.add_value, wrap32_of_inRange h]

/-- C7: adding a fixed-point offset `(dx, dy)` to the three positions of a triangle, with no
coordinate overflowing, leaves the cache key as it is, tile width and height included. -/
theorem cache_key_translation_invariant (v0 v1 v2 : FixedVertex) (dx dy : fixed)
    (h0 : TranslationInRange v0 dx dy) (h1 : TranslationInRange v1 dx dy)
    (h2 : TranslationInRange v2 dx dy) :
    cacheKey (translate v0 dx dy) (translate v1 dx dy) (translate v2 dx dy)
        (CalculateBoundingBox (translate v0 dx dy) (translate v1 dx dy) (translate v2 dx dy)) =
      cacheKey v0 v1 v2 (CalculateBoundingBox v0 v1 v2) := by
  unfold TranslationInRange at h0 h1 h2
  unfold cacheKey cacheOffset cacheDestination CalculateBoundingBox translate
  simp only [Min3_shifted h0.1 h1.1 h2.1, Min3_shifted h0.2 h1.2 h2.2,
    Max3_shifted h0.1 h1.1 h2.1, Max3_shifted h0.2 h1.2 h2.2]
  simp only [add_of_inRange h0.1, add_of_inRange h0.2, add_of_inRange h1.1, add_of_inRange h1.2,
    add_of_inRange h2.1, add_of_inRange h2.2, sub_shifted, fixed_eta]

/-- C7, at an instance: the triangle `(0,0)`, `(10,0)`, `(0,10)` moved by `(5.5, 7.25)`. -/
theorem cache_key_translation_invariant_witness :
    TranslationInRange (pixelVertex 0 0 7) ⟨360448⟩ ⟨475136⟩ ∧
    TranslationInRange (pixelVertex 10 0 7) ⟨360448⟩ ⟨475136⟩ ∧
    TranslationInRange (pixelVertex 0 10 7) ⟨360448⟩ ⟨475136⟩ ∧
    cacheKey (translate (pixelVertex 0 0 7) ⟨360448⟩ ⟨475136⟩)
        (translate (pixelVertex 10 0 7) ⟨360448⟩ ⟨475136⟩)
        (translate (pixelVertex 0 10 7) ⟨360448⟩ ⟨475136⟩)
        (CalculateBoundingBox (translate (pixelVertex 0 0 7) ⟨360448⟩ ⟨475136⟩)
          (translate (pixelVertex 10 0 7) ⟨360448⟩ ⟨475136⟩)
          (translate (pixelVertex 0 10 7) ⟨360448⟩ ⟨475136⟩)) =
      cacheKey (pixelVertex 0 0 7) (pixelVertex 10 0 7) (pixelVertex 0 10 7)
        (CalculateBoundingBox (pixelVertex 0 0 7) (pixelVertex 10 0 7) (pixelVertex 0 10 7)) :=
  ⟨by decide, by decide, by decide,
    cache_key_translation_invariant (pixelVertex 0 0 7) (pixelVertex 10 0 7)
      (pixelVertex 0 10 7) ⟨360448⟩ ⟨475136⟩ (by decide) (by decide) (by decide)⟩

/-! ## C8: the barycentric weights -/

theorem div_of_ne_zero (a b : fixed) (h : b.value ≠ 0) :
    fixed.div a b = some ⟨wrap32 (Int.tdiv (a.value * 2 ^ fixed.shift) b.value)⟩ := by
  unfold fixed.div
  rw [if_neg h]

theorem one_sub_sub_add (w1 w2 : fixed) :
    w1 + w2 + (fixed.mk 65536 - w1 - w2) = fixed.mk 65536 := by
  rw [fixed.eq_iff]
  simp only [fixed.add_value, fixed.sub_value]
  unfold wrap32
  omega

theorem one_sub_sub_value (w1 w2 : fixed) (h1 : InRange32 (65536 - w1.value))
    (h2 : InRange32 (65536 - w1.value - w2.value)) :
    w1.value + w2.value + (fixed.mk 65536 - w1 - w2).value = 65536 := by
  simp only [fixed.sub_value]
  rw [wrap32_of_inRange h1, wrap32_of_inRange h2]
  omega

/-- C8: for an interpolation equation with a non-zero `Divisor` and any point, `Evaluate`
computes its three weights, and their fixed-point sum is `fixed(1.0)` exactly, so it differs
from one by no more than one raw unit; when the two subtractions that compute `w3` do not
overflow, the raw values of the three weights add up to `65536` exactly. -/
theorem barycentric_weights_sum_to_one (value0 value1 value2 : fixed) (v0 v1 v2 : FixedVector)
    (x y : fixed)
    (hD : (InterpolatedFactorEquation.new value0 value1 value2 v0 v1 v2).Divisor.value ≠ 0) :
    ∃ w1 w2 w3 : fixed,
      (InterpolatedFactorEquation.new value0 value1 value2 v0 v1 v2).weights x y
        = some (w1, w2, w3) ∧
      |(w1 + w2 + w3).to_double - 1| ≤ 1 / 65536 ∧
      w1 + w2 + w3 = fixed.ofDouble 1 ∧
      (InRange32 (65536 - w1.value) → InRange32 (65536 - w1.value - w2.value) →
        w1.value + w2.value + w3.value = 65536) := by
  unfold InterpolatedFactorEquation.weights
  rw [div_of_ne_zero _ _ hD, div_of_ne_zero _ _ hD]
  simp only [Option.some_bind, fixed.ofDouble_one]
  refine ⟨_, _, _, rfl, ?_, one_sub_sub_add _ _, one_sub_sub_value _ _⟩
  rw [one_sub_sub_add, to_double_one]
  norm_num

/-- C8, at an instance: the triangle `(0,0)`, `(10,0)`, `(0,10)` and the point `(2.5, 3.5)`. -/
theorem barycentric_weights_sum_to_one_witness :
    ∃ w1 w2 w3 : fixed,
      (InterpolatedFactorEquation.new ⟨0⟩ ⟨65536⟩ ⟨131072⟩ ⟨⟨0⟩, ⟨0⟩⟩ ⟨⟨655360⟩, ⟨0⟩⟩
        ⟨⟨0⟩, ⟨655360⟩⟩).weights ⟨163840⟩ ⟨229376⟩ = some (w1, w2, w3) ∧
      |(w1 + w2 + w3).to_double - 1| ≤ 1 / 65536 ∧
      w1 + w2 + w3 = fixed.ofDouble 1 ∧
      (InRange32 (65536 - w1.value) → InRange32 (65536 - w1.value - w2.value) →
        w1.value + w2.value + w3.value = 65536) :=
  barycentric_weights_sum_to_one ⟨0⟩ ⟨65536⟩ ⟨131072⟩ ⟨⟨0⟩, ⟨0⟩⟩ ⟨⟨655360⟩, ⟨0⟩⟩
    ⟨⟨0⟩, ⟨655360⟩⟩ ⟨163840⟩ ⟨229376⟩ (by decide!)

/-! ## C9: conversion from a floating value and back -/

/-- C9, the code at `v = -1.25 / 65536`: the constructor computes `-1.25 + 0.5 = -0.75` and
truncates it toward zero, so the raw value is `0`, and `to_double` gives `0`, which is
`1.25 / 65536` away from `v`, more than `1 / 65536`. -/
theorem negative_value_round_trip_error :
    (fixed.ofFloat (-5 / 262144)).value = 0 ∧
    (fixed.ofFloat (-5 / 262144)).to_double - (-5 / 262144) = 5 / 262144 ∧
    ¬ (|(fixed.ofFloat (-5 / 262144)).to_double - (-5 / 262144)| ≤ 1 / 65536) := by
  have h : fixed.ofFloat (-5 / 262144) = ⟨0⟩ := by decide!
  rw [h]
  unfold fixed.to_double
  norm_num
  rw [abs_of_pos (by norm_num)]
  norm_num

/-! ## C10: the texel read by `Texture::Sample` -/

/-- C10, the code at `u = v = 1` on a 2 by 2 texture: `x = round(1.5) = 2` and `y = 2`, so
`location = 2 * 2 + 2 = 6`, which is not below `w * h = 4`: the `assert` fails and `Sample`
has no result. -/
theorem sample_at_one_fails_the_guard :
    checkerTexture.SampleLocation 1 1 = 6 ∧
    ¬ (checkerTexture.SampleLocation 1 1 < checkerTexture.w * checkerTexture.h) ∧
    checkerTexture.Sample 1 1 = none := by
  decide!

/-! ## C11, C20: divisions in the uniform-colour rasterizer -/

/-- On a cache miss `DrawUniformColorTriangle` runs the branches on the sorted offsets. -/
theorem DrawUniformColorTriangle_miss (target : Target) (v0 v1 v2 : FixedVertex)
    (bounding : Rect) (a b c : FixedVector)
    (hmiss : target.cacheCount (cacheKey v0 v1 v2 bounding) = 0)
    (hsort : sortByY [cacheOffset v0 bounding, cacheOffset v1 bounding,
      cacheOffset v2 bounding] = [a, b, c]) :
    DrawUniformColorTriangle target v0 v1 v2 bounding =
      (drawSortedTriangle
        (((target.MakeTexture (cacheDestination bounding).w
            (cacheDestination bounding).h).2.UseAsRenderTarget
          (some (target.MakeTexture (cacheDestination bounding).w
            (cacheDestination bounding).h).1)).DisableClip)
        a b c (Color.ofUInt32 v0.Color)).map fun drawn =>
      (((drawn.EnableClip).UseAsRenderTarget none).call
        (RenderCall.RenderCopy (target.MakeTexture (cacheDestination bounding).w
            (cacheDestination bounding).h).1 none (cacheDestination bounding))).cacheSet
        (cacheKey v0 v1 v2 bounding)
        (target.MakeTexture (cacheDestination bounding).w (cacheDestination bounding).h).1 := by
  unfold DrawUniformColorTriangle drawSortedTriangle splitVertex
  simp only [hmiss, gt_iff_lt, lt_self_iff_false, if_false, hsort, List.get?_cons_zero,
    List.get?_cons_succ, Option.some_bind]
  congr 1
  split_ifs <;> first | rfl | (cases fixed.div (b.Y - a.Y) (c.Y - a.Y) <;> rfl)

/-- C11, the code at the triangle `(0,0)`, `(10,0)`, `(5,0)`, three vertices with the same
`Y`, on a fresh target: the sorted offsets keep their order, `vertex1.Y == vertex2.Y` selects
`DrawBottomFlatTriangle`, whose first statement divides `x1 - x0` by `y1 - y0 = 0`; the
division, the flat-triangle call and `DrawUniformColorTriangle` have no result. -/
theorem flat_line_triangle_divides_by_zero :
    fixed.div (fixed.mk 655360 - fixed.mk 0) (fixed.mk 0 - fixed.mk 0) = none ∧
    (DrawBottomFlatTriangle (freshTarget 20 20) ⟨0⟩ ⟨0⟩ ⟨655360⟩ ⟨0⟩ ⟨327680⟩ ⟨0⟩
      (Color.ofUInt32 0xFF0000FF)).isNone = true ∧
    sortByY [cacheOffset (pixelVertex 0 0 0xFF0000FF)
        (CalculateBoundingBox (pixelVertex 0 0 0xFF0000FF) (pixelVertex 10 0 0xFF0000FF)
          (pixelVertex 5 0 0xFF0000FF)),
      cacheOffset (pixelVertex 10 0 0xFF0000FF)
        (CalculateBoundingBox (pixelVertex 0 0 0xFF0000FF) (pixelVertex 10 0 0xFF0000FF)
          (pixelVertex 5 0 0xFF0000FF)),
      cacheOffset (pixelVertex 5 0 0xFF0000FF)
        (CalculateBoundingBox (pixelVertex 0 0 0xFF0000FF) (pixelVertex 10 0 0xFF0000FF)
          (pixelVertex 5 0 0xFF0000FF))]
      = [⟨⟨0⟩, ⟨0⟩⟩, ⟨⟨655360⟩, ⟨0⟩⟩, ⟨⟨327680⟩, ⟨0⟩⟩] ∧
    (DrawUniformColorTriangle (freshTarget 20 20) (pixelVertex 0 0 0xFF0000FF)
      (pixelVertex 10 0 0xFF0000FF) (pixelVertex 5 0 0xFF0000FF)
      (CalculateBoundingBox (pixelVertex 0 0 0xFF0000FF) (pixelVertex 10 0 0xFF0000FF)
        (pixelVertex 5 0 0xFF0000FF))).isNone = true := by
  decide!

theorem slope_bounds {p q : Int} (hp : 0 < p) (hq : p < q) :
    0 ≤ Int.tdiv (p * 2 ^ 16) q ∧ Int.tdiv (p * 2 ^ 16) q ≤ 65535 := by
  rw [Int.tdiv_eq_ediv (by positivity) (by omega)]
  constructor
  · exact Int.ediv_nonneg (by positivity) (by omega)
  · have : p * 2 ^ 16 / q < 65536 := by
      apply Int.ediv_lt_of_lt_mul (by omega)
      norm_num
      nlinarith
    omega

theorem scaled_between {t d : Int} (h0 : 0 ≤ t) (h1 : t ≤ 65535) :
    min 0 d ≤ t * d / 65536 ∧ t * d / 65536 ≤ max 0 d := by
  rcases le_or_lt 0 d with hd | hd
  · have a : 0 ≤ t * d := by positivity
    have b : t * d ≤ 65535 * d := by nlinarith
    omega
  · have a : t * d ≤ 0 := by nlinarith
    have b : 65535 * d ≤ t * d := by nlinarith
    omega

theorem DrawBottomFlatTriangle_of_ne_zero (target : Target) (x0 y0 x1 y1 x2 y2 : fixed)
    (color : Color) (h1 : (y1 - y0).value ≠ 0) (h2 : (y2 - y0).value ≠ 0) :
    ∃ drawn, DrawBottomFlatTriangle target x0 y0 x1 y1 x2 y2 color = some drawn := by
  unfold DrawBottomFlatTriangle
  rw [div_of_ne_zero _ _ h1, div_of_ne_zero _ _ h2]
  exact ⟨_, rfl⟩

theorem DrawTopFlatTriangle_of_ne_zero (target : Target) (x0 y0 x1 y1 x2 y2 : fixed)
    (color : Color) (h1 : (y2 - y0).value ≠ 0) (h2 : (y2 - y1).value ≠ 0) :
    ∃ drawn, DrawTopFlatTriangle target x0 y0 x1 y1 x2 y2 color = some drawn := by
  unfold DrawTopFlatTriangle
  rw [div_of_ne_zero _ _ h1, div_of_ne_zero _ _ h2]
  exact ⟨_, rfl⟩

/-- C13, counterexample: the positions `(0, 0)`, `(1, 0)` and `(0.5, 1/65536)` are not
collinear and nothing overflows, yet both products are floored to zero and `Divisor` is zero. -/
theorem sliver_has_zero_divisor :
    DivisorInRange ⟨⟨0⟩, ⟨0⟩⟩ ⟨⟨65536⟩, ⟨0⟩⟩ ⟨⟨32768⟩, ⟨1⟩⟩ ∧
    (InterpolatedFactorEquation.new ⟨0⟩ ⟨0⟩ ⟨0⟩ ⟨⟨0⟩, ⟨0⟩⟩ ⟨⟨65536⟩, ⟨0⟩⟩
      ⟨⟨32768⟩, ⟨1⟩⟩).Divisor = ⟨0⟩ ∧
    ¬ Collinear ⟨⟨0⟩, ⟨0⟩⟩ ⟨⟨65536⟩, ⟨0⟩⟩ ⟨⟨32768⟩, ⟨1⟩⟩ := by
  decide!

/-- Without overflow `Divisor` is the sum of the two floored products. -/
theorem Divisor_value_of_inRange (value0 value1 value2 : fixed) (v0 v1 v2 : FixedVector)
    (h : DivisorInRange v0 v1 v2) :
    (InterpolatedFactorEquation.new value0 value1 value2 v0 v1 v2).Divisor.value =
      (v1.Y.value - v2.Y.value) * (v0.X.value - v2.X.value) / 65536
        + (v2.X.value - v1.X.value) * (v0.Y.value - v2.Y.value) / 65536 := by
  obtain ⟨h1, h2, h3, h4, h5, h6, h7⟩ := h
  simp only [InterpolatedFactorEquation.new, fixed.add_value, fixed.mul_value, fixed.sub_value,
    wrap32_of_inRange h1, wrap32_of_inRange h2, wrap32_of_inRange h3, wrap32_of_inRange h4,
    wrap32_of_inRange h5, wrap32_of_inRange h6, wrap32_of_inRange h7]

/-- C13, amended: when nothing overflows and the two fixed-point products are exact (each
product of raw differences is a multiple of `2^16`, as for whole-pixel coordinates),
`Divisor` is zero if and only if the three positions are collinear. -/
theorem divisor_zero_iff_collinear (value0 value1 value2 : fixed) (v0 v1 v2 : FixedVector)
    (h : DivisorInRange v0 v1 v2)
    (e1 : (65536 : Int) ∣ (v1.Y.value - v2.Y.value) * (v0.X.value - v2.X.value))
    (e2 : (65536 : Int) ∣ (v2.X.value - v1.X.value) * (v0.Y.value - v2.Y.value)) :
    (InterpolatedFactorEquation.new value0 value1 value2 v0 v1 v2).Divisor.value = 0 ↔
      Collinear v0 v1 v2 := by
  rw [Divisor_value_of_inRange value0 value1 value2 v0 v1 v2 h]
  unfold Collinear
  obtain ⟨k1, hk1⟩ := e1
  obtain ⟨k2, hk2⟩ := e2
  rw [hk1, hk2, Int.mul_ediv_cancel_left _ (by norm_num), Int.mul_ediv_cancel_left _ (by norm_num)]
  have key : (v1.X.value - v0.X.value) * (v2.Y.value - v0.Y.value)
      - (v2.X.value - v0.X.value) * (v1.Y.value - v0.Y.value) = 65536 * (k1 + k2) := by
    rw [mul_add, ← hk1, ← hk2]
    ring
  rw [key]
  omega

/-- C13, amended, at an instance: the whole-pixel positions `(0, 0)`, `(10, 0)`, `(0, 10)`. -/
theorem divisor_zero_iff_collinear_witness :
    (InterpolatedFactorEquation.new ⟨0⟩ ⟨0⟩ ⟨0⟩ ⟨⟨0⟩, ⟨0⟩⟩ ⟨⟨655360⟩, ⟨0⟩⟩
      ⟨⟨0⟩, ⟨655360⟩⟩).Divisor.value = 0 ↔
      Collinear ⟨⟨0⟩, ⟨0⟩⟩ ⟨⟨655360⟩, ⟨0⟩⟩ ⟨⟨0⟩, ⟨655360⟩⟩ :=
  divisor_zero_iff_collinear ⟨0⟩ ⟨0⟩ ⟨0⟩ ⟨⟨0⟩, ⟨0⟩⟩ ⟨⟨655360⟩, ⟨0⟩⟩ ⟨⟨0⟩, ⟨655360⟩⟩ (by decide)
    (by decide) (by decide)

/-! ## C14: the constant of the edge function -/

/-- C14, the code at the whole-pixel edge from `(0, 1)` to `(2, 1)`: `A = 0`, `B = 2`,
`A*(x0+x1) + B*(y0+y1) = 4` (raw `262144`), and `Constant` has raw value `-131068`, not
`-131072`, because `fixed(-0.5f)` has raw value `-32767`; `Evaluate` gives raw `4` at both
end points instead of zero. -/
theorem edge_constant_misses_half :
    (Line.new ⟨0⟩ ⟨65536⟩ ⟨131072⟩ ⟨65536⟩).XCoefficient = ⟨0⟩ ∧
    (Line.new ⟨0⟩ ⟨65536⟩ ⟨131072⟩ ⟨65536⟩).YCoefficient = ⟨131072⟩ ∧
    (Line.new ⟨0⟩ ⟨65536⟩ ⟨131072⟩ ⟨65536⟩).XCoefficient * (fixed.mk 0 + fixed.mk 131072)
      + (Line.new ⟨0⟩ ⟨65536⟩ ⟨131072⟩ ⟨65536⟩).YCoefficient * (fixed.mk 65536 + fixed.mk 65536)
      = ⟨262144⟩ ∧
    (Line.new ⟨0⟩ ⟨65536⟩ ⟨131072⟩ ⟨65536⟩).Constant = ⟨-131068⟩ ∧
    (Line.new ⟨0⟩ ⟨65536⟩ ⟨131072⟩ ⟨65536⟩).Evaluate ⟨0⟩ ⟨65536⟩ = ⟨4⟩ ∧
    (Line.new ⟨0⟩ ⟨65536⟩ ⟨131072⟩ ⟨65536⟩).Evaluate ⟨131072⟩ ⟨65536⟩ = ⟨4⟩ := by
  decide!

/-! ## C15: multiplication and division -/

/-- C15: for 32-bit raw values the 64-bit intermediates `a * b` and `a << 16` do not
overflow; the product is the floor of `a * b / 2^16` when that fits in 32 bits; the quotient
by a non-zero `b` is `a * 2^16 / b` rounded toward zero when that fits in 32 bits;
multiplying and dividing by `fixed(1.0)` give the operand back. -/
theorem multiply_divide_wide_intermediate (a b : fixed) (ha : InRange32 a.value)
    (hb : InRange32 b.value) :
    InRange64 (a.value * b.value) ∧ InRange64 (a.value * 2 ^ fixed.shift) ∧
    (InRange32 ((a.value * b.value) / 2 ^ 16) → (a * b).value = (a.value * b.value) / 2 ^ 16) ∧
    (b.value ≠ 0 → InRange32 (Int.tdiv (a.value * 2 ^ 16) b.value) →
      fixed.div a b = some ⟨Int.tdiv (a.value * 2 ^ 16) b.value⟩) ∧
    a * fixed.ofDouble 1 = a ∧ fixed.div a (fixed.ofDouble 1) = some a := by
  unfold InRange32 at ha hb
  refine ⟨?_, ?_, ?_, ?_, ?_, ?_⟩
  · unfold InRange64
    constructor <;> nlinarith
  · unfold InRange64 fixed.shift
    constructor <;> omega
  · intro h
    rw [fixed.mul_value]
    exact wrap32_of_inRange h
  · intro hb0 h
    unfold fixed.div
    rw [if_neg hb0]
    show some (fixed.mk (wrap32 (Int.tdiv (a.value * 2 ^ 16) b.value))) = _
    rw [wrap32_of_inRange h]
  · rw [fixed.ofDouble_one, fixed.eq_iff, fixed.mul_value]
    show wrap32 (a.value * 65536 / 65536) = a.value
    rw [Int.mul_ediv_cancel _ (by norm_num)]
    exact wrap32_of_inRange ha
  · rw [fixed.ofDouble_one]
    unfold fixed.div
    rw [if_neg (by decide)]
    show some (fixed.mk (wrap32 (Int.tdiv (a.value * 65536) 65536))) = _
    rw [Int.mul_tdiv_cancel _ (by norm_num)]
    rw [wrap32_of_inRange ha]

/-- C15, at an instance: `1.5` and `-2.5`, whose product is `-3.75` and whose quotient
is `-0.6` cut toward zero. -/
theorem multiply_divide_wide_intermediate_witness :
    InRange64 ((fixed.mk 98304).value * (fixed.mk (-163840)).value) ∧
    InRange64 ((fixed.mk 98304).value * 2 ^ fixed.shift) ∧
    (fixed.mk 98304 * fixed.mk (-163840)).value =
      ((fixed.mk 98304).value * (fixed.mk (-163840)).value) / 2 ^ 16 ∧
    (fixed.mk 98304 * fixed.mk (-163840)).value = -245760 ∧
    fixed.div (fixed.mk 98304) (fixed.mk (-163840)) =
      some ⟨Int.tdiv ((fixed.mk 98304).value * 2 ^ 16) (fixed.mk (-163840)).value⟩ ∧
    fixed.div (fixed.mk 98304) (fixed.mk (-163840)) = some ⟨-39321⟩ ∧
    fixed.mk 98304 * fixed.ofDouble 1 = fixed.mk 98304 ∧
    fixed.div (fixed.mk 98304) (fixed.ofDouble 1) = some (fixed.mk 98304) :=
  have h := multiply_divide_wide_intermediate ⟨98304⟩ ⟨-163840⟩ (by decide) (by decide)
  ⟨h.1, h.2.1, h.2.2.1 (by decide), (h.2.2.1 (by decide)).trans (by decide),
    h.2.2.2.1 (by decide) (by decide), (h.2.2.2.1 (by decide) (by decide)).trans (by decide),
    h.2.2.2.2.1, h.2.2.2.2.2⟩

/-! ## C18: the tie-break flags -/

/-- C18: for two points whose coordinate differences fit in 32 bits, the tie-break flag of
the edge is the negation of that of the reversed edge when the points are distinct, and both
flags are off when the points coincide. -/
theorem tie_flags_complementary (x0 y0 x1 y1 : fixed)
    (hx : InRange32 (x1.value - x0.value)) (hx' : InRange32 (x0.value - x1.value))
    (hy : InRange32 (y0.value - y1.value)) (hy' : InRange32 (y1.value - y0.value)) :
    ((x0.value ≠ x1.value ∨ y0.value ≠ y1.value) →
      (Line.new x0 y0 x1 y1).Tie = !(Line.new x1 y1 x0 y0).Tie) ∧
    ((x0.value = x1.value ∧ y0.value = y1.value) →
      (Line.new x0 y0 x1 y1).Tie = false ∧ (Line.new x1 y1 x0 y0).Tie = false) := by
  simp only [Line.new, fixed.sub_value, wrap32_of_inRange hx, wrap32_of_inRange hx',
    wrap32_of_inRange hy, wrap32_of_inRange hy']
  unfold InRange32 at hx hx' hy hy'
  constructor
  · intro hne
    by_cases hA : y0.value - y1.value = 0
    · have hA' : y1.value - y0.value = 0 := by omega
      by_cases hB1 : x1.value - x0.value > 0
      · have : ¬ (x0.value - x1.value > 0) := by omega
        simp [hA, hA', hB1, this]
      · have : (x0.value - x1.value > 0) := by omega
        simp [hA, hA', hB1, this]
    · have hA' : ¬ (y1.value - y0.value = 0) := by omega
      by_cases hB1 : y0.value - y1.value > 0
      · have : ¬ (y1.value - y0.value > 0) := by omega
        simp [hA, hA', hB1, this]
      · have : (y1.value - y0.value > 0) := by omega
        simp [hA, hA', hB1, this]
  · rintro ⟨ex, ey⟩
    have hA : y0.value - y1.value = 0 := by omega
    have hA' : y1.value - y0.value = 0 := by omega
    have hB : x1.value - x0.value = 0 := by omega
    have hB' : x0.value - x1.value = 0 := by omega
    simp [hA, hA', hB, hB']

/-- C18, at an instance: the edge from `(0, 1)` to `(10, -2)`, and the point `(3, 4)`
taken twice. -/
theorem tie_flags_complementary_witness :
    (Line.new ⟨0⟩ ⟨65536⟩ ⟨655360⟩ ⟨-131072⟩).Tie =
      !(Line.new ⟨655360⟩ ⟨-131072⟩ ⟨0⟩ ⟨65536⟩).Tie ∧
    (Line.new ⟨196608⟩ ⟨262144⟩ ⟨196608⟩ ⟨262144⟩).Tie = false :=
  ⟨(tie_flags_complementary ⟨0⟩ ⟨65536⟩ ⟨655360⟩ ⟨-131072⟩ (by decide) (by decide) (by decide)
    (by decide)).1 (by decide),
   ((tie_flags_complementary ⟨196608⟩ ⟨262144⟩ ⟨196608⟩ ⟨262144⟩ (by decide) (by decide)
    (by decide) (by decide)).2 (by decide)).1⟩

/-! ## C12: the zero divisor in the generic rasterizer -/

/-- C12: the sliver with raw positions `(0, 0)`, `(65536, 65534)`, `(32770, 32770)` has
interpolation divisor zero, yet the first sample point of its tile, `(0.5, 0.5)`, passes the
three `IsInside` tests; `Evaluate` then divides by the zero divisor and `DrawTriangle` gives
no result. -/
theorem sliver_sample_reaches_zero_divisor :
    (InterpolatedFactorEquation.new ⟨0⟩ ⟨0⟩ ⟨0⟩ (rawVertex 0 0 0xFFFFFFFF).Position
      (rawVertex 65536 65534 0xFFFFFFFF).Position
      (rawVertex 32770 32770 0xFFFFFFFF).Position).Divisor = ⟨0⟩ ∧
    (CalculateBoundingBox (rawVertex 0 0 0xFFFFFFFF) (rawVertex 65536 65534 0xFFFFFFFF)
      (rawVertex 32770 32770 0xFFFFFFFF)).MinX = ⟨0⟩ ∧
    (CalculateBoundingBox (rawVertex 0 0 0xFFFFFFFF) (rawVertex 65536 65534 0xFFFFFFFF)
      (rawVertex 32770 32770 0xFFFFFFFF)).MinY = ⟨0⟩ ∧
    fixed.ofFloat (roundFloat ((0 : ℚ) + 1 / 2)) + fixed.mk 0 = ⟨32768⟩ ∧
    (Line.new ⟨0⟩ ⟨0⟩ ⟨65536⟩ ⟨65534⟩).IsInside ⟨32768⟩ ⟨32768⟩ = true ∧
    (Line.new ⟨65536⟩ ⟨65534⟩ ⟨32770⟩ ⟨32770⟩).IsInside ⟨32768⟩ ⟨32768⟩ = true ∧
    (Line.new ⟨32770⟩ ⟨32770⟩ ⟨0⟩ ⟨0⟩).IsInside ⟨32768⟩ ⟨32768⟩ = true ∧
    (InterpolatedFactorEquation.new ⟨0⟩ ⟨0⟩ ⟨0⟩ (rawVertex 0 0 0xFFFFFFFF).Position
      (rawVertex 65536 65534 0xFFFFFFFF).Position
      (rawVertex 32770 32770 0xFFFFFFFF).Position).Evaluate ⟨32768⟩ ⟨32768⟩ = none ∧
    (DrawTriangle (freshTarget 20 20) (rawVertex 0 0 0xFFFFFFFF)
      (rawVertex 65536 65534 0xFFFFFFFF) (rawVertex 32770 32770 0xFFFFFFFF) checkerTexture
      (CalculateBoundingBox (rawVertex 0 0 0xFFFFFFFF) (rawVertex 65536 65534 0xFFFFFFFF)
        (rawVertex 32770 32770 0xFFFFFFFF))).isNone = true := by
  decide!

/-! ## C16: the triangle loop -/


theorem triangleCall_isRectangle (v0 v1 v2 : FixedVertex) (texture : Texture) (bounding : Rect) :
    (triangleCall v0 v1 v2 texture bounding).isRectangle = false := by
  unfold triangleCall
  simp only []
  split <;> rfl

theorem triangleStep_total (vertexBuffer : List ImDrawVert) (indexBuffer : List Nat)
    (ElemCount : Nat) (texture : Texture) (i : Nat)
    (hfetch : ∀ j, j < ElemCount → (fetchVertex vertexBuffer indexBuffer j).isSome = true)
    (hi : i + 3 ≤ ElemCount) :
    ∃ call,
      (triangleStep vertexBuffer indexBuffer ElemCount texture i = some (call, i + 6) ∧
        call.isRectangle = true ∧ i + 6 ≤ ElemCount) ∨
      (triangleStep vertexBuffer indexBuffer ElemCount texture i = some (call, i + 3) ∧
        call.isRectangle = false) := by
  obtain ⟨v0, h0⟩ := Option.isSome_iff_exists.1 (hfetch (i + 0) (by omega))
  obtain ⟨v1, h1⟩ := Option.isSome_iff_exists.1 (hfetch (i + 1) (by omega))
  obtain ⟨v2, h2⟩ := Option.isSome_iff_exists.1 (hfetch (i + 2) (by omega))
  unfold triangleStep
  rw [h0, h1, h2]
  simp only [Option.some_bind]
  by_cases h6 : i + 6 ≤ ElemCount
  · obtain ⟨v3, h3⟩ := Option.isSome_iff_exists.1 (hfetch (i + 3) (by omega))
    obtain ⟨v4, h4⟩ := Option.isSome_iff_exists.1 (hfetch (i + 4) (by omega))
    obtain ⟨v5, h5⟩ := Option.isSome_iff_exists.1 (hfetch (i + 5) (by omega))
    rw [if_pos h6, h3, h4, h5]
    simp only [Option.some_bind]
    by_cases hr : isRectangle (CalculateBoundingBox v0 v1 v2) v0 v1 v2 v3 v4 v5 = true
    · rw [if_pos hr]
      exact ⟨_, Or.inl ⟨rfl, rfl, h6⟩⟩
    · rw [if_neg hr]
      exact ⟨_, Or.inr ⟨rfl, triangleCall_isRectangle _ _ _ _ _⟩⟩
  · rw [if_neg h6]
    exact ⟨_, Or.inr ⟨rfl, triangleCall_isRectangle _ _ _ _ _⟩⟩

theorem fetchVertex_take (vertexBuffer : List ImDrawVert) (indexBuffer : List Nat)
    (n j : Nat) (hj : j < n) :
    fetchVertex vertexBuffer (indexBuffer.take n) j = fetchVertex vertexBuffer indexBuffer j := by
  unfold fetchVertex
  rw [List.get?_eq_getElem?, List.get?_eq_getElem?, List.getElem?_take_of_lt hj]

theorem triangleStep_take (vertexBuffer : List ImDrawVert) (indexBuffer : List Nat)
    (ElemCount : Nat) (texture : Texture) (i : Nat) (hi : i + 3 ≤ ElemCount) :
    triangleStep vertexBuffer (indexBuffer.take ElemCount) ElemCount texture i =
      triangleStep vertexBuffer indexBuffer ElemCount texture i := by
  unfold triangleStep
  rw [fetchVertex_take _ _ _ (i + 0) (by omega), fetchVertex_take _ _ _ (i + 1) (by omega),
    fetchVertex_take _ _ _ (i + 2) (by omega)]
  by_cases h6 : i + 6 ≤ ElemCount
  · simp only [if_pos h6]
    rw [fetchVertex_take _ _ _ (i + 3) (by omega), fetchVertex_take _ _ _ (i + 4) (by omega),
      fetchVertex_take _ _ _ (i + 5) (by omega)]
  · simp only [if_neg h6]

/-- C16, the code at a batch of two triangles, `ElemCount = 6`, whose first triangle is the
flat triangle `(0,0)`, `(10,0)`, `(5,0)` of one colour on the white texel: the first pass
calls `DrawUniformColorTriangle` for it, that call divides by zero and has no result, and
the loop has no result with any number of passes allowed; the second index triple is never
handled. The second triangle alone, as a batch of three indices, is drawn; with the two
triangles in the other order the loop has no result either. -/
theorem loop_stops_at_flat_triangle :
    triangleStep (flatThenRightVertices 0xFF0000FF) [0, 1, 2, 3, 4, 5] 6 checkerTexture 0 =
      some ((DrawCall.UniformColorTriangle ⟨⟨⟨0⟩, ⟨0⟩⟩, ⟨⟨16384⟩, ⟨16384⟩⟩, 0xFF0000FF⟩
        ⟨⟨⟨655360⟩, ⟨0⟩⟩, ⟨⟨16384⟩, ⟨16384⟩⟩, 0xFF0000FF⟩
        ⟨⟨⟨327680⟩, ⟨0⟩⟩, ⟨⟨16384⟩, ⟨16384⟩⟩, 0xFF0000FF⟩
        (CalculateBoundingBox ⟨⟨⟨0⟩, ⟨0⟩⟩, ⟨⟨16384⟩, ⟨16384⟩⟩, 0xFF0000FF⟩
          ⟨⟨⟨655360⟩, ⟨0⟩⟩, ⟨⟨16384⟩, ⟨16384⟩⟩, 0xFF0000FF⟩
          ⟨⟨⟨327680⟩, ⟨0⟩⟩, ⟨⟨16384⟩, ⟨16384⟩⟩, 0xFF0000FF⟩)), 3) ∧
    (DrawCall.run (freshTarget 20 20)
      (DrawCall.UniformColorTriangle ⟨⟨⟨0⟩, ⟨0⟩⟩, ⟨⟨16384⟩, ⟨16384⟩⟩, 0xFF0000FF⟩
        ⟨⟨⟨655360⟩, ⟨0⟩⟩, ⟨⟨16384⟩, ⟨16384⟩⟩, 0xFF0000FF⟩
        ⟨⟨⟨327680⟩, ⟨0⟩⟩, ⟨⟨16384⟩, ⟨16384⟩⟩, 0xFF0000FF⟩
        (CalculateBoundingBox ⟨⟨⟨0⟩, ⟨0⟩⟩, ⟨⟨16384⟩, ⟨16384⟩⟩, 0xFF0000FF⟩
          ⟨⟨⟨655360⟩, ⟨0⟩⟩, ⟨⟨16384⟩, ⟨16384⟩⟩, 0xFF0000FF⟩
          ⟨⟨⟨327680⟩, ⟨0⟩⟩, ⟨⟨16384⟩, ⟨16384⟩⟩, 0xFF0000FF⟩))).isNone = true ∧
    (∀ fuel : Nat, (triangleLoop (flatThenRightVertices 0xFF0000FF) [0, 1, 2, 3, 4, 5] 6 checkerTexture
      fuel 0 (freshTarget 20 20)).isNone = true) ∧
    (triangleLoop (flatThenRightVertices 0xFF0000FF) [3, 4, 5] 3 checkerTexture 1 0
      (freshTarget 20 20)).isSome = true ∧
    (triangleLoop (flatThenRightVertices 0xFF0000FF) [3, 4, 5, 0, 1, 2] 6 checkerTexture 2 0
      (freshTarget 20 20)).isNone = true := by
  have hstep : triangleStep (flatThenRightVertices 0xFF0000FF) [0, 1, 2, 3, 4, 5] 6 checkerTexture 0 =
      some ((DrawCall.UniformColorTriangle ⟨⟨⟨0⟩, ⟨0⟩⟩, ⟨⟨16384⟩, ⟨16384⟩⟩, 0xFF0000FF⟩
        ⟨⟨⟨655360⟩, ⟨0⟩⟩, ⟨⟨16384⟩, ⟨16384⟩⟩, 0xFF0000FF⟩
        ⟨⟨⟨327680⟩, ⟨0⟩⟩, ⟨⟨16384⟩, ⟨16384⟩⟩, 0xFF0000FF⟩
        (CalculateBoundingBox ⟨⟨⟨0⟩, ⟨0⟩⟩, ⟨⟨16384⟩, ⟨16384⟩⟩, 0xFF0000FF⟩
          ⟨⟨⟨655360⟩, ⟨0⟩⟩, ⟨⟨16384⟩, ⟨16384⟩⟩, 0xFF0000FF⟩
          ⟨⟨⟨327680⟩, ⟨0⟩⟩, ⟨⟨16384⟩, ⟨16384⟩⟩, 0xFF0000FF⟩)), 3) := by
    decide!
  have hrun : (DrawCall.run (freshTarget 20 20)
      (DrawCall.UniformColorTriangle ⟨⟨⟨0⟩, ⟨0⟩⟩, ⟨⟨16384⟩, ⟨16384⟩⟩, 0xFF0000FF⟩
        ⟨⟨⟨655360⟩, ⟨0⟩⟩, ⟨⟨16384⟩, ⟨16384⟩⟩, 0xFF0000FF⟩
        ⟨⟨⟨327680⟩, ⟨0⟩⟩, ⟨⟨16384⟩, ⟨16384⟩⟩, 0xFF0000FF⟩
        (CalculateBoundingBox ⟨⟨⟨0⟩, ⟨0⟩⟩, ⟨⟨16384⟩, ⟨16384⟩⟩, 0xFF0000FF⟩
          ⟨⟨⟨655360⟩, ⟨0⟩⟩, ⟨⟨16384⟩, ⟨16384⟩⟩, 0xFF0000FF⟩
          ⟨⟨⟨327680⟩, ⟨0⟩⟩, ⟨⟨16384⟩, ⟨16384⟩⟩, 0xFF0000FF⟩))).isNone = true := by
    decide!
  refine ⟨hstep, hrun, ?_, by decide!, by decide!⟩
  intro fuel
  cases fuel with
  | zero => rfl
  | succ fuel =>
    unfold triangleLoop
    rw [if_pos (by decide), hstep]
    simp only [Option.some_bind]
    rw [Option.isNone_iff_eq_none.1 hrun]
    rfl

/-! ## C17: tiles of two triangles with one key -/

/-- C17: the triangle `(0,0)`, `(2,0)`, `(2,2)` and its translate by one pixel down have the
same cache key, but on a cache miss `DrawTriangle` writes three tile pixels for the first
and a single one for the second. -/
theorem translated_triangle_rasterizes_differently :
    TextureCacheKey.equiv
      (cacheKey (pixelVertex 0 0 0xFF0000FF) (pixelVertex 2 0 0xFF0000FF)
        (pixelVertex 2 2 0xFF0000FF)
        (CalculateBoundingBox (pixelVertex 0 0 0xFF0000FF) (pixelVertex 2 0 0xFF0000FF)
          (pixelVertex 2 2 0xFF0000FF)))
      (cacheKey (pixelVertex 0 1 0xFF0000FF) (pixelVertex 2 1 0xFF0000FF)
        (pixelVertex 2 3 0xFF0000FF)
        (CalculateBoundingBox (pixelVertex 0 1 0xFF0000FF) (pixelVertex 2 1 0xFF0000FF)
          (pixelVertex 2 3 0xFF0000FF))) = true ∧
    (DrawTriangle (freshTarget 20 20) (pixelVertex 0 0 0xFF0000FF)
        (pixelVertex 2 0 0xFF0000FF) (pixelVertex 2 2 0xFF0000FF) checkerTexture
        (CalculateBoundingBox (pixelVertex 0 0 0xFF0000FF) (pixelVertex 2 0 0xFF0000FF)
          (pixelVertex 2 2 0xFF0000FF))).map
        (fun target => pixelWrites target.Renderer (0, 0, 0, 0))
      = some [⟨2, 2, 255, 0, 0, 255⟩, ⟨3, 2, 255, 0, 0, 255⟩, ⟨3, 3, 255, 0, 0, 255⟩] ∧
    (DrawTriangle (freshTarget 20 20) (pixelVertex 0 1 0xFF0000FF)
        (pixelVertex 2 1 0xFF0000FF) (pixelVertex 2 3 0xFF0000FF) checkerTexture
        (CalculateBoundingBox (pixelVertex 0 1 0xFF0000FF) (pixelVertex 2 1 0xFF0000FF)
          (pixelVertex 2 3 0xFF0000FF))).map
        (fun target => pixelWrites target.Renderer (0, 0, 0, 0))
      = some [⟨3, 2, 255, 0, 0, 255⟩] := by
  decide!

/-! ## C19: a draw repeated -/

theorem TextureCacheKey.equiv_self (key : TextureCacheKey) :
    TextureCacheKey.equiv key key = true :=
  (TextureCacheKey.equiv_iff_eq key key).2 rfl

theorem find_map_replace {α β : Type} (entries : List (α × β)) (p : α → Bool) (b : β)
    (h : 0 < (entries.filter fun entry => p entry.1).length) :
    ((entries.map fun entry => if p entry.1 then (entry.1, b) else entry).find?
      fun entry => p entry.1).map Prod.snd = some b ∧
    0 < ((entries.map fun entry => if p entry.1 then (entry.1, b) else entry).filter
      fun entry => p entry.1).length := by
  induction entries with
  | nil => simp at h
  | cons e rest ih =>
    by_cases he : p e.1 = true
    · simp [List.find?, List.filter, he]
    · have he' : p e.1 = false := by simpa using he
      have h' : 0 < (rest.filter fun entry => p entry.1).length := by
        simpa [List.filter, he'] using h
      have := ih h'
      simpa [List.find?, List.filter, he'] using this

theorem find_append_new {α β : Type} (entries : List (α × β)) (p : α → Bool) (a : α) (b : β)
    (ha : p a = true) (h : (entries.filter fun entry => p entry.1).length = 0) :
    ((entries ++ [(a, b)]).find? fun entry => p entry.1).map Prod.snd = some b ∧
    0 < ((entries ++ [(a, b)]).filter fun entry => p entry.1).length := by
  induction entries with
  | nil => simp [List.find?, List.filter, ha]
  | cons e rest ih =>
    by_cases he : p e.1 = true
    · simp [List.filter, he] at h
    · have he' : p e.1 = false := by simpa using he
      have h' : (rest.filter fun entry => p entry.1).length = 0 := by
        simpa [List.filter, he'] using h
      have := ih h'
      simpa [List.find?, List.filter, he'] using this

/-- After `CacheTextures[key] = texture` the key is present and maps to `texture`. -/
theorem cacheSet_lookup (target : Target) (key : TextureCacheKey) (texture : SDL_Texture) :
    (target.cacheSet key texture).cacheAt key = some texture ∧
    0 < (target.cacheSet key texture).cacheCount key ∧
    (target.cacheSet key texture).Renderer = target.Renderer := by
  unfold Target.cacheSet Target.cacheAt Target.cacheCount
  by_cases h : 0 < (target.CacheTextures.filter
      fun entry => TextureCacheKey.equiv entry.1 key).length
  · have := find_map_replace target.CacheTextures (fun k => TextureCacheKey.equiv k key)
      texture h
    rw [if_pos h]
    exact ⟨this.1, this.2, rfl⟩
  · have h0 : (target.CacheTextures.filter
        fun entry => TextureCacheKey.equiv entry.1 key).length = 0 := by omega
    have := find_append_new target.CacheTextures (fun k => TextureCacheKey.equiv k key)
      key texture (TextureCacheKey.equiv_self key) h0
    rw [if_neg h]
    exact ⟨this.1, this.2, rfl⟩

theorem leavesTile_of_hit (target : Target) (key : TextureCacheKey) (destination : SDL_Rect)
    (after : Target) (hhit : 0 < target.cacheCount key)
    (h : (target.cacheAt key).map
      (fun cached => target.call (RenderCall.RenderCopy cached none destination)) = some after) :
    ∃ tile, LeavesTile after key tile destination ∧ target.cacheAt key = some tile := by
  rw [Option.map_eq_some'] at h
  obtain ⟨tile, ht, rfl⟩ := h
  refine ⟨tile, ⟨hhit, ht, ?_⟩, ht⟩
  simp [Target.call]

theorem leavesTile_of_miss (drawn after : Target) (key : TextureCacheKey) (tile : SDL_Texture)
    (destination : SDL_Rect)
    (h : (((drawn.EnableClip).UseAsRenderTarget none).call
        (RenderCall.RenderCopy tile none destination)).cacheSet key tile = after) :
    LeavesTile after key tile destination := by
  subst h
  obtain ⟨h1, h2, h3⟩ := cacheSet_lookup (((drawn.EnableClip).UseAsRenderTarget none).call
        (RenderCall.RenderCopy tile none destination)) key tile
  refine ⟨h2, h1, ?_⟩
  rw [h3]
  simp [Target.call]


theorem DrawTriangle_of_hit (target : Target) (v0 v1 v2 : FixedVertex) (texture : Texture)
    (bounding : Rect) (tile : SDL_Texture)
    (hcount : 0 < target.cacheCount (cacheKey v0 v1 v2 bounding))
    (hat : target.cacheAt (cacheKey v0 v1 v2 bounding) = some tile) :
    DrawTriangle target v0 v1 v2 texture bounding =
      some (target.call (RenderCall.RenderCopy tile none (cacheDestination bounding))) := by
  unfold DrawTriangle
  simp only [gt_iff_lt, hcount, if_true, hat, Option.map_some']

theorem DrawUniformColorTriangle_of_hit (target : Target) (v0 v1 v2 : FixedVertex)
    (bounding : Rect) (tile : SDL_Texture)
    (hcount : 0 < target.cacheCount (cacheKey v0 v1 v2 bounding))
    (hat : target.cacheAt (cacheKey v0 v1 v2 bounding) = some tile) :
    DrawUniformColorTriangle target v0 v1 v2 bounding =
      some (target.call (RenderCall.RenderCopy tile none (cacheDestination bounding))) := by
  unfold DrawUniformColorTriangle
  simp only [gt_iff_lt, hcount, if_true, hat, Option.map_some']

theorem DrawTriangle_leavesTile (target after : Target) (v0 v1 v2 : FixedVertex)
    (texture : Texture) (bounding : Rect)
    (h : DrawTriangle target v0 v1 v2 texture bounding = some after) :
    ∃ tile, LeavesTile after (cacheKey v0 v1 v2 bounding) tile (cacheDestination bounding) ∧
      (target.cacheCount (cacheKey v0 v1 v2 bounding) = 0 →
        tile = SDL_Texture.created target.Created) := by
  unfold DrawTriangle at h
  by_cases hc : target.cacheCount (cacheKey v0 v1 v2 bounding) > 0
  · rw [if_pos hc] at h
    obtain ⟨tile, ht, _⟩ := leavesTile_of_hit target _ _ after hc h
    exact ⟨tile, ht, fun h0 => by omega⟩
  · rw [if_neg hc, Option.map_eq_some'] at h
    obtain ⟨drawn, _, hd⟩ := h
    exact ⟨_, leavesTile_of_miss drawn after _ _ _ hd, fun _ => rfl⟩

theorem DrawUniformColorTriangle_leavesTile (target after : Target) (v0 v1 v2 : FixedVertex)
    (bounding : Rect)
    (h : DrawUniformColorTriangle target v0 v1 v2 bounding = some after) :
    ∃ tile, LeavesTile after (cacheKey v0 v1 v2 bounding) tile (cacheDestination bounding) ∧
      (target.cacheCount (cacheKey v0 v1 v2 bounding) = 0 →
        tile = SDL_Texture.created target.Created) := by
  unfold DrawUniformColorTriangle at h
  by_cases hc : target.cacheCount (cacheKey v0 v1 v2 bounding) > 0
  · rw [if_pos hc] at h
    obtain ⟨tile, ht, _⟩ := leavesTile_of_hit target _ _ after hc h
    exact ⟨tile, ht, fun h0 => by omega⟩
  · rw [if_neg hc, Option.map_eq_some'] at h
    obtain ⟨drawn, _, hd⟩ := h
    exact ⟨_, leavesTile_of_miss drawn after _ _ _ hd, fun _ => rfl⟩

/-- When a call of `DrawTriangle` (or of `DrawUniformColorTriangle`) returns, the cache
holds a tile under the key of the triangle and the call has ended by copying that tile to
the destination rectangle; on a miss the tile is the texture created by the call. A second
call with the same triangle right after it returns, appends to the renderer log the copy
of that same tile to the same rectangle and nothing else, creates no texture and leaves the
cache as it was. -/
theorem repeated_draw_hits_cache (target : Target) (v0 v1 v2 : FixedVertex) (texture : Texture)
    (bounding : Rect) :
    (∀ after : Target, DrawTriangle target v0 v1 v2 texture bounding = some after →
      ∃ (tile : SDL_Texture) (again : Target),
        LeavesTile after (cacheKey v0 v1 v2 bounding) tile (cacheDestination bounding) ∧
        (target.cacheCount (cacheKey v0 v1 v2 bounding) = 0 →
          tile = SDL_Texture.created target.Created) ∧
        DrawTriangle after v0 v1 v2 texture bounding = some again ∧
        again.Renderer = after.Renderer ++
          [RenderCall.RenderCopy tile none (cacheDestination bounding)] ∧
        again.CacheTextures = after.CacheTextures ∧ again.Created = after.Created) ∧
    (∀ after : Target, DrawUniformColorTriangle target v0 v1 v2 bounding = some after →
      ∃ (tile : SDL_Texture) (again : Target),
        LeavesTile after (cacheKey v0 v1 v2 bounding) tile (cacheDestination bounding) ∧
        (target.cacheCount (cacheKey v0 v1 v2 bounding) = 0 →
          tile = SDL_Texture.created target.Created) ∧
        DrawUniformColorTriangle after v0 v1 v2 bounding = some again ∧
        again.Renderer = after.Renderer ++
          [RenderCall.RenderCopy tile none (cacheDestination bounding)] ∧
        again.CacheTextures = after.CacheTextures ∧ again.Created = after.Created) := by
  constructor
  · intro after h
    obtain ⟨tile, ht, hnew⟩ := DrawTriangle_leavesTile target after v0 v1 v2 texture bounding h
    exact ⟨tile, _, ht, hnew,
      DrawTriangle_of_hit after v0 v1 v2 texture bounding tile ht.1 ht.2.1, rfl, rfl, rfl⟩
  · intro after h
    obtain ⟨tile, ht, hnew⟩ := DrawUniformColorTriangle_leavesTile target after v0 v1 v2
      bounding h
    exact ⟨tile, _, ht, hnew,
      DrawUniformColorTriangle_of_hit after v0 v1 v2 bounding tile ht.1 ht.2.1, rfl, rfl, rfl⟩

/-- The triangle `(0,0)`, `(2,0)`, `(2,2)` drawn twice on a fresh target, by either
rasterizer: the first call returns and the second is a hit. -/
theorem repeated_draw_hits_cache_witness :
    (∃ (after : Target) (tile : SDL_Texture) (again : Target),
      DrawTriangle (freshTarget 20 20) (pixelVertex 0 0 0xFF0000FF) (pixelVertex 2 0 0xFF0000FF)
        (pixelVertex 2 2 0xFF0000FF) checkerTexture
        (CalculateBoundingBox (pixelVertex 0 0 0xFF0000FF) (pixelVertex 2 0 0xFF0000FF)
          (pixelVertex 2 2 0xFF0000FF)) = some after ∧
      LeavesTile after
        (cacheKey (pixelVertex 0 0 0xFF0000FF) (pixelVertex 2 0 0xFF0000FF)
        (pixelVertex 2 2 0xFF0000FF)
          (CalculateBoundingBox (pixelVertex 0 0 0xFF0000FF) (pixelVertex 2 0 0xFF0000FF)
          (pixelVertex 2 2 0xFF0000FF)))
        tile
        (cacheDestination
          (CalculateBoundingBox (pixelVertex 0 0 0xFF0000FF) (pixelVertex 2 0 0xFF0000FF)
          (pixelVertex 2 2 0xFF0000FF))) ∧
      tile = SDL_Texture.created (freshTarget 20 20).Created ∧
      DrawTriangle after (pixelVertex 0 0 0xFF0000FF) (pixelVertex 2 0 0xFF0000FF)
        (pixelVertex 2 2 0xFF0000FF) checkerTexture
        (CalculateBoundingBox (pixelVertex 0 0 0xFF0000FF) (pixelVertex 2 0 0xFF0000FF)
          (pixelVertex 2 2 0xFF0000FF)) = some again ∧
      again.Renderer = after.Renderer ++
        [RenderCall.RenderCopy tile none
          (cacheDestination
            (CalculateBoundingBox (pixelVertex 0 0 0xFF0000FF) (pixelVertex 2 0 0xFF0000FF)
          (pixelVertex 2 2 0xFF0000FF)))] ∧
      again.CacheTextures = after.CacheTextures ∧ again.Created = after.Created) ∧
    (∃ (after : Target) (tile : SDL_Texture) (again : Target),
      DrawUniformColorTriangle (freshTarget 20 20) (pixelVertex 0 0 0xFF0000FF) (pixelVertex 2 0 0xFF0000FF)
        (pixelVertex 2 2 0xFF0000FF)
        (CalculateBoundingBox (pixelVertex 0 0 0xFF0000FF) (pixelVertex 2 0 0xFF0000FF)
          (pixelVertex 2 2 0xFF0000FF)) = some after ∧
      LeavesTile after
        (cacheKey (pixelVertex 0 0 0xFF0000FF) (pixelVertex 2 0 0xFF0000FF)
        (pixelVertex 2 2 0xFF0000FF)
          (CalculateBoundingBox (pixelVertex 0 0 0xFF0000FF) (pixelVertex 2 0 0xFF0000FF)
          (pixelVertex 2 2 0xFF0000FF)))
        tile
        (cacheDestination
          (CalculateBoundingBox (pixelVertex 0 0 0xFF0000FF) (pixelVertex 2 0 0xFF0000FF)
          (pixelVertex 2 2 0xFF0000FF))) ∧
      tile = SDL_Texture.created (freshTarget 20 20).Created ∧
      DrawUniformColorTriangle after (pixelVertex 0 0 0xFF0000FF) (pixelVertex 2 0 0xFF0000FF)
        (pixelVertex 2 2 0xFF0000FF)
        (CalculateBoundingBox (pixelVertex 0 0 0xFF0000FF) (pixelVertex 2 0 0xFF0000FF)
          (pixelVertex 2 2 0xFF0000FF)) = some again ∧
      again.Renderer = after.Renderer ++
        [RenderCall.RenderCopy tile none
          (cacheDestination
            (CalculateBoundingBox (pixelVertex 0 0 0xFF0000FF) (pixelVertex 2 0 0xFF0000FF)
          (pixelVertex 2 2 0xFF0000FF)))] ∧
      again.CacheTextures = after.CacheTextures ∧ again.Created = after.Created) := by
  constructor
  · have hsome : (DrawTriangle (freshTarget 20 20) (pixelVertex 0 0 0xFF0000FF) (pixelVertex 2 0 0xFF0000FF)
        (pixelVertex 2 2 0xFF0000FF) checkerTexture
        (CalculateBoundingBox (pixelVertex 0 0 0xFF0000FF) (pixelVertex 2 0 0xFF0000FF)
          (pixelVertex 2 2 0xFF0000FF))).isSome = true := by
      decide!
    obtain ⟨after, hafter⟩ := Option.isSome_iff_exists.1 hsome
    obtain ⟨tile, again, hleaves, hnew, hagain, hlog, hcache, hcreated⟩ :=
      (repeated_draw_hits_cache (freshTarget 20 20) (pixelVertex 0 0 0xFF0000FF) (pixelVertex 2 0 0xFF0000FF)
        (pixelVertex 2 2 0xFF0000FF) checkerTexture
        (CalculateBoundingBox (pixelVertex 0 0 0xFF0000FF) (pixelVertex 2 0 0xFF0000FF)
          (pixelVertex 2 2 0xFF0000FF))).1 after hafter
    exact ⟨after, tile, again, hafter, hleaves, hnew (by decide!), hagain, hlog, hcache,
      hcreated⟩
  · have hsome : (DrawUniformColorTriangle (freshTarget 20 20) (pixelVertex 0 0 0xFF0000FF) (pixelVertex 2 0 0xFF0000FF)
        (pixelVertex 2 2 0xFF0000FF)
        (CalculateBoundingBox (pixelVertex 0 0 0xFF0000FF) (pixelVertex 2 0 0xFF0000FF)
          (pixelVertex 2 2 0xFF0000FF))).isSome = true := by
      decide!
    obtain ⟨after, hafter⟩ := Option.isSome_iff_exists.1 hsome
    obtain ⟨tile, again, hleaves, hnew, hagain, hlog, hcache, hcreated⟩ :=
      (repeated_draw_hits_cache (freshTarget 20 20) (pixelVertex 0 0 0xFF0000FF) (pixelVertex 2 0 0xFF0000FF)
        (pixelVertex 2 2 0xFF0000FF) checkerTexture
        (CalculateBoundingBox (pixelVertex 0 0 0xFF0000FF) (pixelVertex 2 0 0xFF0000FF)
          (pixelVertex 2 2 0xFF0000FF))).2 after hafter
    exact ⟨after, tile, again, hafter, hleaves, hnew (by decide!), hagain, hlog, hcache,
      hcreated⟩

/-- C19, the code at the flat triangle `(0,0)`, `(10,0)`, `(5,0)` for
`DrawUniformColorTriangle` and at the sliver with raw positions `(0, 0)`, `(65536, 65534)`,
`(32770, 32770)` for `DrawTriangle`, each on a fresh target: the key is not in the cache,
the first call divides by zero before it reaches `CacheTextures[key] = cacheTexture` and has
no result, so there is no state after it in which the key is stored and no second call. -/
theorem trapped_first_draw_stores_no_tile :
    (freshTarget 20 20).cacheCount (cacheKey (pixelVertex 0 0 0xFF0000FF)
      (pixelVertex 10 0 0xFF0000FF) (pixelVertex 5 0 0xFF0000FF)
      (CalculateBoundingBox (pixelVertex 0 0 0xFF0000FF) (pixelVertex 10 0 0xFF0000FF)
        (pixelVertex 5 0 0xFF0000FF))) = 0 ∧
    (DrawUniformColorTriangle (freshTarget 20 20) (pixelVertex 0 0 0xFF0000FF)
      (pixelVertex 10 0 0xFF0000FF) (pixelVertex 5 0 0xFF0000FF)
      (CalculateBoundingBox (pixelVertex 0 0 0xFF0000FF) (pixelVertex 10 0 0xFF0000FF)
        (pixelVertex 5 0 0xFF0000FF))).isNone = true ∧
    (¬ ∃ after : Target, DrawUniformColorTriangle (freshTarget 20 20) (pixelVertex 0 0 0xFF0000FF)
      (pixelVertex 10 0 0xFF0000FF) (pixelVertex 5 0 0xFF0000FF)
      (CalculateBoundingBox (pixelVertex 0 0 0xFF0000FF) (pixelVertex 10 0 0xFF0000FF)
        (pixelVertex 5 0 0xFF0000FF)) = some after) ∧
    (freshTarget 20 20).cacheCount (cacheKey (rawVertex 0 0 0xFFFFFFFF)
      (rawVertex 65536 65534 0xFFFFFFFF) (rawVertex 32770 32770 0xFFFFFFFF)
      (CalculateBoundingBox (rawVertex 0 0 0xFFFFFFFF) (rawVertex 65536 65534 0xFFFFFFFF)
        (rawVertex 32770 32770 0xFFFFFFFF))) = 0 ∧
    (DrawTriangle (freshTarget 20 20) (rawVertex 0 0 0xFFFFFFFF)
      (rawVertex 65536 65534 0xFFFFFFFF) (rawVertex 32770 32770 0xFFFFFFFF) checkerTexture
      (CalculateBoundingBox (rawVertex 0 0 0xFFFFFFFF) (rawVertex 65536 65534 0xFFFFFFFF)
        (rawVertex 32770 32770 0xFFFFFFFF))).isNone = true ∧
    (¬ ∃ after : Target, DrawTriangle (freshTarget 20 20) (rawVertex 0 0 0xFFFFFFFF)
      (rawVertex 65536 65534 0xFFFFFFFF) (rawVertex 32770 32770 0xFFFFFFFF) checkerTexture
      (CalculateBoundingBox (rawVertex 0 0 0xFFFFFFFF) (rawVertex 65536 65534 0xFFFFFFFF)
        (rawVertex 32770 32770 0xFFFFFFFF)) = some after) := by
  have hflat : (DrawUniformColorTriangle (freshTarget 20 20) (pixelVertex 0 0 0xFF0000FF)
      (pixelVertex 10 0 0xFF0000FF) (pixelVertex 5 0 0xFF0000FF)
      (CalculateBoundingBox (pixelVertex 0 0 0xFF0000FF) (pixelVertex 10 0 0xFF0000FF)
        (pixelVertex 5 0 0xFF0000FF))).isNone = true := by
    decide!
  have hsliver : (DrawTriangle (freshTarget 20 20) (rawVertex 0 0 0xFFFFFFFF)
      (rawVertex 65536 65534 0xFFFFFFFF) (rawVertex 32770 32770 0xFFFFFFFF) checkerTexture
      (CalculateBoundingBox (rawVertex 0 0 0xFFFFFFFF) (rawVertex 65536 65534 0xFFFFFFFF)
        (rawVertex 32770 32770 0xFFFFFFFF))).isNone = true := by
    decide!
  refine ⟨by decide!, hflat, ?_, by decide!, hsliver, ?_⟩
  · rintro ⟨after, h⟩
    rw [h] at hflat
    cases hflat
  · rintro ⟨after, h⟩
    rw [h] at hsliver
    cases hsliver

/-! ## C21: a colour unpacked and packed again -/

/-- The table of the round trip of one channel: the bytes `0` and `128..255` come back, each
of the bytes `1..127` comes back one less. -/
theorem channel_round_trip_table :
    ∀ b ∈ List.range 256,
      channelRoundTrip b = if b = 0 ∨ 128 ≤ b then b else b - 1 := by
  decide!

/-- C21, counterexample, the colours `0x00000001` and `0xFF7F4001`: the byte `1` becomes the raw
value `257` and `257 / 65536 * 255` is below one, so `ToInt` gives `0x00000000`; the bytes
`0x01`, `0x40`, `0x7F`, `0xFF` come back as `0x00`, `0x3F`, `0x7E`, `0xFF`, from `ToInt` and
in the draw colour that `SetAt` sets; a colour with the bytes `0xFF`, `0x80`, `0x00` alone
comes back unchanged. -/
theorem colour_round_trip_loses_one :
    (Color.ofUInt32 0x00000001).R = ⟨257⟩ ∧
    (Color.ofUInt32 0x00000001).ToInt = 0x00000000 ∧
    (Color.ofUInt32 0xFF7F4001).ToInt = 0xFF7E3F00 ∧
    (Color.ofUInt32 0xFF0080FF).ToInt = 0xFF0080FF ∧
    pixelWrites ((freshTarget 20 20).SetAt 3 4 (Color.ofUInt32 0xFF7F4001)).Renderer (0, 0, 0, 0)
      = [⟨3, 4, 0, 63, 126, 255⟩] := by
  decide!

theorem channelRoundTrip_of_lt (b : Nat) (h : b < 256) : channelRoundTrip b = returnedByte b :=
  channel_round_trip_table b (List.mem_range.2 h)

theorem channelByte_ofUInt32 (color shift : Nat) :
    Color.channelByte (fixed.ofFloat (roundFloat ((((color >>> shift) &&& 0xff : Nat) : ℚ) / 255)))
      = returnedByte ((color >>> shift) &&& 0xff) :=
  channelRoundTrip_of_lt _ (Nat.and_lt_two_pow _ (by decide : 0xff < 2 ^ 8))

theorem toUint8_eq_channelByte (channel : fixed) :
    toUint8 (channel.to_double * 255) = (Color.channelByte channel : Int) := by
  unfold toUint8 Color.channelByte
  rw [Int.toNat_of_nonneg (Int.emod_nonneg _ (by decide))]

/-- C21, amended: a channel byte `b`, converted to fixed point as `b/255` and back by scaling
by 255 and truncating, comes back as `b` when `b` is `0` or at least `128` and as `b - 1`
when `b` is from `1` to `127`; for every colour `c`, `Color(c).ToInt()` is the colour made
of the four bytes that come back, and `SetAt` sets these four bytes as the draw colour
before it draws the point. -/
theorem colour_round_trip_by_channel (c : Nat) :
    (∀ b : Fin 256, channelRoundTrip b = returnedByte b) ∧
    (Color.ofUInt32 c).ToInt =
      (returnedByte ((c >>> 0) &&& 0xff) <<< 0) ||| (returnedByte ((c >>> 8) &&& 0xff) <<< 8) |||
        (returnedByte ((c >>> 16) &&& 0xff) <<< 16) |||
        (returnedByte ((c >>> 24) &&& 0xff) <<< 24) ∧
    ∀ (target : Target) (x y : Int),
      (target.SetAt x y (Color.ofUInt32 c)).Renderer = target.Renderer ++
        [RenderCall.SetRenderDrawColor (returnedByte ((c >>> 0) &&& 0xff))
          (returnedByte ((c >>> 8) &&& 0xff)) (returnedByte ((c >>> 16) &&& 0xff))
          (returnedByte ((c >>> 24) &&& 0xff)),
         RenderCall.SetRenderDrawBlendMode, RenderCall.RenderDrawPoint x y] := by
  refine ⟨fun b => channelRoundTrip_of_lt b b.isLt, ?_, ?_⟩
  · unfold Color.ToInt Color.ofUInt32
    simp only [channelByte_ofUInt32]
  · intro target x y
    unfold Target.SetAt
    simp only [Target.call_Renderer, toUint8_eq_channelByte]
    unfold Color.ofUInt32
    simp only [channelByte_ofUInt32, List.append_assoc, List.cons_append, List.nil_append]

/-! ## C22: the rectangle test on a triangle listed twice -/

/-- C22, the code at the triangle `(0,0)`, `(10,0)`, `(0,10)` listed twice (indices
`0, 1, 3, 0, 1, 3` into the quad): the six positions are three corners of the box from
`(0,0)` to `(10,10)`, the corner `(10,10)` is not among them, and the pass calls
`DrawRectangle`, which copies the whole texture onto the whole box, and advances by six.
Listed once, the triangle goes to `DrawTriangle`, which writes only the 45 pixels `(x, y)`
with `x + y <= 8` of its tile. The degenerate triangle `(0,0)`, `(10,10)`, `(0,0)` listed
twice is classified as a rectangle as well. -/
theorem doubled_triangle_takes_rectangle_path :
    (groupVertices (quadVertices 0xFFFFFFFF) [0, 1, 3, 0, 1, 3] 0).map FixedVertex.Position =
      [⟨⟨0⟩, ⟨0⟩⟩, ⟨⟨655360⟩, ⟨0⟩⟩, ⟨⟨0⟩, ⟨655360⟩⟩,
       ⟨⟨0⟩, ⟨0⟩⟩, ⟨⟨655360⟩, ⟨0⟩⟩, ⟨⟨0⟩, ⟨655360⟩⟩] ∧
    triangleStep (quadVertices 0xFFFFFFFF) [0, 1, 3, 0, 1, 3] 6 checkerTexture 0 =
      some (DrawCall.Rectangle
        (CalculateBoundingBox (texturedVertex 0 0 0 0 0xFFFFFFFF)
          (texturedVertex 10 0 1 0 0xFFFFFFFF) (texturedVertex 0 10 0 1 0xFFFFFFFF))
        checkerTexture (Color.ofUInt32 0xFFFFFFFF), 6) ∧
    boxCorners
      (CalculateBoundingBox (texturedVertex 0 0 0 0 0xFFFFFFFF)
        (texturedVertex 10 0 1 0 0xFFFFFFFF) (texturedVertex 0 10 0 1 0xFFFFFFFF)).MinX
      (CalculateBoundingBox (texturedVertex 0 0 0 0 0xFFFFFFFF)
        (texturedVertex 10 0 1 0 0xFFFFFFFF) (texturedVertex 0 10 0 1 0xFFFFFFFF)).MinY
      (CalculateBoundingBox (texturedVertex 0 0 0 0 0xFFFFFFFF)
        (texturedVertex 10 0 1 0 0xFFFFFFFF) (texturedVertex 0 10 0 1 0xFFFFFFFF)).MaxX
      (CalculateBoundingBox (texturedVertex 0 0 0 0 0xFFFFFFFF)
        (texturedVertex 10 0 1 0 0xFFFFFFFF) (texturedVertex 0 10 0 1 0xFFFFFFFF)).MaxY =
      [⟨⟨0⟩, ⟨0⟩⟩, ⟨⟨655360⟩, ⟨0⟩⟩, ⟨⟨655360⟩, ⟨655360⟩⟩, ⟨⟨0⟩, ⟨655360⟩⟩] ∧
    (⟨⟨655360⟩, ⟨655360⟩⟩ : FixedVector) ∉
      (groupVertices (quadVertices 0xFFFFFFFF) [0, 1, 3, 0, 1, 3] 0).map FixedVertex.Position ∧
    (DrawRectangle (freshTarget 20 20)
      (CalculateBoundingBox (texturedVertex 0 0 0 0 0xFFFFFFFF)
        (texturedVertex 10 0 1 0 0xFFFFFFFF) (texturedVertex 0 10 0 1 0xFFFFFFFF))
      checkerTexture (Color.ofUInt32 0xFFFFFFFF)).Renderer =
      [RenderCall.SetTextureColorMod (SDL_Texture.external 0) 255 255 255,
       RenderCall.RenderCopy (SDL_Texture.external 0) (some ⟨0, 0, 2, 2⟩) ⟨0, 0, 10, 10⟩] ∧
    triangleStep (quadVertices 0xFFFFFFFF) [0, 1, 3] 3 checkerTexture 0 =
      some (DrawCall.Triangle (texturedVertex 0 0 0 0 0xFFFFFFFF)
        (texturedVertex 10 0 1 0 0xFFFFFFFF) (texturedVertex 0 10 0 1 0xFFFFFFFF) checkerTexture
        (CalculateBoundingBox (texturedVertex 0 0 0 0 0xFFFFFFFF)
          (texturedVertex 10 0 1 0 0xFFFFFFFF) (texturedVertex 0 10 0 1 0xFFFFFFFF)), 3) ∧
    (groupVertices (quadVertices 0xFFFFFFFF) [0, 2, 0, 0, 2, 0] 0).map FixedVertex.Position =
      [⟨⟨0⟩, ⟨0⟩⟩, ⟨⟨655360⟩, ⟨655360⟩⟩, ⟨⟨0⟩, ⟨0⟩⟩,
       ⟨⟨0⟩, ⟨0⟩⟩, ⟨⟨655360⟩, ⟨655360⟩⟩, ⟨⟨0⟩, ⟨0⟩⟩] ∧
    triangleStep (quadVertices 0xFFFFFFFF) [0, 2, 0, 0, 2, 0] 6 checkerTexture 0 =
      some (DrawCall.Rectangle
        (CalculateBoundingBox (texturedVertex 0 0 0 0 0xFFFFFFFF)
          (texturedVertex 10 10 1 1 0xFFFFFFFF) (texturedVertex 0 0 0 0 0xFFFFFFFF))
        checkerTexture (Color.ofUInt32 0xFFFFFFFF), 6) ∧
    (DrawTriangle (freshTarget 20 20) (texturedVertex 0 0 0 0 0xFFFFFFFF)
        (texturedVertex 10 0 1 0 0xFFFFFFFF) (texturedVertex 0 10 0 1 0xFFFFFFFF) checkerTexture
        (CalculateBoundingBox (texturedVertex 0 0 0 0 0xFFFFFFFF)
          (texturedVertex 10 0 1 0 0xFFFFFFFF) (texturedVertex 0 10 0 1 0xFFFFFFFF))).map
        (fun target => (pixelWrites target.Renderer (0, 0, 0, 0)).map fun p => (p.x, p.y))
      = some ((intRange 0 8).flatMap fun y =>
          (intRange 0 (8 - y)).map fun x => (x + 2, y + 2)) := by
  decide!

/-! ## C23: interpolation at the vertices -/

theorem sumOfProducts_value (p q x r s t y u : fixed)
    (h : SumOfProductsInRange (p.value - q.value) (x.value - r.value) (s.value - t.value)
      (y.value - u.value)) :
    ((p - q) * (x - r) + (s - t) * (y - u)).value =
      (p.value - q.value) * (x.value - r.value) / 65536
        + (s.value - t.value) * (y.value - u.value) / 65536 := by
  obtain ⟨h1, h2, h3, h4, h5, h6, h7⟩ := h
  simp only [fixed.add_value, fixed.mul_value, fixed.sub_value,
    wrap32_of_inRange h1, wrap32_of_inRange h2, wrap32_of_inRange h3, wrap32_of_inRange h4,
    wrap32_of_inRange h5, wrap32_of_inRange h6, wrap32_of_inRange h7]

theorem Evaluate_of_numerators (value0 value1 value2 : fixed) (v0 v1 v2 : FixedVector)
    (x y : fixed) (n1 n2 : Int)
    (hD : (InterpolatedFactorEquation.new value0 value1 value2 v0 v1 v2).Divisor.value ≠ 0)
    (h1 : ((v1.Y - v2.Y) * (x - v2.X) + (v2.X - v1.X) * (y - v2.Y)).value = n1)
    (h2 : ((v2.Y - v0.Y) * (x - v2.X) + (v0.X - v2.X) * (y - v2.Y)).value = n2) :
    (InterpolatedFactorEquation.new value0 value1 value2 v0 v1 v2).Evaluate x y =
      some (fixed.mk (wrap32 (Int.tdiv (n1 * 65536)
          (InterpolatedFactorEquation.new value0 value1 value2 v0 v1 v2).Divisor.value)) * value0
        + fixed.mk (wrap32 (Int.tdiv (n2 * 65536)
          (InterpolatedFactorEquation.new value0 value1 value2 v0 v1 v2).Divisor.value)) * value1
        + (fixed.mk 65536
          - fixed.mk (wrap32 (Int.tdiv (n1 * 65536)
            (InterpolatedFactorEquation.new value0 value1 value2 v0 v1 v2).Divisor.value))
          - fixed.mk (wrap32 (Int.tdiv (n2 * 65536)
            (InterpolatedFactorEquation.new value0 value1 value2 v0 v1 v2).Divisor.value)))
          * value2) := by
  unfold InterpolatedFactorEquation.Evaluate InterpolatedFactorEquation.weights
  rw [div_of_ne_zero _ _ hD, div_of_ne_zero _ _ hD]
  simp only [Option.some_bind, Option.map_some', fixed.ofDouble_one]
  have e1 : (InterpolatedFactorEquation.new value0 value1 value2 v0 v1 v2).V1 = v1 := rfl
  have e2 : (InterpolatedFactorEquation.new value0 value1 value2 v0 v1 v2).V2 = v2 := rfl
  have e0 : (InterpolatedFactorEquation.new value0 value1 value2 v0 v1 v2).V0 = v0 := rfl
  rw [e0, e1, e2, h1, h2]
  rfl

theorem one_times_add_zeros (v a b : fixed) (h : InRange32 v.value) :
    fixed.mk 65536 * v + fixed.mk 0 * a + fixed.mk 0 * b = v := by
  rw [fixed.eq_iff]
  simp only [fixed.add_value, fixed.mul_value]
  rw [Int.zero_mul, Int.zero_mul, Int.zero_ediv, Int.mul_comm,
    Int.mul_ediv_cancel _ (by decide : (65536 : Int) ≠ 0), wrap32_of_inRange h]
  unfold InRange32 at h
  unfold wrap32
  omega

theorem zero_one_zero_times (v a b : fixed) (h : InRange32 v.value) :
    fixed.mk 0 * a + fixed.mk 65536 * v + fixed.mk 0 * b = v := by
  rw [fixed.eq_iff]
  simp only [fixed.add_value, fixed.mul_value]
  rw [Int.zero_mul, Int.zero_mul, Int.zero_ediv, Int.mul_comm 65536,
    Int.mul_ediv_cancel _ (by decide : (65536 : Int) ≠ 0), wrap32_of_inRange h]
  unfold InRange32 at h
  unfold wrap32
  omega

theorem zeros_add_one_times (v a b : fixed) (h : InRange32 v.value) :
    fixed.mk 0 * a + fixed.mk 0 * b + fixed.mk 65536 * v = v := by
  rw [fixed.eq_iff]
  simp only [fixed.add_value, fixed.mul_value]
  rw [Int.zero_mul, Int.zero_mul, Int.zero_ediv, Int.mul_comm 65536,
    Int.mul_ediv_cancel _ (by decide : (65536 : Int) ≠ 0), wrap32_of_inRange h]
  unfold InRange32 at h
  unfold wrap32
  omega

theorem wrap32_one_of_ne_zero (d : Int) (h : d ≠ 0) : wrap32 (Int.tdiv (d * 65536) d) = 65536 := by
  rw [Int.mul_tdiv_cancel_left _ h]
  rfl

theorem wrap32_zero_tdiv (d : Int) : wrap32 (Int.tdiv (0 * 65536) d) = 0 := by
  rw [Int.zero_mul, Int.zero_tdiv]
  rfl

/-- C23: for three whole-pixel positions with a non-zero `Divisor`, when neither `Divisor`
nor the numerators of the weights at the three positions overflow and the three attribute
values are `int32_t` values, `Evaluate` at `V0`, `V1`, `V2` returns `Value0`, `Value1`,
`Value2`: the weights there are exactly `(1, 0, 0)`, `(0, 1, 0)` and `(0, 0, 1)`. -/
theorem interpolation_reproduces_vertex_attributes (value0 value1 value2 : fixed)
    (v0 v1 v2 : FixedVector)
    (hv0 : InRange32 value0.value) (hv1 : InRange32 value1.value)
    (hv2 : InRange32 value2.value)
    (hw0 : WholePixel v0) (hw1 : WholePixel v1) (hw2 : WholePixel v2)
    (hD : DivisorInRange v0 v1 v2)
    (h0 : NumeratorsInRange v0 v1 v2 v0.X v0.Y) (h1 : NumeratorsInRange v0 v1 v2 v1.X v1.Y)
    (h2 : NumeratorsInRange v0 v1 v2 v2.X v2.Y)
    (hne : (InterpolatedFactorEquation.new value0 value1 value2 v0 v1 v2).Divisor.value ≠ 0) :
    (InterpolatedFactorEquation.new value0 value1 value2 v0 v1 v2).Evaluate v0.X v0.Y
      = some value0 ∧
    (InterpolatedFactorEquation.new value0 value1 value2 v0 v1 v2).Evaluate v1.X v1.Y
      = some value1 ∧
    (InterpolatedFactorEquation.new value0 value1 value2 v0 v1 v2).Evaluate v2.X v2.Y
      = some value2 := by
  have hDv := Divisor_value_of_inRange value0 value1 value2 v0 v1 v2 hD
  obtain ⟨⟨a0, ha0⟩, ⟨b0, hb0⟩⟩ := hw0
  obtain ⟨⟨a1, ha1⟩, ⟨b1, hb1⟩⟩ := hw1
  obtain ⟨⟨a2, ha2⟩, ⟨b2, hb2⟩⟩ := hw2
  refine ⟨?_, ?_, ?_⟩
  · have n1 := sumOfProducts_value v1.Y v2.Y v0.X v2.X v2.X v1.X v0.Y v2.Y h0.1
    have n2 := sumOfProducts_value v2.Y v0.Y v0.X v2.X v0.X v2.X v0.Y v2.Y h0.2
    rw [← hDv] at n1
    have z : (v2.Y.value - v0.Y.value) * (v0.X.value - v2.X.value) / 65536
        + (v0.X.value - v2.X.value) * (v0.Y.value - v2.Y.value) / 65536 = 0 := by
      rw [ha0, ha2, hb0, hb2]
      rw [show (65536 * b2 - 65536 * b0) * (65536 * a0 - 65536 * a2)
          = (65536 * ((b2 - b0) * (a0 - a2))) * 65536 by ring,
        show (65536 * a0 - 65536 * a2) * (65536 * b0 - 65536 * b2)
          = (65536 * ((a0 - a2) * (b0 - b2))) * 65536 by ring,
        Int.mul_ediv_cancel _ (by decide : (65536 : Int) ≠ 0),
        Int.mul_ediv_cancel _ (by decide : (65536 : Int) ≠ 0)]
      ring
    rw [z] at n2
    rw [Evaluate_of_numerators value0 value1 value2 v0 v1 v2 v0.X v0.Y _ _ hne n1 n2,
      wrap32_one_of_ne_zero _ hne, wrap32_zero_tdiv]
    exact congrArg some (one_times_add_zeros value0 value1 value2 hv0)
  · have n1 := sumOfProducts_value v1.Y v2.Y v1.X v2.X v2.X v1.X v1.Y v2.Y h1.1
    have n2 := sumOfProducts_value v2.Y v0.Y v1.X v2.X v0.X v2.X v1.Y v2.Y h1.2
    have z : (v1.Y.value - v2.Y.value) * (v1.X.value - v2.X.value) / 65536
        + (v2.X.value - v1.X.value) * (v1.Y.value - v2.Y.value) / 65536 = 0 := by
      rw [ha1, ha2, hb1, hb2]
      rw [show (65536 * b1 - 65536 * b2) * (65536 * a1 - 65536 * a2)
          = (65536 * ((b1 - b2) * (a1 - a2))) * 65536 by ring,
        show (65536 * a2 - 65536 * a1) * (65536 * b1 - 65536 * b2)
          = (65536 * ((a2 - a1) * (b1 - b2))) * 65536 by ring,
        Int.mul_ediv_cancel _ (by decide : (65536 : Int) ≠ 0),
        Int.mul_ediv_cancel _ (by decide : (65536 : Int) ≠ 0)]
      ring
    rw [z] at n1
    have d : (v2.Y.value - v0.Y.value) * (v1.X.value - v2.X.value) / 65536
        + (v0.X.value - v2.X.value) * (v1.Y.value - v2.Y.value) / 65536
        = (InterpolatedFactorEquation.new value0 value1 value2 v0 v1 v2).Divisor.value := by
      rw [hDv,
        show (v2.Y.value - v0.Y.value) * (v1.X.value - v2.X.value)
          = (v2.X.value - v1.X.value) * (v0.Y.value - v2.Y.value) by ring,
        show (v0.X.value - v2.X.value) * (v1.Y.value - v2.Y.value)
          = (v1.Y.value - v2.Y.value) * (v0.X.value - v2.X.value) by ring]
      ring
    rw [d] at n2
    rw [Evaluate_of_numerators value0 value1 value2 v0 v1 v2 v1.X v1.Y _ _ hne n1 n2,
      wrap32_one_of_ne_zero _ hne, wrap32_zero_tdiv]
    exact congrArg some (zero_one_zero_times value1 value0 value2 hv1)
  · have n1 := sumOfProducts_value v1.Y v2.Y v2.X v2.X v2.X v1.X v2.Y v2.Y h2.1
    have n2 := sumOfProducts_value v2.Y v0.Y v2.X v2.X v0.X v2.X v2.Y v2.Y h2.2
    rw [Int.sub_self, Int.sub_self, Int.mul_zero, Int.mul_zero, Int.zero_ediv] at n1 n2
    rw [Evaluate_of_numerators value0 value1 value2 v0 v1 v2 v2.X v2.Y _ _ hne n1 n2]
    have w : wrap32 (Int.tdiv ((0 + 0) * 65536)
        (InterpolatedFactorEquation.new value0 value1 value2 v0 v1 v2).Divisor.value) = 0 := by
      rw [Int.add_zero]
      exact wrap32_zero_tdiv _
    rw [w]
    exact congrArg some (zeros_add_one_times value2 value0 value1 hv2)

/-- C23, at an instance: the positions `(0,0)`, `(10,0)`, `(0,10)` with the attribute values
`1`, `0` and `128/255`. -/
theorem interpolation_reproduces_vertex_attributes_witness :
    (InterpolatedFactorEquation.new ⟨65536⟩ ⟨0⟩ ⟨32896⟩ ⟨⟨0⟩, ⟨0⟩⟩ ⟨⟨655360⟩, ⟨0⟩⟩
      ⟨⟨0⟩, ⟨655360⟩⟩).Evaluate ⟨0⟩ ⟨0⟩ = some ⟨65536⟩ ∧
    (InterpolatedFactorEquation.new ⟨65536⟩ ⟨0⟩ ⟨32896⟩ ⟨⟨0⟩, ⟨0⟩⟩ ⟨⟨655360⟩, ⟨0⟩⟩
      ⟨⟨0⟩, ⟨655360⟩⟩).Evaluate ⟨655360⟩ ⟨0⟩ = some ⟨0⟩ ∧
    (InterpolatedFactorEquation.new ⟨65536⟩ ⟨0⟩ ⟨32896⟩ ⟨⟨0⟩, ⟨0⟩⟩ ⟨⟨655360⟩, ⟨0⟩⟩
      ⟨⟨0⟩, ⟨655360⟩⟩).Evaluate ⟨0⟩ ⟨655360⟩ = some ⟨32896⟩ :=
  interpolation_reproduces_vertex_attributes ⟨65536⟩ ⟨0⟩ ⟨32896⟩ ⟨⟨0⟩, ⟨0⟩⟩ ⟨⟨655360⟩, ⟨0⟩⟩
    ⟨⟨0⟩, ⟨655360⟩⟩ (by decide) (by decide) (by decide) (by decide) (by decide) (by decide)
    (by decide) (by decide) (by decide) (by decide) (by decide)

end ImGuiSDL
